import Mathlib

/-!
HelloTriangleApplication (src/main.cpp): off-screen triangle rendering over Vulkan.

The program is a straight-line host program that talks to a Vulkan backend.
The embedding keeps the host code as it is written and makes the backend
explicit:

* every backend entry point the program calls is a constructor of `Call`,
  carrying the arguments the program passes;
* a `Backend` answers a call with a result code and an output handle, and
  may look at the whole history of calls made so far;
* a program is a function from the backend and the history so far to an
  outcome (normal return or the message of the exception thrown) and the
  extended history.

All properties are stated on the history of calls ("trace"). The progress
lines the program prints to `std::cout` are not backend calls and are left
out. Code of the repository that main.cpp uses but does not contain
(vk_utils.h) is modelled from the specification; each such definition says
so.

The file has two parts: the definitions (the embedding of main.cpp, then the
vocabulary of the properties), and the theorems.
-/

namespace HelloTriangleApplication

/-! ## Vulkan base types and constants (vulkan_core.h) -/

/-- Result code of a backend call (`VkResult`, a C enum). -/
abbrev VkResult := Int

/-- Every Vulkan object handle. -/
abbrev Handle := Nat

def VK_SUCCESS : VkResult := 0
def VK_NOT_READY : VkResult := 1
def VK_TIMEOUT : VkResult := 2
def VK_ERROR_OUT_OF_HOST_MEMORY : VkResult := -1
def VK_ERROR_OUT_OF_DEVICE_MEMORY : VkResult := -2
def VK_ERROR_DEVICE_LOST : VkResult := -4

def VK_NULL_HANDLE : Handle := 0
def VK_TRUE : Nat := 1
def VK_FALSE : Nat := 0

def VK_COMMAND_BUFFER_LEVEL_PRIMARY : Nat := 0
def VK_COMMAND_BUFFER_USAGE_ONE_TIME_SUBMIT_BIT : Nat := 1

def VK_IMAGE_LAYOUT_UNDEFINED : Nat := 0
def VK_IMAGE_LAYOUT_COLOR_ATTACHMENT_OPTIMAL : Nat := 2
def VK_IMAGE_LAYOUT_TRANSFER_SRC_OPTIMAL : Nat := 6
def VK_IMAGE_LAYOUT_PRESENT_SRC_KHR : Nat := 1000001002

def VK_MEMORY_PROPERTY_DEVICE_LOCAL_BIT : Nat := 1
def VK_MEMORY_PROPERTY_HOST_VISIBLE_BIT : Nat := 2
def VK_MEMORY_PROPERTY_HOST_COHERENT_BIT : Nat := 4

def VK_QUEUE_GRAPHICS_BIT : Nat := 1
def VK_QUEUE_TRANSFER_BIT : Nat := 4

def VK_FORMAT_R8G8B8A8_UNORM : Nat := 37
def VK_FORMAT_R32G32_SFLOAT : Nat := 103

def VK_BUFFER_USAGE_TRANSFER_DST_BIT : Nat := 2
def VK_BUFFER_USAGE_STORAGE_BUFFER_BIT : Nat := 32
def VK_BUFFER_USAGE_VERTEX_BUFFER_BIT : Nat := 128
def VK_SHARING_MODE_EXCLUSIVE : Nat := 0

def VK_IMAGE_TYPE_2D : Nat := 1
def VK_IMAGE_TILING_OPTIMAL : Nat := 0
def VK_IMAGE_USAGE_TRANSFER_SRC_BIT : Nat := 1
def VK_IMAGE_USAGE_COLOR_ATTACHMENT_BIT : Nat := 16
def VK_IMAGE_VIEW_TYPE_2D : Nat := 1
def VK_IMAGE_ASPECT_COLOR_BIT : Nat := 1
def VK_COMPONENT_SWIZZLE_R : Nat := 3
def VK_COMPONENT_SWIZZLE_G : Nat := 4
def VK_COMPONENT_SWIZZLE_B : Nat := 5
def VK_COMPONENT_SWIZZLE_A : Nat := 6

def VK_SAMPLE_COUNT_1_BIT : Nat := 1
def VK_ATTACHMENT_LOAD_OP_CLEAR : Nat := 1
def VK_ATTACHMENT_LOAD_OP_DONT_CARE : Nat := 2
def VK_ATTACHMENT_STORE_OP_STORE : Nat := 0
def VK_ATTACHMENT_STORE_OP_DONT_CARE : Nat := 1
def VK_PIPELINE_BIND_POINT_GRAPHICS : Nat := 0
def VK_SUBPASS_EXTERNAL : Nat := 4294967295
def VK_SUBPASS_CONTENTS_INLINE : Nat := 0
def VK_PIPELINE_STAGE_COLOR_ATTACHMENT_OUTPUT_BIT : Nat := 1024
def VK_ACCESS_COLOR_ATTACHMENT_READ_BIT : Nat := 128
def VK_ACCESS_COLOR_ATTACHMENT_WRITE_BIT : Nat := 256

def VK_SHADER_STAGE_VERTEX_BIT : Nat := 1
def VK_SHADER_STAGE_FRAGMENT_BIT : Nat := 16
def VK_VERTEX_INPUT_RATE_VERTEX : Nat := 0
def VK_PRIMITIVE_TOPOLOGY_TRIANGLE_LIST : Nat := 3
def VK_POLYGON_MODE_FILL : Nat := 0
def VK_CULL_MODE_NONE : Nat := 0
def VK_FRONT_FACE_CLOCKWISE : Nat := 1
def VK_LOGIC_OP_COPY : Nat := 3
def VK_COLOR_COMPONENT_R_BIT : Nat := 1
def VK_COLOR_COMPONENT_G_BIT : Nat := 2
def VK_COLOR_COMPONENT_B_BIT : Nat := 4
def VK_COLOR_COMPONENT_A_BIT : Nat := 8

/-! ## C arithmetic -/

/-- Value of a C `float`, kept as the exact fraction `num / den` it denotes. -/
structure CFloat where
  num : Int
  den : Nat
deriving DecidableEq, Repr

/-- Size of `float` in bytes (`sizeof(float)`). -/
def sizeof_float : Nat := 4
/-- Size of `int` in bytes (`sizeof(int)`). -/
def sizeof_int : Nat := 4

/-- Result of 32-bit `int` arithmetic: the mathematical value wrapped into
`[-2^31, 2^31)`. -/
def wrapInt32 (x : Int) : Int := (x + 2147483648) % 4294967296 - 2147483648

/-- The mathematical value fits an `int`, so computing it does not overflow. -/
def fitsInt32 (x : Int) : Prop := -2147483648 ≤ x ∧ x < 2147483648

instance (x : Int) : Decidable (fitsInt32 x) := by
  unfold fitsInt32; exact inferInstance

/-- Conversion `uint32_t(x)` of an `int`. -/
def toUInt32 (x : Int) : Nat := (x % 4294967296).toNat

/-- Conversion of an `int` to `size_t` (64 bit). -/
def toSizeT (x : Int) : Nat := (x % 18446744073709551616).toNat

/-- Multiplication of two `size_t` values. -/
def mulSizeT (a b : Nat) : Nat := (a * b) % 18446744073709551616

/-- Conversion `(float)x` of a `uint32_t`: exact below 2^24, otherwise rounded
to the nearest value with a 24-bit significand, ties to the even one. -/
def floatOfUInt32 (x : Nat) : CFloat :=
  if x < 16777216 then ⟨x, 1⟩
  else
    let e := ((List.range 9).find? (fun e => decide (x < 16777216 * 2 ^ e))).getD 8
    let q := x / 2 ^ e
    let r := x % 2 ^ e
    let q1 := if 2 ^ e < 2 * r ∨ (2 * r = 2 ^ e ∧ q % 2 = 1) then q + 1 else q
    ⟨(q1 * 2 ^ e : Nat), 1⟩

/-! ## Argument structures (only the members the program sets; every other
member is zero-initialised by `= {}`) -/

structure VkExtent2D where
  width : Nat
  height : Nat
deriving DecidableEq, Repr

structure VkOffset2D where
  x : Int
  y : Int
deriving DecidableEq, Repr

structure VkRect2D where
  offset : VkOffset2D
  extent : VkExtent2D
deriving DecidableEq, Repr

structure VkExtent3D where
  width : Nat
  height : Nat
  depth : Nat
deriving DecidableEq, Repr

structure VkOffset3D where
  x : Int
  y : Int
  z : Int
deriving DecidableEq, Repr

structure VkCommandBufferAllocateInfo where
  commandPool : Handle
  level : Nat
  commandBufferCount : Nat
deriving DecidableEq, Repr

structure VkCommandBufferBeginInfo where
  flags : Nat
deriving DecidableEq, Repr

structure VkFenceCreateInfo where
  flags : Nat
deriving DecidableEq, Repr

structure VkSubmitInfo where
  waitSemaphoreCount : Nat
  commandBufferCount : Nat
  pCommandBuffers : List Handle
  signalSemaphoreCount : Nat
deriving DecidableEq, Repr

structure VkRenderPassBeginInfo where
  renderPass : Handle
  framebuffer : Handle
  renderArea : VkRect2D
  clearValueCount : Nat
  pClearValues : List (List CFloat)
deriving DecidableEq, Repr

structure VkImageSubresourceLayers where
  aspectMask : Nat
  mipLevel : Nat
  baseArrayLayer : Nat
  layerCount : Nat
deriving DecidableEq, Repr

structure VkBufferImageCopy where
  bufferOffset : Nat
  bufferRowLength : Nat
  bufferImageHeight : Nat
  imageSubresource : VkImageSubresourceLayers
  imageOffset : VkOffset3D
  imageExtent : VkExtent3D
deriving DecidableEq, Repr

structure VkBufferCreateInfo where
  size : Nat
  usage : Nat
  sharingMode : Nat
deriving DecidableEq, Repr

structure VkMemoryRequirements where
  size : Nat
  alignment : Nat
  memoryTypeBits : Nat
deriving DecidableEq, Repr

structure VkMemoryAllocateInfo where
  allocationSize : Nat
  memoryTypeIndex : Nat
deriving DecidableEq, Repr

structure VkImageCreateInfo where
  flags : Nat
  imageType : Nat
  format : Nat
  extent : VkExtent3D
  mipLevels : Nat
  arrayLayers : Nat
  samples : Nat
  tiling : Nat
  usage : Nat
  sharingMode : Nat
  initialLayout : Nat
deriving DecidableEq, Repr

structure VkComponentMapping where
  r : Nat
  g : Nat
  b : Nat
  a : Nat
deriving DecidableEq, Repr

structure VkImageSubresourceRange where
  aspectMask : Nat
  baseMipLevel : Nat
  levelCount : Nat
  baseArrayLayer : Nat
  layerCount : Nat
deriving DecidableEq, Repr

structure VkImageViewCreateInfo where
  flags : Nat
  image : Handle
  viewType : Nat
  format : Nat
  components : VkComponentMapping
  subresourceRange : VkImageSubresourceRange
deriving DecidableEq, Repr

structure VkFramebufferCreateInfo where
  renderPass : Handle
  attachmentCount : Nat
  pAttachments : List Handle
  width : Nat
  height : Nat
  layers : Nat
deriving DecidableEq, Repr

structure VkAttachmentDescription where
  format : Nat
  samples : Nat
  loadOp : Nat
  storeOp : Nat
  stencilLoadOp : Nat
  stencilStoreOp : Nat
  initialLayout : Nat
  finalLayout : Nat
deriving DecidableEq, Repr

structure VkAttachmentReference where
  attachment : Nat
  layout : Nat
deriving DecidableEq, Repr

structure VkSubpassDescription where
  pipelineBindPoint : Nat
  inputAttachmentCount : Nat
  colorAttachmentCount : Nat
  pColorAttachments : List VkAttachmentReference
  preserveAttachmentCount : Nat
deriving DecidableEq, Repr

structure VkSubpassDependency where
  srcSubpass : Nat
  dstSubpass : Nat
  srcStageMask : Nat
  dstStageMask : Nat
  srcAccessMask : Nat
  dstAccessMask : Nat
deriving DecidableEq, Repr

structure VkRenderPassCreateInfo where
  attachmentCount : Nat
  pAttachments : List VkAttachmentDescription
  subpassCount : Nat
  pSubpasses : List VkSubpassDescription
  dependencyCount : Nat
  pDependencies : List VkSubpassDependency
deriving DecidableEq, Repr

structure VkPipelineShaderStageCreateInfo where
  stage : Nat
  module : Handle
  pName : String
deriving DecidableEq, Repr

structure VkVertexInputBindingDescription where
  binding : Nat
  stride : Nat
  inputRate : Nat
deriving DecidableEq, Repr

structure VkVertexInputAttributeDescription where
  location : Nat
  binding : Nat
  format : Nat
  offset : Nat
deriving DecidableEq, Repr

structure VkPipelineVertexInputStateCreateInfo where
  vertexBindingDescriptionCount : Nat
  pVertexBindingDescriptions : List VkVertexInputBindingDescription
  vertexAttributeDescriptionCount : Nat
  pVertexAttributeDescriptions : List VkVertexInputAttributeDescription
deriving DecidableEq, Repr

structure VkPipelineInputAssemblyStateCreateInfo where
  topology : Nat
  primitiveRestartEnable : Nat
deriving DecidableEq, Repr

structure VkViewport where
  x : CFloat
  y : CFloat
  width : CFloat
  height : CFloat
  minDepth : CFloat
  maxDepth : CFloat
deriving DecidableEq, Repr

structure VkPipelineViewportStateCreateInfo where
  viewportCount : Nat
  pViewports : List VkViewport
  scissorCount : Nat
  pScissors : List VkRect2D
deriving DecidableEq, Repr

structure VkPipelineRasterizationStateCreateInfo where
  depthClampEnable : Nat
  rasterizerDiscardEnable : Nat
  polygonMode : Nat
  cullMode : Nat
  frontFace : Nat
  depthBiasEnable : Nat
  lineWidth : CFloat
deriving DecidableEq, Repr

structure VkPipelineMultisampleStateCreateInfo where
  rasterizationSamples : Nat
  sampleShadingEnable : Nat
deriving DecidableEq, Repr

structure VkPipelineColorBlendAttachmentState where
  blendEnable : Nat
  colorWriteMask : Nat
deriving DecidableEq, Repr

structure VkPipelineColorBlendStateCreateInfo where
  logicOpEnable : Nat
  logicOp : Nat
  attachmentCount : Nat
  pAttachments : List VkPipelineColorBlendAttachmentState
  blendConstants : List CFloat
deriving DecidableEq, Repr

structure VkPipelineLayoutCreateInfo where
  setLayoutCount : Nat
  pushConstantRangeCount : Nat
deriving DecidableEq, Repr

structure VkGraphicsPipelineCreateInfo where
  stageCount : Nat
  pStages : List VkPipelineShaderStageCreateInfo
  pVertexInputState : VkPipelineVertexInputStateCreateInfo
  pInputAssemblyState : VkPipelineInputAssemblyStateCreateInfo
  pViewportState : VkPipelineViewportStateCreateInfo
  pRasterizationState : VkPipelineRasterizationStateCreateInfo
  pMultisampleState : VkPipelineMultisampleStateCreateInfo
  pColorBlendState : VkPipelineColorBlendStateCreateInfo
  layout : Handle
  renderPass : Handle
  subpass : Nat
  basePipelineHandle : Handle
deriving DecidableEq, Repr

structure VkCommandPoolCreateInfo where
  queueFamilyIndex : Nat
deriving DecidableEq, Repr

/-! ## Backend calls -/

/-- One call of the program into the backend, with its arguments. -/
inductive Call where
  | vkAllocateCommandBuffers (device : Handle) (info : VkCommandBufferAllocateInfo)
  | vkBeginCommandBuffer (cmdBuff : Handle) (info : VkCommandBufferBeginInfo)
  | vkEndCommandBuffer (cmdBuff : Handle)
  | vkCmdUpdateBuffer (cmdBuff dstBuffer : Handle) (dstOffset dataSize : Nat)
      (pData : List CFloat)
  | vkCmdBeginRenderPass (cmdBuff : Handle) (info : VkRenderPassBeginInfo) (contents : Nat)
  | vkCmdBindPipeline (cmdBuff : Handle) (bindPoint : Nat) (pipeline : Handle)
  | vkCmdBindVertexBuffers (cmdBuff : Handle) (firstBinding bindingCount : Nat)
      (pBuffers : List Handle) (pOffsets : List Nat)
  | vkCmdDraw (cmdBuff : Handle) (vertexCount instanceCount firstVertex firstInstance : Nat)
  | vkCmdEndRenderPass (cmdBuff : Handle)
  | vkCmdCopyImageToBuffer (cmdBuff srcImage : Handle) (srcImageLayout : Nat)
      (dstBuffer : Handle) (regionCount : Nat) (pRegions : List VkBufferImageCopy)
  | vkCreateFence (device : Handle) (info : VkFenceCreateInfo)
  | vkQueueSubmit (queue : Handle) (submitCount : Nat) (pSubmits : List VkSubmitInfo)
      (fence : Handle)
  | vkWaitForFences (device : Handle) (fenceCount : Nat) (pFences : List Handle)
      (waitAll : Nat) (timeout : Nat)
  | vkDestroyFence (device fence : Handle)
  | vkFreeCommandBuffers (device commandPool : Handle) (count : Nat)
      (pCommandBuffers : List Handle)
  | vkCreateBuffer (device : Handle) (info : VkBufferCreateInfo)
  | vkGetBufferMemoryRequirements (device buffer : Handle)
  | vkAllocateMemory (device : Handle) (info : VkMemoryAllocateInfo)
  | vkBindBufferMemory (device buffer memory : Handle) (memoryOffset : Nat)
  | vkCreateImage (device : Handle) (info : VkImageCreateInfo)
  | vkGetImageMemoryRequirements (device image : Handle)
  | vkBindImageMemory (device image memory : Handle) (memoryOffset : Nat)
  | vkCreateImageView (device : Handle) (info : VkImageViewCreateInfo)
  | vkCreateFramebuffer (device : Handle) (info : VkFramebufferCreateInfo)
  | vkCreateRenderPass (device : Handle) (info : VkRenderPassCreateInfo)
  | vkCreatePipelineLayout (device : Handle) (info : VkPipelineLayoutCreateInfo)
  | vkCreateGraphicsPipelines (device pipelineCache : Handle) (createInfoCount : Nat)
      (pCreateInfos : List VkGraphicsPipelineCreateInfo)
  | vkDestroyShaderModule (device shaderModule : Handle)
  | vkMapMemory (device memory : Handle) (offset size flags : Nat)
  | vkUnmapMemory (device memory : Handle)
  | vkGetDeviceQueue (device : Handle) (queueFamilyIndex queueIndex : Nat)
  | vkCreateCommandPool (device : Handle) (info : VkCommandPoolCreateInfo)
  | vkCreateDevice (physicalDevice : Handle) (queueFamilyIndices : List Nat)
  | SaveBMP (fname : String) (pixels : Handle) (w h : Int)
  | CreateInstance (enableValidationLayers : Bool)
  | InitDebugReportCallback (inst : Handle)
  | FindPhysicalDevice (inst : Handle) (printInfo : Bool) (deviceId : Int)
  | ReadFile (filename : String)
  | CreateShaderModule (device code : Handle)
  | vkDestroyBuffer (device buffer : Handle)
  | vkFreeMemory (device memory : Handle)
  | vkDestroyImageView (device imageView : Handle)
  | vkDestroyImage (device image : Handle)
  | vkDestroyFramebuffer (device framebuffer : Handle)
  | vkDestroyRenderPass (device renderPass : Handle)
  | vkGetInstanceProcAddr (inst : Handle) (pName : String)
  | vkDestroyDebugReportCallbackEXT (func inst callback : Handle)
  | vkDestroyCommandPool (device commandPool : Handle)
  | vkDestroyPipeline (device pipeline : Handle)
  | vkDestroyPipelineLayout (device pipelineLayout : Handle)
  | vkDestroyDevice (device : Handle)
  | vkDestroyInstance (inst : Handle)
deriving Repr

/-- Equality of two calls as a boolean: the same call with the same
arguments. -/
def Call.beq (a b : Call) : Bool :=
  match a with
  | .vkAllocateCommandBuffers x1 x2 =>
    match b with
    | .vkAllocateCommandBuffers y1 y2 => decide (x1 = y1 ∧ x2 = y2)
    | _ => false
  | .vkBeginCommandBuffer x1 x2 =>
    match b with
    | .vkBeginCommandBuffer y1 y2 => decide (x1 = y1 ∧ x2 = y2)
    | _ => false
  | .vkEndCommandBuffer x1 =>
    match b with
    | .vkEndCommandBuffer y1 => decide (x1 = y1)
    | _ => false
  | .vkCmdUpdateBuffer x1 x2 x3 x4 x5 =>
    match b with
    | .vkCmdUpdateBuffer y1 y2 y3 y4 y5 => decide (x1 = y1 ∧ x2 = y2 ∧ x3 = y3 ∧ x4 = y4 ∧ x5 = y5)
    | _ => false
  | .vkCmdBeginRenderPass x1 x2 x3 =>
    match b with
    | .vkCmdBeginRenderPass y1 y2 y3 => decide (x1 = y1 ∧ x2 = y2 ∧ x3 = y3)
    | _ => false
  | .vkCmdBindPipeline x1 x2 x3 =>
    match b with
    | .vkCmdBindPipeline y1 y2 y3 => decide (x1 = y1 ∧ x2 = y2 ∧ x3 = y3)
    | _ => false
  | .vkCmdBindVertexBuffers x1 x2 x3 x4 x5 =>
    match b with
    | .vkCmdBindVertexBuffers y1 y2 y3 y4 y5 => decide (x1 = y1 ∧ x2 = y2 ∧ x3 = y3 ∧ x4 = y4 ∧ x5 = y5)
    | _ => false
  | .vkCmdDraw x1 x2 x3 x4 x5 =>
    match b with
    | .vkCmdDraw y1 y2 y3 y4 y5 => decide (x1 = y1 ∧ x2 = y2 ∧ x3 = y3 ∧ x4 = y4 ∧ x5 = y5)
    | _ => false
  | .vkCmdEndRenderPass x1 =>
    match b with
    | .vkCmdEndRenderPass y1 => decide (x1 = y1)
    | _ => false
  | .vkCmdCopyImageToBuffer x1 x2 x3 x4 x5 x6 =>
    match b with
    | .vkCmdCopyImageToBuffer y1 y2 y3 y4 y5 y6 => decide (x1 = y1 ∧ x2 = y2 ∧ x3 = y3 ∧ x4 = y4 ∧ x5 = y5 ∧ x6 = y6)
    | _ => false
  | .vkCreateFence x1 x2 =>
    match b with
    | .vkCreateFence y1 y2 => decide (x1 = y1 ∧ x2 = y2)
    | _ => false
  | .vkQueueSubmit x1 x2 x3 x4 =>
    match b with
    | .vkQueueSubmit y1 y2 y3 y4 => decide (x1 = y1 ∧ x2 = y2 ∧ x3 = y3 ∧ x4 = y4)
    | _ => false
  | .vkWaitForFences x1 x2 x3 x4 x5 =>
    match b with
    | .vkWaitForFences y1 y2 y3 y4 y5 => decide (x1 = y1 ∧ x2 = y2 ∧ x3 = y3 ∧ x4 = y4 ∧ x5 = y5)
    | _ => false
  | .vkDestroyFence x1 x2 =>
    match b with
    | .vkDestroyFence y1 y2 => decide (x1 = y1 ∧ x2 = y2)
    | _ => false
  | .vkFreeCommandBuffers x1 x2 x3 x4 =>
    match b with
    | .vkFreeCommandBuffers y1 y2 y3 y4 => decide (x1 = y1 ∧ x2 = y2 ∧ x3 = y3 ∧ x4 = y4)
    | _ => false
  | .vkCreateBuffer x1 x2 =>
    match b with
    | .vkCreateBuffer y1 y2 => decide (x1 = y1 ∧ x2 = y2)
    | _ => false
  | .vkGetBufferMemoryRequirements x1 x2 =>
    match b with
    | .vkGetBufferMemoryRequirements y1 y2 => decide (x1 = y1 ∧ x2 = y2)
    | _ => false
  | .vkAllocateMemory x1 x2 =>
    match b with
    | .vkAllocateMemory y1 y2 => decide (x1 = y1 ∧ x2 = y2)
    | _ => false
  | .vkBindBufferMemory x1 x2 x3 x4 =>
    match b with
    | .vkBindBufferMemory y1 y2 y3 y4 => decide (x1 = y1 ∧ x2 = y2 ∧ x3 = y3 ∧ x4 = y4)
    | _ => false
  | .vkCreateImage x1 x2 =>
    match b with
    | .vkCreateImage y1 y2 => decide (x1 = y1 ∧ x2 = y2)
    | _ => false
  | .vkGetImageMemoryRequirements x1 x2 =>
    match b with
    | .vkGetImageMemoryRequirements y1 y2 => decide (x1 = y1 ∧ x2 = y2)
    | _ => false
  | .vkBindImageMemory x1 x2 x3 x4 =>
    match b with
    | .vkBindImageMemory y1 y2 y3 y4 => decide (x1 = y1 ∧ x2 = y2 ∧ x3 = y3 ∧ x4 = y4)
    | _ => false
  | .vkCreateImageView x1 x2 =>
    match b with
    | .vkCreateImageView y1 y2 => decide (x1 = y1 ∧ x2 = y2)
    | _ => false
  | .vkCreateFramebuffer x1 x2 =>
    match b with
    | .vkCreateFramebuffer y1 y2 => decide (x1 = y1 ∧ x2 = y2)
    | _ => false
  | .vkCreateRenderPass x1 x2 =>
    match b with
    | .vkCreateRenderPass y1 y2 => decide (x1 = y1 ∧ x2 = y2)
    | _ => false
  | .vkCreatePipelineLayout x1 x2 =>
    match b with
    | .vkCreatePipelineLayout y1 y2 => decide (x1 = y1 ∧ x2 = y2)
    | _ => false
  | .vkCreateGraphicsPipelines x1 x2 x3 x4 =>
    match b with
    | .vkCreateGraphicsPipelines y1 y2 y3 y4 => decide (x1 = y1 ∧ x2 = y2 ∧ x3 = y3 ∧ x4 = y4)
    | _ => false
  | .vkDestroyShaderModule x1 x2 =>
    match b with
    | .vkDestroyShaderModule y1 y2 => decide (x1 = y1 ∧ x2 = y2)
    | _ => false
  | .vkMapMemory x1 x2 x3 x4 x5 =>
    match b with
    | .vkMapMemory y1 y2 y3 y4 y5 => decide (x1 = y1 ∧ x2 = y2 ∧ x3 = y3 ∧ x4 = y4 ∧ x5 = y5)
    | _ => false
  | .vkUnmapMemory x1 x2 =>
    match b with
    | .vkUnmapMemory y1 y2 => decide (x1 = y1 ∧ x2 = y2)
    | _ => false
  | .vkGetDeviceQueue x1 x2 x3 =>
    match b with
    | .vkGetDeviceQueue y1 y2 y3 => decide (x1 = y1 ∧ x2 = y2 ∧ x3 = y3)
    | _ => false
  | .vkCreateCommandPool x1 x2 =>
    match b with
    | .vkCreateCommandPool y1 y2 => decide (x1 = y1 ∧ x2 = y2)
    | _ => false
  | .vkCreateDevice x1 x2 =>
    match b with
    | .vkCreateDevice y1 y2 => decide (x1 = y1 ∧ x2 = y2)
    | _ => false
  | .SaveBMP x1 x2 x3 x4 =>
    match b with
    | .SaveBMP y1 y2 y3 y4 => decide (x1 = y1 ∧ x2 = y2 ∧ x3 = y3 ∧ x4 = y4)
    | _ => false
  | .CreateInstance x1 =>
    match b with
    | .CreateInstance y1 => decide (x1 = y1)
    | _ => false
  | .InitDebugReportCallback x1 =>
    match b with
    | .InitDebugReportCallback y1 => decide (x1 = y1)
    | _ => false
  | .FindPhysicalDevice x1 x2 x3 =>
    match b with
    | .FindPhysicalDevice y1 y2 y3 => decide (x1 = y1 ∧ x2 = y2 ∧ x3 = y3)
    | _ => false
  | .ReadFile x1 =>
    match b with
    | .ReadFile y1 => decide (x1 = y1)
    | _ => false
  | .CreateShaderModule x1 x2 =>
    match b with
    | .CreateShaderModule y1 y2 => decide (x1 = y1 ∧ x2 = y2)
    | _ => false
  | .vkDestroyBuffer x1 x2 =>
    match b with
    | .vkDestroyBuffer y1 y2 => decide (x1 = y1 ∧ x2 = y2)
    | _ => false
  | .vkFreeMemory x1 x2 =>
    match b with
    | .vkFreeMemory y1 y2 => decide (x1 = y1 ∧ x2 = y2)
    | _ => false
  | .vkDestroyImageView x1 x2 =>
    match b with
    | .vkDestroyImageView y1 y2 => decide (x1 = y1 ∧ x2 = y2)
    | _ => false
  | .vkDestroyImage x1 x2 =>
    match b with
    | .vkDestroyImage y1 y2 => decide (x1 = y1 ∧ x2 = y2)
    | _ => false
  | .vkDestroyFramebuffer x1 x2 =>
    match b with
    | .vkDestroyFramebuffer y1 y2 => decide (x1 = y1 ∧ x2 = y2)
    | _ => false
  | .vkDestroyRenderPass x1 x2 =>
    match b with
    | .vkDestroyRenderPass y1 y2 => decide (x1 = y1 ∧ x2 = y2)
    | _ => false
  | .vkGetInstanceProcAddr x1 x2 =>
    match b with
    | .vkGetInstanceProcAddr y1 y2 => decide (x1 = y1 ∧ x2 = y2)
    | _ => false
  | .vkDestroyDebugReportCallbackEXT x1 x2 x3 =>
    match b with
    | .vkDestroyDebugReportCallbackEXT y1 y2 y3 => decide (x1 = y1 ∧ x2 = y2 ∧ x3 = y3)
    | _ => false
  | .vkDestroyCommandPool x1 x2 =>
    match b with
    | .vkDestroyCommandPool y1 y2 => decide (x1 = y1 ∧ x2 = y2)
    | _ => false
  | .vkDestroyPipeline x1 x2 =>
    match b with
    | .vkDestroyPipeline y1 y2 => decide (x1 = y1 ∧ x2 = y2)
    | _ => false
  | .vkDestroyPipelineLayout x1 x2 =>
    match b with
    | .vkDestroyPipelineLayout y1 y2 => decide (x1 = y1 ∧ x2 = y2)
    | _ => false
  | .vkDestroyDevice x1 =>
    match b with
    | .vkDestroyDevice y1 => decide (x1 = y1)
    | _ => false
  | .vkDestroyInstance x1 =>
    match b with
    | .vkDestroyInstance y1 => decide (x1 = y1)
    | _ => false

set_option maxHeartbeats 4000000 in
instance : DecidableEq Call := fun a b =>
  decidable_of_iff (Call.beq a b = true) (by
    constructor
    · intro h
      cases a <;> cases b <;>
        first
        | exact Bool.noConfusion h
        | (have h2 := of_decide_eq_true h
           clear h
           try casesm* _ ∧ _
           subst_vars
           rfl)
    · intro h
      subst h
      cases a <;> exact decide_eq_true (by repeat' constructor))

/-- The backend: for a call made after the history `t` it gives the result
code the call returns and the handle it writes through its output pointer. -/
structure Backend where
  result : List Call → Call → VkResult
  handle : List Call → Call → Handle
  /-- What `vkGetBufferMemoryRequirements` / `vkGetImageMemoryRequirements` report. -/
  memReq : List Call → Call → VkMemoryRequirements
  /-- The memory-type table of a physical device: the property flags of the
  memory types, in index order. -/
  memoryTypes : Handle → List Nat
  /-- The queue family that `vk_utils::GetQueueFamilyIndex` finds on a physical
  device for a capability bit, if there is one. -/
  queueFamilyIndex : Handle → Nat → Option Nat

/-! ## Programs -/

/-- A host program: from the backend and the calls made so far to its outcome
(a value, or the message of the exception it throws) and the calls made. -/
def Prog (α : Type) : Type := Backend → List Call → Except String α × List Call

/-- Run a program. -/
def Prog.run {α : Type} (m : Prog α) (b : Backend) (t : List Call) :
    Except String α × List Call := m b t

instance : Monad Prog where
  pure a := fun _ t => (Except.ok a, t)
  bind m f := fun b t =>
    match m b t with
    | (Except.ok a, t1) => f a b t1
    | (Except.error e, t1) => (Except.error e, t1)

instance : MonadExcept String Prog where
  throw e := fun _ t => (Except.error e, t)
  tryCatch m h := fun b t =>
    match m b t with
    | (Except.ok a, t1) => (Except.ok a, t1)
    | (Except.error e, t1) => h e b t1

/-- A backend call whose result code the program receives. -/
def call (c : Call) : Prog VkResult :=
  fun b t => (Except.ok (b.result t c), t ++ [c])

/-- A backend call that also writes a handle through an output pointer. -/
def callOut (c : Call) : Prog (VkResult × Handle) :=
  fun b t => (Except.ok (b.result t c, b.handle t c), t ++ [c])

/-- A backend call that returns `void`. -/
def callVoid (c : Call) : Prog Unit :=
  fun _ t => (Except.ok (), t ++ [c])

/-- A backend query that returns memory requirements through an output
pointer. -/
def callReq (c : Call) : Prog VkMemoryRequirements :=
  fun b t => (Except.ok (b.memReq t c), t ++ [c])

/-- A backend call that returns `void` and writes a handle through an output
pointer. -/
def callHandle (c : Call) : Prog Handle :=
  fun b t => (Except.ok (b.handle t c), t ++ [c])

/-- Modelled from the spec: the macro `VK_CHECK_RESULT` of vk_utils.h, which is
not part of main.cpp. It receives the result of the call it wraps. The spec
treats every backend rejection as fatal ("fail fatally if the timeout elapses
or the wait call itself errors", "every error in every component is treated
as fatal"), so a result other than `VK_SUCCESS` ends the program with an
error. -/
def VK_CHECK_RESULT (res : VkResult) : Prog Unit :=
  if res ≠ VK_SUCCESS then
    throw "Fatal : VkResult is not VK_SUCCESS"
  else
    pure ()

/-- Body of `RunCommandBuffer` (main.cpp 627-654). -/
def RunCommandBuffer (a_cmdBuff a_queue a_device : Handle) : Prog Unit := do
  let submitInfo : VkSubmitInfo :=
    { waitSemaphoreCount := 0, commandBufferCount := 1,
      pCommandBuffers := [a_cmdBuff], signalSemaphoreCount := 0 }
  let fenceCreateInfo : VkFenceCreateInfo := { flags := 0 }
  let (res, fence) ← callOut (Call.vkCreateFence a_device fenceCreateInfo)
  VK_CHECK_RESULT res
  let res ← call (Call.vkQueueSubmit a_queue 1 [submitInfo] fence)
  VK_CHECK_RESULT res
  let res ← call (Call.vkWaitForFences a_device 1 [fence] VK_TRUE 100000000000)
  VK_CHECK_RESULT res
  callVoid (Call.vkDestroyFence a_device fence)

/-- Body of `PutTriangleVerticesToVBO_Now` (main.cpp 658-682). -/
def PutTriangleVerticesToVBO_Now (a_device a_pool a_queue : Handle)
    (a_triPos : List CFloat) (a_floatsNum : Int) (a_buffer : Handle) : Prog Unit := do
  let allocInfo : VkCommandBufferAllocateInfo :=
    { commandPool := a_pool, level := VK_COMMAND_BUFFER_LEVEL_PRIMARY,
      commandBufferCount := 1 }
  let (res, cmdBuff) ← callOut (Call.vkAllocateCommandBuffers a_device allocInfo)
  if res ≠ VK_SUCCESS then
    throw "[PutTriangleVerticesToVBO_Now]: failed to allocate command buffer!"
  let beginInfo : VkCommandBufferBeginInfo :=
    { flags := VK_COMMAND_BUFFER_USAGE_ONE_TIME_SUBMIT_BIT }
  let _ ← call (Call.vkBeginCommandBuffer cmdBuff beginInfo)
  callVoid (Call.vkCmdUpdateBuffer cmdBuff a_buffer 0
    (mulSizeT (toSizeT a_floatsNum) sizeof_float) a_triPos)
  let _ ← call (Call.vkEndCommandBuffer cmdBuff)
  RunCommandBuffer cmdBuff a_queue a_device
  callVoid (Call.vkFreeCommandBuffers a_device a_pool 1 [cmdBuff])

/-- Body of `RenderToTexture_Now` (main.cpp 408-459). -/
def RenderToTexture_Now (a_device a_cmdPool a_queue a_graphicsPipeline a_vPosBuffer
    a_fbo : Handle) (a_frameBufferExtent : VkExtent2D) (a_renderPass : Handle) :
    Prog Unit := do
  let allocInfo : VkCommandBufferAllocateInfo :=
    { commandPool := a_cmdPool, level := VK_COMMAND_BUFFER_LEVEL_PRIMARY,
      commandBufferCount := 1 }
  let (res, cmdBuff) ← callOut (Call.vkAllocateCommandBuffers a_device allocInfo)
  if res ≠ VK_SUCCESS then
    throw "[RenderToTexture_Now]: failed to allocate command buffer!"
  let beginInfo : VkCommandBufferBeginInfo :=
    { flags := VK_COMMAND_BUFFER_USAGE_ONE_TIME_SUBMIT_BIT }
  let _ ← call (Call.vkBeginCommandBuffer cmdBuff beginInfo)
  let clearColor : List CFloat := [⟨0, 1⟩, ⟨0, 1⟩, ⟨1, 4⟩, ⟨1, 1⟩]
  let renderPassInfo : VkRenderPassBeginInfo :=
    { renderPass := a_renderPass, framebuffer := a_fbo,
      renderArea := { offset := { x := 0, y := 0 }, extent := a_frameBufferExtent },
      clearValueCount := 1, pClearValues := [clearColor] }
  callVoid (Call.vkCmdBeginRenderPass cmdBuff renderPassInfo VK_SUBPASS_CONTENTS_INLINE)
  callVoid (Call.vkCmdBindPipeline cmdBuff VK_PIPELINE_BIND_POINT_GRAPHICS a_graphicsPipeline)
  callVoid (Call.vkCmdBindVertexBuffers cmdBuff 0 1 [a_vPosBuffer] [0])
  callVoid (Call.vkCmdDraw cmdBuff 3 1 0 0)
  callVoid (Call.vkCmdEndRenderPass cmdBuff)
  let _ ← call (Call.vkEndCommandBuffer cmdBuff)
  RunCommandBuffer cmdBuff a_queue a_device
  callVoid (Call.vkFreeCommandBuffers a_device a_cmdPool 1 [cmdBuff])

/-- Body of `CopyTextureToBuffer_Now` (main.cpp 462-502). -/
def CopyTextureToBuffer_Now (a_device a_cmdPool a_queue a_image : Handle)
    (a_width a_height : Int) (out_buffer : Handle) : Prog Unit := do
  let allocInfo : VkCommandBufferAllocateInfo :=
    { commandPool := a_cmdPool, level := VK_COMMAND_BUFFER_LEVEL_PRIMARY,
      commandBufferCount := 1 }
  let (res, cmdBuff) ← callOut (Call.vkAllocateCommandBuffers a_device allocInfo)
  if res ≠ VK_SUCCESS then
    throw "[RenderToTexture_Now]: failed to allocate command buffer!"
  let beginInfo : VkCommandBufferBeginInfo :=
    { flags := VK_COMMAND_BUFFER_USAGE_ONE_TIME_SUBMIT_BIT }
  let _ ← call (Call.vkBeginCommandBuffer cmdBuff beginInfo)
  let shittylayers : VkImageSubresourceLayers :=
    { aspectMask := VK_IMAGE_ASPECT_COLOR_BIT, mipLevel := 0, baseArrayLayer := 0,
      layerCount := 1 }
  let wholeRegion : VkBufferImageCopy :=
    { bufferOffset := 0,
      bufferRowLength := toUInt32 a_width,
      bufferImageHeight := toUInt32 a_height,
      imageExtent := { width := toUInt32 a_width, height := toUInt32 a_height, depth := 1 },
      imageOffset := { x := 0, y := 0, z := 0 },
      imageSubresource := shittylayers }
  callVoid (Call.vkCmdCopyImageToBuffer cmdBuff a_image VK_IMAGE_LAYOUT_TRANSFER_SRC_OPTIMAL
    out_buffer 1 [wholeRegion])
  let _ ← call (Call.vkEndCommandBuffer cmdBuff)
  RunCommandBuffer cmdBuff a_queue a_device
  callVoid (Call.vkFreeCommandBuffers a_device a_cmdPool 1 [cmdBuff])

/-! ## Resource creation -/

/-- The first index at or after `i` whose entry of the memory-type table is in
the bitmask `memoryTypeBits` and has all the flags of `properties`. -/
def findMemoryTypeFrom (memoryTypeBits properties : Nat) : Nat → List Nat → Option Nat
  | _, [] => none
  | i, flags :: rest =>
    if memoryTypeBits.testBit i = true ∧ flags &&& properties = properties then some i
    else findMemoryTypeFrom memoryTypeBits properties (i + 1) rest

/-- Modelled from the spec: `vk_utils::FindMemoryType`, which is not part of
main.cpp. "linearly scan the device's memory-type table for the first index
that is both in the compatible bitmask and has ALL requested property flags
set. Fails fatally if no matching type exists". -/
def FindMemoryType (memoryTypeBits properties : Nat) (a_physDevice : Handle) : Prog Nat :=
  fun b t =>
    match findMemoryTypeFrom memoryTypeBits properties 0 (b.memoryTypes a_physDevice) with
    | some i => (Except.ok i, t)
    | none => (Except.error "[FindMemoryType]: no suitable memory type", t)

/-- Body of `CreateVertexBuffer` (main.cpp 505-531); the two output pointers
are the returned pair (buffer, memory). -/
def CreateVertexBuffer (a_device a_physDevice : Handle) (a_bufferSize : Nat) :
    Prog (Handle × Handle) := do
  let bufferCreateInfo : VkBufferCreateInfo :=
    { size := a_bufferSize,
      usage := VK_BUFFER_USAGE_VERTEX_BUFFER_BIT ||| VK_BUFFER_USAGE_TRANSFER_DST_BIT,
      sharingMode := VK_SHARING_MODE_EXCLUSIVE }
  let (res, buffer) ← callOut (Call.vkCreateBuffer a_device bufferCreateInfo)
  VK_CHECK_RESULT res
  let memoryRequirements ← callReq (Call.vkGetBufferMemoryRequirements a_device buffer)
  let memoryTypeIndex ← FindMemoryType memoryRequirements.memoryTypeBits
    VK_MEMORY_PROPERTY_DEVICE_LOCAL_BIT a_physDevice
  let allocateInfo : VkMemoryAllocateInfo :=
    { allocationSize := memoryRequirements.size, memoryTypeIndex := memoryTypeIndex }
  let (res, bufferMemory) ← callOut (Call.vkAllocateMemory a_device allocateInfo)
  VK_CHECK_RESULT res
  let res ← call (Call.vkBindBufferMemory a_device buffer bufferMemory 0)
  VK_CHECK_RESULT res
  pure (buffer, bufferMemory)

/-- Body of `CreateStagingBuffer` (main.cpp 533-555). -/
def CreateStagingBuffer (a_device a_physDevice : Handle) (a_bufferSize : Nat) :
    Prog (Handle × Handle) := do
  let bufferCreateInfo : VkBufferCreateInfo :=
    { size := a_bufferSize,
      usage := VK_BUFFER_USAGE_STORAGE_BUFFER_BIT ||| VK_BUFFER_USAGE_TRANSFER_DST_BIT,
      sharingMode := VK_SHARING_MODE_EXCLUSIVE }
  let (res, buffer) ← callOut (Call.vkCreateBuffer a_device bufferCreateInfo)
  VK_CHECK_RESULT res
  let memoryRequirements ← callReq (Call.vkGetBufferMemoryRequirements a_device buffer)
  let memoryTypeIndex ← FindMemoryType memoryRequirements.memoryTypeBits
    (VK_MEMORY_PROPERTY_HOST_COHERENT_BIT ||| VK_MEMORY_PROPERTY_HOST_VISIBLE_BIT) a_physDevice
  let allocateInfo : VkMemoryAllocateInfo :=
    { allocationSize := memoryRequirements.size, memoryTypeIndex := memoryTypeIndex }
  let (res, bufferMemory) ← callOut (Call.vkAllocateMemory a_device allocateInfo)
  VK_CHECK_RESULT res
  let res ← call (Call.vkBindBufferMemory a_device buffer bufferMemory 0)
  VK_CHECK_RESULT res
  pure (buffer, bufferMemory)

/-- Format of the off-screen image (main.cpp 27). -/
def FRAMEBUFFER_FORMAT : Nat := VK_FORMAT_R8G8B8A8_UNORM

/-- Body of `CreateTextureForRenderToIt` (main.cpp 557-608); the three output
pointers are the returned triple (image, memory, view). -/
def CreateTextureForRenderToIt (a_device a_physDevice : Handle) (a_width a_height : Int) :
    Prog (Handle × Handle × Handle) := do
  let imgCreateInfo : VkImageCreateInfo :=
    { flags := 0, imageType := VK_IMAGE_TYPE_2D, format := FRAMEBUFFER_FORMAT,
      extent := { width := toUInt32 a_width, height := toUInt32 a_height, depth := 1 },
      mipLevels := 1, samples := VK_SAMPLE_COUNT_1_BIT, tiling := VK_IMAGE_TILING_OPTIMAL,
      usage := VK_IMAGE_USAGE_TRANSFER_SRC_BIT ||| VK_IMAGE_USAGE_COLOR_ATTACHMENT_BIT,
      sharingMode := VK_SHARING_MODE_EXCLUSIVE, initialLayout := VK_IMAGE_LAYOUT_UNDEFINED,
      arrayLayers := 1 }
  let (res, image) ← callOut (Call.vkCreateImage a_device imgCreateInfo)
  VK_CHECK_RESULT res
  let memoryRequirements ← callReq (Call.vkGetImageMemoryRequirements a_device image)
  let memoryTypeIndex ← FindMemoryType memoryRequirements.memoryTypeBits
    VK_MEMORY_PROPERTY_DEVICE_LOCAL_BIT a_physDevice
  let allocateInfo : VkMemoryAllocateInfo :=
    { allocationSize := memoryRequirements.size, memoryTypeIndex := memoryTypeIndex }
  let (res, imagesMemory) ← callOut (Call.vkAllocateMemory a_device allocateInfo)
  VK_CHECK_RESULT res
  let res ← call (Call.vkBindImageMemory a_device image imagesMemory 0)
  VK_CHECK_RESULT res
  let imageViewInfo : VkImageViewCreateInfo :=
    { flags := 0, viewType := VK_IMAGE_VIEW_TYPE_2D, format := FRAMEBUFFER_FORMAT,
      components := { r := VK_COMPONENT_SWIZZLE_R, g := VK_COMPONENT_SWIZZLE_G,
                      b := VK_COMPONENT_SWIZZLE_B, a := VK_COMPONENT_SWIZZLE_A },
      subresourceRange := { aspectMask := VK_IMAGE_ASPECT_COLOR_BIT, baseMipLevel := 0,
                            baseArrayLayer := 0, layerCount := 1, levelCount := 1 },
      image := image }
  let (res, attachmentView) ← callOut (Call.vkCreateImageView a_device imageViewInfo)
  VK_CHECK_RESULT res
  pure (image, imagesMemory, attachmentView)

/-- Body of `CreateFBO` (main.cpp 610-625). -/
def CreateFBO (a_device a_renderPass a_view : Handle) (a_width a_heiht : Int) :
    Prog Handle := do
  let framebufferInfo : VkFramebufferCreateInfo :=
    { renderPass := a_renderPass, attachmentCount := 1, pAttachments := [a_view],
      width := toUInt32 a_width, height := toUInt32 a_heiht, layers := 1 }
  let (res, fbo) ← callOut (Call.vkCreateFramebuffer a_device framebufferInfo)
  if res ≠ VK_SUCCESS then
    throw "[CreateFBO]: failed to create framebuffer!"
  pure fbo

/-- Body of `CreateRenderPass` (main.cpp 238-279). In the source the last
parameter has the default value `VK_IMAGE_LAYOUT_PRESENT_SRC_KHR`; the only
call passes it. -/
def CreateRenderPass (a_device : Handle) (a_imageFormat : Nat) (a_finalLayout : Nat) :
    Prog Handle := do
  let colorAttachment : VkAttachmentDescription :=
    { format := a_imageFormat, samples := VK_SAMPLE_COUNT_1_BIT,
      loadOp := VK_ATTACHMENT_LOAD_OP_CLEAR, storeOp := VK_ATTACHMENT_STORE_OP_STORE,
      stencilLoadOp := VK_ATTACHMENT_LOAD_OP_DONT_CARE,
      stencilStoreOp := VK_ATTACHMENT_STORE_OP_DONT_CARE,
      initialLayout := VK_IMAGE_LAYOUT_UNDEFINED, finalLayout := a_finalLayout }
  let colorAttachmentRef : VkAttachmentReference :=
    { attachment := 0, layout := VK_IMAGE_LAYOUT_COLOR_ATTACHMENT_OPTIMAL }
  let subpass : VkSubpassDescription :=
    { pipelineBindPoint := VK_PIPELINE_BIND_POINT_GRAPHICS, inputAttachmentCount := 0,
      colorAttachmentCount := 1, pColorAttachments := [colorAttachmentRef],
      preserveAttachmentCount := 0 }
  let dependency : VkSubpassDependency :=
    { srcSubpass := VK_SUBPASS_EXTERNAL, dstSubpass := 0,
      srcStageMask := VK_PIPELINE_STAGE_COLOR_ATTACHMENT_OUTPUT_BIT, srcAccessMask := 0,
      dstStageMask := VK_PIPELINE_STAGE_COLOR_ATTACHMENT_OUTPUT_BIT,
      dstAccessMask := VK_ACCESS_COLOR_ATTACHMENT_READ_BIT |||
        VK_ACCESS_COLOR_ATTACHMENT_WRITE_BIT }
  let renderPassInfo : VkRenderPassCreateInfo :=
    { attachmentCount := 1, pAttachments := [colorAttachment],
      subpassCount := 1, pSubpasses := [subpass],
      dependencyCount := 1, pDependencies := [dependency] }
  let (res, renderPass) ← callOut (Call.vkCreateRenderPass a_device renderPassInfo)
  if res ≠ VK_SUCCESS then
    throw "[CreateRenderPass]: failed to create render pass!"
  pure renderPass

/-- Modelled from the spec: `vk_utils::ReadFile`, which is not part of
main.cpp: loads a shader bytecode file; "shader bytecode missing/unreadable"
is a fatal resource error. The bytes are kept as an opaque handle. -/
def ReadFile (filename : String) : Prog Handle := do
  let (res, code) ← callOut (Call.ReadFile filename)
  if res ≠ VK_SUCCESS then
    throw "[ReadFile]: failed to open file!"
  pure code

/-- Modelled from the spec: `vk_utils::CreateShaderModule`, which is not part
of main.cpp: "hand to shader-module creation, fail fatally if creation rejects
the bytecode". -/
def CreateShaderModule (a_device code : Handle) : Prog Handle := do
  let (res, shaderModule) ← callOut (Call.CreateShaderModule a_device code)
  if res ≠ VK_SUCCESS then
    throw "[CreateShaderModule]: failed to create shader module!"
  pure shaderModule

/-- Body of `CreateGraphicsPipeline` (main.cpp 282-406); the two output
pointers are the returned pair (layout, pipeline). -/
def CreateGraphicsPipeline (a_device : Handle) (a_screenExtent : VkExtent2D)
    (a_renderPass : Handle) : Prog (Handle × Handle) := do
  let vertShaderCode ← ReadFile "shaders/vert.spv"
  let fragShaderCode ← ReadFile "shaders/frag.spv"
  let vertShaderModule ← CreateShaderModule a_device vertShaderCode
  let fragShaderModule ← CreateShaderModule a_device fragShaderCode
  let vertShaderStageInfo : VkPipelineShaderStageCreateInfo :=
    { stage := VK_SHADER_STAGE_VERTEX_BIT, module := vertShaderModule, pName := "main" }
  let fragShaderStageInfo : VkPipelineShaderStageCreateInfo :=
    { stage := VK_SHADER_STAGE_FRAGMENT_BIT, module := fragShaderModule, pName := "main" }
  let shaderStages := [vertShaderStageInfo, fragShaderStageInfo]
  let vInputBinding : VkVertexInputBindingDescription :=
    { binding := 0, stride := sizeof_float * 2, inputRate := VK_VERTEX_INPUT_RATE_VERTEX }
  let vAttribute : VkVertexInputAttributeDescription :=
    { binding := 0, location := 0, format := VK_FORMAT_R32G32_SFLOAT, offset := 0 }
  let vertexInputInfo : VkPipelineVertexInputStateCreateInfo :=
    { vertexBindingDescriptionCount := 1, vertexAttributeDescriptionCount := 1,
      pVertexBindingDescriptions := [vInputBinding],
      pVertexAttributeDescriptions := [vAttribute] }
  let inputAssembly : VkPipelineInputAssemblyStateCreateInfo :=
    { topology := VK_PRIMITIVE_TOPOLOGY_TRIANGLE_LIST, primitiveRestartEnable := VK_FALSE }
  let viewport : VkViewport :=
    { x := ⟨0, 1⟩, y := ⟨0, 1⟩,
      width := floatOfUInt32 a_screenExtent.width,
      height := floatOfUInt32 a_screenExtent.height,
      minDepth := ⟨0, 1⟩, maxDepth := ⟨1, 1⟩ }
  let scissor : VkRect2D := { offset := { x := 0, y := 0 }, extent := a_screenExtent }
  let viewportState : VkPipelineViewportStateCreateInfo :=
    { viewportCount := 1, pViewports := [viewport], scissorCount := 1, pScissors := [scissor] }
  let rasterizer : VkPipelineRasterizationStateCreateInfo :=
    { depthClampEnable := VK_FALSE, rasterizerDiscardEnable := VK_FALSE,
      polygonMode := VK_POLYGON_MODE_FILL, lineWidth := ⟨1, 1⟩,
      cullMode := VK_CULL_MODE_NONE, frontFace := VK_FRONT_FACE_CLOCKWISE,
      depthBiasEnable := VK_FALSE }
  let multisampling : VkPipelineMultisampleStateCreateInfo :=
    { sampleShadingEnable := VK_FALSE, rasterizationSamples := VK_SAMPLE_COUNT_1_BIT }
  let colorBlendAttachment : VkPipelineColorBlendAttachmentState :=
    { colorWriteMask := VK_COLOR_COMPONENT_R_BIT ||| VK_COLOR_COMPONENT_G_BIT |||
        VK_COLOR_COMPONENT_B_BIT ||| VK_COLOR_COMPONENT_A_BIT,
      blendEnable := VK_FALSE }
  let colorBlending : VkPipelineColorBlendStateCreateInfo :=
    { logicOpEnable := VK_FALSE, logicOp := VK_LOGIC_OP_COPY, attachmentCount := 1,
      pAttachments := [colorBlendAttachment],
      blendConstants := [⟨0, 1⟩, ⟨0, 1⟩, ⟨0, 1⟩, ⟨0, 1⟩] }
  let pipelineLayoutInfo : VkPipelineLayoutCreateInfo :=
    { setLayoutCount := 0, pushConstantRangeCount := 0 }
  let (res, layout) ← callOut (Call.vkCreatePipelineLayout a_device pipelineLayoutInfo)
  if res ≠ VK_SUCCESS then
    throw "[CreateGraphicsPipeline]: failed to create pipeline layout!"
  let pipelineInfo : VkGraphicsPipelineCreateInfo :=
    { stageCount := 2, pStages := shaderStages, pVertexInputState := vertexInputInfo,
      pInputAssemblyState := inputAssembly, pViewportState := viewportState,
      pRasterizationState := rasterizer, pMultisampleState := multisampling,
      pColorBlendState := colorBlending, layout := layout, renderPass := a_renderPass,
      subpass := 0, basePipelineHandle := VK_NULL_HANDLE }
  let (res, pipeline) ← callOut
    (Call.vkCreateGraphicsPipelines a_device VK_NULL_HANDLE 1 [pipelineInfo])
  if res ≠ VK_SUCCESS then
    throw "[CreateGraphicsPipeline]: failed to create graphics pipeline!"
  callVoid (Call.vkDestroyShaderModule a_device fragShaderModule)
  callVoid (Call.vkDestroyShaderModule a_device vertShaderModule)
  pure (layout, pipeline)

/-! ## The application object -/

def WIDTH : Int := 800
def HEIGHT : Int := 600

/-- The member variables of `HelloTriangleApplication` that hold handles
(main.cpp 45-91). -/
structure App where
  inst : Handle
  debugReportCallback : Handle
  physicalDevice : Handle
  device : Handle
  graphicsQueue : Handle
  transferQueue : Handle
  renderPassOffscreen : Handle
  offFrameBufferObj : Handle
  pipelineLayout : Handle
  graphicsPipeline : Handle
  commandPool : Handle
  commandPoolTransfer : Handle
  m_vbo : Handle
  m_vboMem : Handle
  offImage : Handle
  offImageMem : Handle
  offImageView : Handle
  stagingBuff : Handle
  stagingBuffMem : Handle
deriving DecidableEq, Repr

/-- Modelled from the spec: `vk_utils::CreateInstance`, which is not part of
main.cpp; creating the backend instance is a setup step whose rejection is
fatal. -/
def CreateInstance (enableValidationLayers : Bool) : Prog Handle := do
  let (res, inst) ← callOut (Call.CreateInstance enableValidationLayers)
  if res ≠ VK_SUCCESS then
    throw "[CreateInstance]: failed"
  pure inst

/-- Modelled from the spec: `vk_utils::InitDebugReportCallback`, which is not
part of main.cpp: registers the diagnostic callback of development builds. -/
def InitDebugReportCallback (inst : Handle) : Prog Handle := do
  let (res, callback) ← callOut (Call.InitDebugReportCallback inst)
  if res ≠ VK_SUCCESS then
    throw "[InitDebugReportCallback]: failed"
  pure callback

/-- Modelled from the spec: `vk_utils::FindPhysicalDevice`, which is not part
of main.cpp: "picks the entry at preferredIndex (fails fatally if out of range
or none support required queue capabilities)". -/
def FindPhysicalDevice (inst : Handle) (printInfo : Bool) (deviceId : Int) : Prog Handle := do
  let (res, physicalDevice) ← callOut (Call.FindPhysicalDevice inst printInfo deviceId)
  if res ≠ VK_SUCCESS then
    throw "[FindPhysicalDevice]: no suitable device"
  pure physicalDevice

/-- Modelled from the spec: `vk_utils::GetQueueFamilyIndex`, which is not part
of main.cpp: the index of a queue family of the device with the capability
bit; fatal when the device has none. -/
def GetQueueFamilyIndex (a_physicalDevice : Handle) (a_bits : Nat) : Prog Nat :=
  fun b t =>
    match b.queueFamilyIndex a_physicalDevice a_bits with
    | some i => (Except.ok i, t)
    | none => (Except.error "[GetQueueFamilyIndex]: no suitable queue family", t)

/-- Modelled from the spec: `vk_utils::CreateLogicalDevice`, which is not part
of main.cpp. It is given one queue family index and creates the logical
device with that family enabled; a rejection is fatal. -/
def CreateLogicalDevice (queueFamilyIndex : Nat) (physicalDevice : Handle) : Prog Handle := do
  let (res, device) ← callOut (Call.vkCreateDevice physicalDevice [queueFamilyIndex])
  if res ≠ VK_SUCCESS then
    throw "[CreateLogicalDevice]: failed to create device"
  pure device

/-- Body of `InitVulkan` (main.cpp 93-128). `enableValidationLayers` is the
compile-time constant of main.cpp 21-25. -/
def InitVulkan (enableValidationLayers : Bool) (app : App) : Prog App := do
  let deviceId : Int := 0
  let inst ← CreateInstance enableValidationLayers
  let app := { app with inst := inst }
  let app ← (if enableValidationLayers then do
      let callback ← InitDebugReportCallback app.inst
      pure { app with debugReportCallback := callback }
    else pure app)
  let physicalDevice ← FindPhysicalDevice app.inst true deviceId
  let app := { app with physicalDevice := physicalDevice }
  let queueFID ← GetQueueFamilyIndex app.physicalDevice VK_QUEUE_GRAPHICS_BIT
  let queueTID ← GetQueueFamilyIndex app.physicalDevice VK_QUEUE_TRANSFER_BIT
  let device ← CreateLogicalDevice queueFID app.physicalDevice
  let app := { app with device := device }
  let graphicsQueue ← callHandle (Call.vkGetDeviceQueue app.device queueFID 0)
  let app := { app with graphicsQueue := graphicsQueue }
  let transferQueue ← callHandle (Call.vkGetDeviceQueue app.device queueTID 0)
  let app := { app with transferQueue := transferQueue }
  let family ← GetQueueFamilyIndex app.physicalDevice VK_QUEUE_GRAPHICS_BIT
  let poolInfo : VkCommandPoolCreateInfo := { queueFamilyIndex := family }
  let (res, commandPool) ← callOut (Call.vkCreateCommandPool app.device poolInfo)
  if res ≠ VK_SUCCESS then
    throw "[CreateCommandPool]: failed to create graphics command pool!"
  let app := { app with commandPool := commandPool }
  let family ← GetQueueFamilyIndex app.physicalDevice VK_QUEUE_TRANSFER_BIT
  let poolInfo : VkCommandPoolCreateInfo := { poolInfo with queueFamilyIndex := family }
  let (res, commandPoolTransfer) ← callOut (Call.vkCreateCommandPool app.device poolInfo)
  if res ≠ VK_SUCCESS then
    throw "[CreateCommandPool]: failed to create transfer command pool!"
  pure { app with commandPoolTransfer := commandPoolTransfer }

/-- Body of `InitResources` (main.cpp 130-157). -/
def InitResources (app : App) : Prog App := do
  let (m_vbo, m_vboMem) ← CreateVertexBuffer app.device app.physicalDevice
    (mulSizeT (toSizeT 6) sizeof_float)
  let app := { app with m_vbo := m_vbo, m_vboMem := m_vboMem }
  let renderPassOffscreen ← CreateRenderPass app.device FRAMEBUFFER_FORMAT
    VK_IMAGE_LAYOUT_TRANSFER_SRC_OPTIMAL
  let app := { app with renderPassOffscreen := renderPassOffscreen }
  let (offImage, offImageMem, offImageView) ←
    CreateTextureForRenderToIt app.device app.physicalDevice WIDTH HEIGHT
  let app := { app with offImage := offImage, offImageMem := offImageMem,
                        offImageView := offImageView }
  let offFrameBufferObj ← CreateFBO app.device app.renderPassOffscreen app.offImageView
    WIDTH HEIGHT
  let app := { app with offFrameBufferObj := offFrameBufferObj }
  let (stagingBuff, stagingBuffMem) ← CreateStagingBuffer app.device app.physicalDevice
    (mulSizeT (toSizeT (wrapInt32 (WIDTH * HEIGHT))) sizeof_int)
  let app := { app with stagingBuff := stagingBuff, stagingBuffMem := stagingBuffMem }
  let (pipelineLayout, graphicsPipeline) ← CreateGraphicsPipeline app.device
    { width := toUInt32 WIDTH, height := toUInt32 HEIGHT } app.renderPassOffscreen
  pure { app with pipelineLayout := pipelineLayout, graphicsPipeline := graphicsPipeline }

/-- The array `trianglePos` of `RenderImageAndSaveItToFile` (main.cpp 163-168). -/
def trianglePos : List CFloat :=
  [⟨-1, 2⟩, ⟨-1, 2⟩,
   ⟨1, 2⟩, ⟨-1, 2⟩,
   ⟨0, 1⟩, ⟨1, 2⟩]

/-- Body of `RenderImageAndSaveItToFile` (main.cpp 159-195). The result of
`vkMapMemory` is not looked at; `SaveBMP` (Bitmap.h) is the external bitmap
writer. -/
def RenderImageAndSaveItToFile (app : App) : Prog Unit := do
  PutTriangleVerticesToVBO_Now app.device app.commandPoolTransfer app.graphicsQueue
    trianglePos (wrapInt32 (6 * 2)) app.m_vbo
  RenderToTexture_Now app.device app.commandPool app.graphicsQueue app.graphicsPipeline
    app.m_vbo app.offFrameBufferObj { width := toUInt32 WIDTH, height := toUInt32 HEIGHT }
    app.renderPassOffscreen
  CopyTextureToBuffer_Now app.device app.commandPoolTransfer app.transferQueue app.offImage
    WIDTH HEIGHT app.stagingBuff
  let (_, mappedMemory) ← callOut (Call.vkMapMemory app.device app.stagingBuffMem 0
    (mulSizeT (toSizeT (wrapInt32 (WIDTH * HEIGHT))) sizeof_int) 0)
  callVoid (Call.SaveBMP "outimage.bmp" mappedMemory WIDTH HEIGHT)
  callVoid (Call.vkUnmapMemory app.device app.stagingBuffMem)

/-- Body of `Cleanup` (main.cpp 198-236). The pointer that
`vkGetInstanceProcAddr` returns is a handle, `nullptr` being 0; the call
through it is the call `vkDestroyDebugReportCallbackEXT`. -/
def Cleanup (enableValidationLayers : Bool) (app : App) : Prog Unit := do
  callVoid (Call.vkDestroyBuffer app.device app.m_vbo)
  callVoid (Call.vkFreeMemory app.device app.m_vboMem)
  callVoid (Call.vkDestroyBuffer app.device app.stagingBuff)
  callVoid (Call.vkFreeMemory app.device app.stagingBuffMem)
  callVoid (Call.vkDestroyImageView app.device app.offImageView)
  callVoid (Call.vkDestroyImage app.device app.offImage)
  callVoid (Call.vkFreeMemory app.device app.offImageMem)
  callVoid (Call.vkDestroyFramebuffer app.device app.offFrameBufferObj)
  callVoid (Call.vkDestroyRenderPass app.device app.renderPassOffscreen)
  if enableValidationLayers then
    let func ← callHandle
      (Call.vkGetInstanceProcAddr app.inst "vkDestroyDebugReportCallbackEXT")
    if func = 0 then
      throw "Could not load vkDestroyDebugReportCallbackEXT"
    callVoid (Call.vkDestroyDebugReportCallbackEXT func app.inst app.debugReportCallback)
  callVoid (Call.vkDestroyCommandPool app.device app.commandPool)
  callVoid (Call.vkDestroyCommandPool app.device app.commandPoolTransfer)
  callVoid (Call.vkDestroyPipeline app.device app.graphicsPipeline)
  callVoid (Call.vkDestroyPipelineLayout app.device app.pipelineLayout)
  callVoid (Call.vkDestroyDevice app.device)
  callVoid (Call.vkDestroyInstance app.inst)

/-- Body of `run` (main.cpp 33-41). `app` holds the values the member
variables have when `run` is entered. -/
def run (enableValidationLayers : Bool) (app : App) : Prog Unit := do
  let app ← InitVulkan enableValidationLayers app
  let app ← InitResources app
  RenderImageAndSaveItToFile app
  Cleanup enableValidationLayers app

/-- A backend on which every call succeeds. Handles are numbered by the
position of the creating call, every resource needs 64 bytes of any of the
three memory types (host-visible only, device-local, host-visible and
host-coherent), and queue family 0 has every capability. -/
def okBackend : Backend :=
  { result := fun _ _ => VK_SUCCESS,
    handle := fun t _ => t.length + 1,
    memReq := fun _ _ => { size := 64, alignment := 16, memoryTypeBits := 7 },
    memoryTypes := fun _ => [2, 1, 6],
    queueFamilyIndex := fun _ _ => some 0 }

/-- The initial application object: no handle is set. -/
def App.init : App :=
  ⟨0, 0, 0, 0, 0, 0, 0, 0, 0, 0, 0, 0, 0, 0, 0, 0, 0, 0, 0⟩

/-! ## The calls of `RunCommandBuffer` -/

/-- The fence creation of `RunCommandBuffer`: no flags, so the fence starts
unsignaled. -/
def createFenceCall (dev : Handle) : Call := Call.vkCreateFence dev ⟨0⟩

/-- The submission of `RunCommandBuffer`: one batch holding the one command
buffer, no semaphores, signalling `fence`. -/
def submitCall (q cmd fence : Handle) : Call :=
  Call.vkQueueSubmit q 1 [⟨0, 1, [cmd], 0⟩] fence

/-- The fence wait of `RunCommandBuffer`. -/
def waitCall (dev fence : Handle) : Call :=
  Call.vkWaitForFences dev 1 [fence] VK_TRUE 100000000000

/-- The command-buffer allocation the three executions start with. -/
def allocCall (dev pool : Handle) : Call :=
  Call.vkAllocateCommandBuffers dev ⟨pool, VK_COMMAND_BUFFER_LEVEL_PRIMARY, 1⟩

/-- A backend on which the fence wait times out and every other call
succeeds. -/
def timeoutBackend : Backend :=
  { okBackend with
    result := fun _ c =>
      match c with
      | Call.vkWaitForFences _ _ _ _ _ => VK_TIMEOUT
      | _ => VK_SUCCESS }

/-- A backend that rejects every begin and every end of command-buffer
recording and accepts every other call. -/
def recordingRejectedBackend : Backend :=
  { okBackend with
    result := fun _ c =>
      match c with
      | Call.vkBeginCommandBuffer _ _ => VK_ERROR_OUT_OF_HOST_MEMORY
      | Call.vkEndCommandBuffer _ => VK_ERROR_OUT_OF_DEVICE_MEMORY
      | _ => VK_SUCCESS }

/-! ## Host-side synchronisation along a trace -/

/-- One call seen by the synchronisation check. `inFlight` holds the fences of
the accepted submissions for which no fence wait has returned success yet;
`hist` is the history before the call, from which the backend determined the
call's result. The check fails (`none`) when a submission is made, or the
staging memory is mapped or handed to the bitmap writer, while a submission is
still in flight. -/
def syncStep (b : Backend) (hist : List Call) (inFlight : List Handle) (c : Call) :
    Option (List Handle) :=
  match c with
  | Call.vkQueueSubmit _ _ _ fence =>
    if inFlight.isEmpty then
      some (if b.result hist c = VK_SUCCESS then [fence] else [])
    else none
  | Call.vkWaitForFences _ _ fences _ _ =>
    some (if b.result hist c = VK_SUCCESS then inFlight.filter (fun f => !fences.contains f)
          else inFlight)
  | Call.vkMapMemory _ _ _ _ _ => if inFlight.isEmpty then some inFlight else none
  | Call.SaveBMP _ _ _ _ => if inFlight.isEmpty then some inFlight else none
  | _ => some inFlight

/-- The synchronisation check along a list of calls made after `hist`: the
fences in flight at the end, or `none` when the check failed on the way. -/
def syncRun (b : Backend) : List Call → List Handle → List Call → Option (List Handle)
  | _, inFlight, [] => some inFlight
  | hist, inFlight, c :: rest =>
    match syncStep b hist inFlight c with
    | none => none
    | some inFlight1 => syncRun b (hist ++ [c]) inFlight1 rest

/-- The calls made after `hist` never submit, map or hand over the staging
memory while an earlier submission is in flight. -/
def hostSynchronised (b : Backend) (hist : List Call) (calls : List Call) : Bool :=
  (syncRun b hist [] calls).isSome

/-- The call is a queue submission. -/
def isSubmit : Call → Bool
  | Call.vkQueueSubmit _ _ _ _ => true
  | _ => false

/-- A program keeps the host synchronised: started with nothing in flight it
passes the check, and when it returns normally nothing is in flight. -/
def Synchronised {α : Type} (m : Prog α) : Prop :=
  ∀ (b : Backend) (t : List Call), ∃ new : List Call,
    (m.run b t).2 = t ++ new ∧
    ∃ inFlight, syncRun b t [] new = some inFlight ∧
      ∀ a, (m.run b t).1 = Except.ok a → inFlight = []

/-! ## The calls of a complete run of `RenderImageAndSaveItToFile` -/

/-- The calls of the vertex upload, for the command buffer and fence the
backend handed out. -/
def uploadCalls (app : App) (cmdBuff fence : Handle) : List Call :=
  [Call.vkAllocateCommandBuffers app.device
     ⟨app.commandPoolTransfer, VK_COMMAND_BUFFER_LEVEL_PRIMARY, 1⟩,
   Call.vkBeginCommandBuffer cmdBuff ⟨VK_COMMAND_BUFFER_USAGE_ONE_TIME_SUBMIT_BIT⟩,
   Call.vkCmdUpdateBuffer cmdBuff app.m_vbo 0 48 trianglePos,
   Call.vkEndCommandBuffer cmdBuff,
   Call.vkCreateFence app.device ⟨0⟩,
   Call.vkQueueSubmit app.graphicsQueue 1 [⟨0, 1, [cmdBuff], 0⟩] fence,
   Call.vkWaitForFences app.device 1 [fence] VK_TRUE 100000000000,
   Call.vkDestroyFence app.device fence,
   Call.vkFreeCommandBuffers app.device app.commandPoolTransfer 1 [cmdBuff]]

/-- The calls of the draw. -/
def drawCalls (app : App) (cmdBuff fence : Handle) : List Call :=
  [Call.vkAllocateCommandBuffers app.device
     ⟨app.commandPool, VK_COMMAND_BUFFER_LEVEL_PRIMARY, 1⟩,
   Call.vkBeginCommandBuffer cmdBuff ⟨VK_COMMAND_BUFFER_USAGE_ONE_TIME_SUBMIT_BIT⟩,
   Call.vkCmdBeginRenderPass cmdBuff
     ⟨app.renderPassOffscreen, app.offFrameBufferObj, ⟨⟨0, 0⟩, ⟨800, 600⟩⟩, 1,
       [[⟨0, 1⟩, ⟨0, 1⟩, ⟨1, 4⟩, ⟨1, 1⟩]]⟩
     VK_SUBPASS_CONTENTS_INLINE,
   Call.vkCmdBindPipeline cmdBuff VK_PIPELINE_BIND_POINT_GRAPHICS app.graphicsPipeline,
   Call.vkCmdBindVertexBuffers cmdBuff 0 1 [app.m_vbo] [0],
   Call.vkCmdDraw cmdBuff 3 1 0 0,
   Call.vkCmdEndRenderPass cmdBuff,
   Call.vkEndCommandBuffer cmdBuff,
   Call.vkCreateFence app.device ⟨0⟩,
   Call.vkQueueSubmit app.graphicsQueue 1 [⟨0, 1, [cmdBuff], 0⟩] fence,
   Call.vkWaitForFences app.device 1 [fence] VK_TRUE 100000000000,
   Call.vkDestroyFence app.device fence,
   Call.vkFreeCommandBuffers app.device app.commandPool 1 [cmdBuff]]

/-- The region of the image-to-buffer copy for the 800x600 target. -/
def wholeRegion : VkBufferImageCopy :=
  ⟨0, 800, 600, ⟨VK_IMAGE_ASPECT_COLOR_BIT, 0, 0, 1⟩, ⟨0, 0, 0⟩, ⟨800, 600, 1⟩⟩

/-- The calls of the image-to-buffer copy. -/
def copyCalls (app : App) (cmdBuff fence : Handle) : List Call :=
  [Call.vkAllocateCommandBuffers app.device
     ⟨app.commandPoolTransfer, VK_COMMAND_BUFFER_LEVEL_PRIMARY, 1⟩,
   Call.vkBeginCommandBuffer cmdBuff ⟨VK_COMMAND_BUFFER_USAGE_ONE_TIME_SUBMIT_BIT⟩,
   Call.vkCmdCopyImageToBuffer cmdBuff app.offImage VK_IMAGE_LAYOUT_TRANSFER_SRC_OPTIMAL
     app.stagingBuff 1 [wholeRegion],
   Call.vkEndCommandBuffer cmdBuff,
   Call.vkCreateFence app.device ⟨0⟩,
   Call.vkQueueSubmit app.transferQueue 1 [⟨0, 1, [cmdBuff], 0⟩] fence,
   Call.vkWaitForFences app.device 1 [fence] VK_TRUE 100000000000,
   Call.vkDestroyFence app.device fence,
   Call.vkFreeCommandBuffers app.device app.commandPoolTransfer 1 [cmdBuff]]

/-- The calls that read the staging memory back and write the bitmap. -/
def readbackCalls (app : App) (mappedMemory : Handle) : List Call :=
  [Call.vkMapMemory app.device app.stagingBuffMem 0 1920000 0,
   Call.SaveBMP "outimage.bmp" mappedMemory WIDTH HEIGHT,
   Call.vkUnmapMemory app.device app.stagingBuffMem]

/-! ## Memory of the created resources -/

/-- Entry `i` of the memory-type table is in the bitmask `memoryTypeBits` and
its property flags contain all of `properties`. -/
def suitableType (table : List Nat) (memoryTypeBits properties i : Nat) : Bool :=
  memoryTypeBits.testBit i &&
    match table[i]? with
    | some flags => flags &&& properties == properties
    | none => false

/-- The memory allocations requested along a trace. -/
def allocations : List Call → List VkMemoryAllocateInfo
  | [] => []
  | Call.vkAllocateMemory _ info :: rest => info :: allocations rest
  | _ :: rest => allocations rest

/-- The memory bindings made along a trace: (resource, memory, offset). -/
def bindings : List Call → List (Handle × Handle × Nat)
  | [] => []
  | Call.vkBindBufferMemory _ buffer memory offset :: rest =>
    (buffer, memory, offset) :: bindings rest
  | Call.vkBindImageMemory _ image memory offset :: rest =>
    (image, memory, offset) :: bindings rest
  | _ :: rest => bindings rest

/-- The creation info `CreateVertexBuffer` passes. -/
def vertexBufferInfo (size : Nat) : VkBufferCreateInfo :=
  ⟨size, VK_BUFFER_USAGE_VERTEX_BUFFER_BIT ||| VK_BUFFER_USAGE_TRANSFER_DST_BIT,
    VK_SHARING_MODE_EXCLUSIVE⟩

/-- The creation info `CreateStagingBuffer` passes. -/
def stagingBufferInfo (size : Nat) : VkBufferCreateInfo :=
  ⟨size, VK_BUFFER_USAGE_STORAGE_BUFFER_BIT ||| VK_BUFFER_USAGE_TRANSFER_DST_BIT,
    VK_SHARING_MODE_EXCLUSIVE⟩

/-- The creation info `CreateTextureForRenderToIt` passes. -/
def offscreenImageInfo (width height : Int) : VkImageCreateInfo :=
  { flags := 0, imageType := VK_IMAGE_TYPE_2D, format := FRAMEBUFFER_FORMAT,
    extent := ⟨toUInt32 width, toUInt32 height, 1⟩, mipLevels := 1, arrayLayers := 1,
    samples := VK_SAMPLE_COUNT_1_BIT, tiling := VK_IMAGE_TILING_OPTIMAL,
    usage := VK_IMAGE_USAGE_TRANSFER_SRC_BIT ||| VK_IMAGE_USAGE_COLOR_ATTACHMENT_BIT,
    sharingMode := VK_SHARING_MODE_EXCLUSIVE, initialLayout := VK_IMAGE_LAYOUT_UNDEFINED }

/-- The view creation info `CreateTextureForRenderToIt` passes for its image. -/
def offscreenViewInfo (image : Handle) : VkImageViewCreateInfo :=
  { flags := 0, image := image, viewType := VK_IMAGE_VIEW_TYPE_2D,
    format := FRAMEBUFFER_FORMAT,
    components := ⟨VK_COMPONENT_SWIZZLE_R, VK_COMPONENT_SWIZZLE_G, VK_COMPONENT_SWIZZLE_B,
      VK_COMPONENT_SWIZZLE_A⟩,
    subresourceRange := ⟨VK_IMAGE_ASPECT_COLOR_BIT, 0, 1, 0, 1⟩ }

/-- The memory requirements the backend reports for the buffer it creates for
`info` after the history `t`. -/
def bufferRequirements (b : Backend) (t : List Call) (dev : Handle)
    (info : VkBufferCreateInfo) : VkMemoryRequirements :=
  b.memReq (t ++ [Call.vkCreateBuffer dev info])
    (Call.vkGetBufferMemoryRequirements dev (b.handle t (Call.vkCreateBuffer dev info)))

/-- The memory requirements the backend reports for the image it creates for
`info` after the history `t`. -/
def imageRequirements (b : Backend) (t : List Call) (dev : Handle)
    (info : VkImageCreateInfo) : VkMemoryRequirements :=
  b.memReq (t ++ [Call.vkCreateImage dev info])
    (Call.vkGetImageMemoryRequirements dev (b.handle t (Call.vkCreateImage dev info)))

/-- The buffer the backend hands out for `info` after the history `t`. -/
def createdBuffer (b : Backend) (t : List Call) (dev : Handle) (info : VkBufferCreateInfo) :
    Handle :=
  b.handle t (Call.vkCreateBuffer dev info)

/-- The allocation a buffer creator requests once memory type `k` is chosen:
the reported size, from type `k`. -/
def bufferAllocation (b : Backend) (t : List Call) (dev : Handle) (info : VkBufferCreateInfo)
    (k : Nat) : Call :=
  Call.vkAllocateMemory dev ⟨(bufferRequirements b t dev info).size, k⟩

/-- The memory the backend hands out for that allocation. -/
def bufferMemory (b : Backend) (t : List Call) (dev : Handle) (info : VkBufferCreateInfo)
    (k : Nat) : Handle :=
  b.handle (t ++ [Call.vkCreateBuffer dev info,
      Call.vkGetBufferMemoryRequirements dev (createdBuffer b t dev info)])
    (bufferAllocation b t dev info k)

/-- The calls of a buffer creator that gets as far as binding: create, query
the requirements, allocate, bind at offset 0. -/
def bufferCreationCalls (b : Backend) (t : List Call) (dev : Handle)
    (info : VkBufferCreateInfo) (k : Nat) : List Call :=
  [Call.vkCreateBuffer dev info,
   Call.vkGetBufferMemoryRequirements dev (createdBuffer b t dev info),
   bufferAllocation b t dev info k,
   Call.vkBindBufferMemory dev (createdBuffer b t dev info) (bufferMemory b t dev info k) 0]

/-- The image the backend hands out for `info` after the history `t`. -/
def createdImage (b : Backend) (t : List Call) (dev : Handle) (info : VkImageCreateInfo) :
    Handle :=
  b.handle t (Call.vkCreateImage dev info)

/-- The allocation `CreateTextureForRenderToIt` requests once memory type `k`
is chosen. -/
def imageAllocation (b : Backend) (t : List Call) (dev : Handle) (info : VkImageCreateInfo)
    (k : Nat) : Call :=
  Call.vkAllocateMemory dev ⟨(imageRequirements b t dev info).size, k⟩

/-- The memory the backend hands out for that allocation. -/
def imageMemory (b : Backend) (t : List Call) (dev : Handle) (info : VkImageCreateInfo)
    (k : Nat) : Handle :=
  b.handle (t ++ [Call.vkCreateImage dev info,
      Call.vkGetImageMemoryRequirements dev (createdImage b t dev info)])
    (imageAllocation b t dev info k)

/-- The calls of `CreateTextureForRenderToIt` up to the binding. -/
def imageCreationCalls (b : Backend) (t : List Call) (dev : Handle)
    (info : VkImageCreateInfo) (k : Nat) : List Call :=
  [Call.vkCreateImage dev info,
   Call.vkGetImageMemoryRequirements dev (createdImage b t dev info),
   imageAllocation b t dev info k,
   Call.vkBindImageMemory dev (createdImage b t dev info) (imageMemory b t dev info k) 0]

/-- A backend of a device without any memory type; every call succeeds. -/
def noMemoryBackend : Backend :=
  { okBackend with memoryTypes := fun _ => [] }

/-! ## The calls of `InitResources` -/

/-- The render-pass description `CreateRenderPass` passes to the backend. -/
def renderPassCreateInfo (a_imageFormat a_finalLayout : Nat) : VkRenderPassCreateInfo :=
  { attachmentCount := 1,
    pAttachments :=
      [{ format := a_imageFormat, samples := VK_SAMPLE_COUNT_1_BIT,
         loadOp := VK_ATTACHMENT_LOAD_OP_CLEAR, storeOp := VK_ATTACHMENT_STORE_OP_STORE,
         stencilLoadOp := VK_ATTACHMENT_LOAD_OP_DONT_CARE,
         stencilStoreOp := VK_ATTACHMENT_STORE_OP_DONT_CARE,
         initialLayout := VK_IMAGE_LAYOUT_UNDEFINED, finalLayout := a_finalLayout }],
    subpassCount := 1,
    pSubpasses :=
      [{ pipelineBindPoint := VK_PIPELINE_BIND_POINT_GRAPHICS, inputAttachmentCount := 0,
         colorAttachmentCount := 1,
         pColorAttachments := [⟨0, VK_IMAGE_LAYOUT_COLOR_ATTACHMENT_OPTIMAL⟩],
         preserveAttachmentCount := 0 }],
    dependencyCount := 1,
    pDependencies :=
      [{ srcSubpass := VK_SUBPASS_EXTERNAL, dstSubpass := 0,
         srcStageMask := VK_PIPELINE_STAGE_COLOR_ATTACHMENT_OUTPUT_BIT,
         dstStageMask := VK_PIPELINE_STAGE_COLOR_ATTACHMENT_OUTPUT_BIT,
         srcAccessMask := 0,
         dstAccessMask := VK_ACCESS_COLOR_ATTACHMENT_READ_BIT |||
           VK_ACCESS_COLOR_ATTACHMENT_WRITE_BIT }] }

/-- The call is one of those `CreateGraphicsPipeline` makes. -/
def isPipelineSetupCall : Call → Bool
  | Call.ReadFile _ => true
  | Call.CreateShaderModule _ _ => true
  | Call.vkCreatePipelineLayout _ _ => true
  | Call.vkCreateGraphicsPipelines _ _ _ _ => true
  | Call.vkDestroyShaderModule _ _ => true
  | _ => false

/-- The call records a command into a command buffer (a `vkCmd*` call). -/
def isRecordedCommand : Call → Bool
  | Call.vkCmdUpdateBuffer _ _ _ _ _ => true
  | Call.vkCmdBeginRenderPass _ _ _ => true
  | Call.vkCmdBindPipeline _ _ _ => true
  | Call.vkCmdBindVertexBuffers _ _ _ _ _ => true
  | Call.vkCmdDraw _ _ _ _ _ => true
  | Call.vkCmdEndRenderPass _ => true
  | Call.vkCmdCopyImageToBuffer _ _ _ _ _ _ => true
  | _ => false

/-- The call begins a render pass instance. -/
def isBeginRenderPass : Call → Bool
  | Call.vkCmdBeginRenderPass _ _ _ => true
  | _ => false

/-- The call creates a render pass. -/
def isCreateRenderPass : Call → Bool
  | Call.vkCreateRenderPass _ _ => true
  | _ => false

/-- Every call a program makes, on every backend and from every history,
satisfies `P`. -/
def AllCalls {α : Type} (P : Call → Bool) (m : Prog α) : Prop :=
  ∀ (b : Backend) (t : List Call), ∃ new : List Call,
    (m.run b t).2 = t ++ new ∧ ∀ c ∈ new, P c = true

/-- One past the last byte of the destination buffer that an image-to-buffer
copy of region `r` writes, for texels of `texelSize` bytes: rows of the region
are `bufferRowLength` texels apart and slices `bufferImageHeight` rows. -/
def copyEnd (r : VkBufferImageCopy) (texelSize : Nat) : Nat :=
  r.bufferOffset +
    (((r.imageExtent.depth - 1) * r.bufferImageHeight + (r.imageExtent.height - 1)) *
        r.bufferRowLength + r.imageExtent.width) * texelSize

/-! ## A complete run on the backend on which every call succeeds -/

/-- The application object after `InitVulkan` (release build) on `okBackend`. -/
def okApp0 : App :=
  { App.init with inst := 1, physicalDevice := 2, device := 3, graphicsQueue := 4,
                  transferQueue := 5, commandPool := 6, commandPoolTransfer := 7 }

/-- The calls of that `InitVulkan`. -/
def okTrace0 : List Call := ((InitVulkan false App.init).run okBackend []).2

/-- The application object after `InitResources` on `okBackend`. -/
def okApp1 : App :=
  { okApp0 with m_vbo := 8, m_vboMem := 10, renderPassOffscreen := 12, offImage := 13,
                offImageMem := 15, offImageView := 17, offFrameBufferObj := 18,
                stagingBuff := 19, stagingBuffMem := 21, pipelineLayout := 27,
                graphicsPipeline := 28 }

/-- The calls up to the end of that `InitResources`. -/
def okTrace1 : List Call := ((InitResources okApp0).run okBackend okTrace0).2

/-- The calls up to the end of `RenderImageAndSaveItToFile` on `okBackend`. -/
def okTrace2 : List Call := ((RenderImageAndSaveItToFile okApp1).run okBackend okTrace1).2

/-! ## Queue families in the calls of `InitVulkan` -/

/-- The queue families enabled at device creation along a trace. -/
def enabledFamilies : List Call → List Nat
  | [] => []
  | Call.vkCreateDevice _ families :: rest => families ++ enabledFamilies rest
  | _ :: rest => enabledFamilies rest

/-- The queue families from which a queue handle is retrieved or for which a
command pool is created along a trace. -/
def usedFamilies : List Call → List Nat
  | [] => []
  | Call.vkGetDeviceQueue _ family _ :: rest => family :: usedFamilies rest
  | Call.vkCreateCommandPool _ info :: rest => info.queueFamilyIndex :: usedFamilies rest
  | _ :: rest => usedFamilies rest

/-- The command pools created along a trace: (device, queue family). -/
def createdPools : List Call → List (Handle × Nat)
  | [] => []
  | Call.vkCreateCommandPool device info :: rest =>
    (device, info.queueFamilyIndex) :: createdPools rest
  | _ :: rest => createdPools rest

/-- A backend of a device whose first graphics-capable queue family is 0 and
whose first family reporting the transfer capability is 1 (family 0 does not
report the transfer bit, which graphics families need not do); every call
succeeds. -/
def splitQueueBackend : Backend :=
  { okBackend with
    queueFamilyIndex := fun _ bits => if bits = VK_QUEUE_GRAPHICS_BIT then some 0 else some 1 }

/-! ## Teardown -/

/-- One call seen by the command-pool check. `live` holds the command buffers
that were allocated with success and not freed yet, each with its pool; `hist`
is the history before the call. The check fails (`none`) when a command pool
is destroyed while a command buffer allocated from it is live. -/
def poolStep (b : Backend) (hist : List Call) (live : List (Handle × Handle)) (c : Call) :
    Option (List (Handle × Handle)) :=
  match c with
  | Call.vkAllocateCommandBuffers _ info =>
    some (if b.result hist c = VK_SUCCESS then (info.commandPool, b.handle hist c) :: live
          else live)
  | Call.vkFreeCommandBuffers _ pool _ cmds =>
    some (live.filter (fun x => !(x.1 == pool && cmds.contains x.2)))
  | Call.vkDestroyCommandPool _ pool =>
    if live.any (fun x => x.1 == pool) then none else some live
  | _ => some live

/-- The command-pool check along a list of calls made after `hist`. -/
def poolRun (b : Backend) : List Call → List (Handle × Handle) → List Call →
    Option (List (Handle × Handle))
  | _, live, [] => some live
  | hist, live, c :: rest =>
    match poolStep b hist live c with
    | none => none
    | some live1 => poolRun b (hist ++ [c]) live1 rest

/-- Along the calls made after `hist` no command pool is destroyed while a
command buffer allocated from it has not been freed. -/
def poolsOutliveBuffers (b : Backend) (hist : List Call) (calls : List Call) : Bool :=
  (poolRun b hist [] calls).isSome

/-- The buffer updates recorded along a trace: destination buffer, destination
offset, byte count, and the byte size of the host array the data is read
from. -/
def updateBufferCalls : List Call → List (Handle × Nat × Nat × Nat)
  | [] => []
  | Call.vkCmdUpdateBuffer _ dst off size data :: rest =>
    (dst, off, size, data.length * sizeof_float) :: updateBufferCalls rest
  | _ :: rest => updateBufferCalls rest

/-- What the family check knows after a prefix of the trace: the family of
each command pool and of each queue, the pool of each command buffer (most
recent first), and for every command buffer submitted so far the family of
its pool and the family of the queue it was submitted to. -/
structure FamilyState where
  pools : List (Handle × Nat)
  queues : List (Handle × Nat)
  buffers : List (Handle × Handle)
  submitted : List (Option Nat × Option Nat)
deriving DecidableEq, Repr

/-- One call seen by the family check; `hist` is the history before it. -/
def familyStep (b : Backend) (hist : List Call) (s : FamilyState) (c : Call) : FamilyState :=
  match c with
  | Call.vkCreateCommandPool _ info =>
    if b.result hist c = VK_SUCCESS then
      { s with pools := (b.handle hist c, info.queueFamilyIndex) :: s.pools }
    else s
  | Call.vkGetDeviceQueue _ family _ =>
    { s with queues := (b.handle hist c, family) :: s.queues }
  | Call.vkAllocateCommandBuffers _ info =>
    if b.result hist c = VK_SUCCESS then
      { s with buffers := (b.handle hist c, info.commandPool) :: s.buffers }
    else s
  | Call.vkQueueSubmit queue _ submits _ =>
    { s with submitted := s.submitted ++
        (submits.flatMap (fun i => i.pCommandBuffers)).map (fun cmd =>
          ((s.buffers.lookup cmd).bind (fun pool => s.pools.lookup pool),
           s.queues.lookup queue)) }
  | _ => s

/-- The family check along the calls made after `hist`. -/
def familyRun (b : Backend) : List Call → FamilyState → List Call → FamilyState
  | _, s, [] => s
  | hist, s, c :: rest => familyRun b (hist ++ [c]) (familyStep b hist s c) rest

/-- For every command buffer submitted along a trace that starts from an
empty history: the family of the command pool it was allocated from and the
family of the queue it was submitted to. -/
def submissionFamilies (b : Backend) (calls : List Call) : List (Option Nat × Option Nat) :=
  (familyRun b [] ⟨[], [], [], []⟩ calls).submitted

/-- The allocations of command buffers and the submissions of a trace. -/
def isAllocateOrSubmit : Call → Bool
  | Call.vkAllocateCommandBuffers _ _ => true
  | Call.vkQueueSubmit _ _ _ _ => true
  | _ => false
/-! ## The vertex data read by the draw -/

/-- Byte size of one element of a vertex attribute format. The program uses
`VK_FORMAT_R32G32_SFLOAT` only: two 32-bit floats. -/
def formatSize (format : Nat) : Nat :=
  if format = VK_FORMAT_R32G32_SFLOAT then 2 * sizeof_float else 0

/-- The byte ranges (first byte, one past the last byte) of the vertex buffer
that a draw of `vertexCount` vertices from `firstVertex` fetches for a
per-vertex attribute, the buffer being bound at `bufferOffset`. -/
def vertexReads (binding : VkVertexInputBindingDescription)
    (attr : VkVertexInputAttributeDescription)
    (bufferOffset firstVertex vertexCount : Nat) : List (Nat × Nat) :=
  (List.range vertexCount).map (fun i =>
    (bufferOffset + (firstVertex + i) * binding.stride + attr.offset,
     bufferOffset + (firstVertex + i) * binding.stride + attr.offset +
       formatSize attr.format))

/-- The call creates graphics pipelines. -/
def isCreateGraphicsPipelines : Call → Bool
  | Call.vkCreateGraphicsPipelines _ _ _ _ => true
  | _ => false

/-- The recorded commands that decide which vertex data a draw reads: binding
a pipeline, binding vertex buffers, drawing. -/
def isVertexFetchCommand : Call → Bool
  | Call.vkCmdBindPipeline _ _ _ => true
  | Call.vkCmdBindVertexBuffers _ _ _ _ _ => true
  | Call.vkCmdDraw _ _ _ _ _ => true
  | _ => false

/-! ## Running programs: the equations of the program combinators -/

theorem run_bind {α β : Type} (m : Prog α) (f : α → Prog β) (b : Backend) (t : List Call) :
    (m >>= f).run b t =
      match m.run b t with
      | (Except.ok a, t1) => (f a).run b t1
      | (Except.error e, t1) => (Except.error e, t1) := rfl

theorem run_pure {α : Type} (a : α) (b : Backend) (t : List Call) :
    (pure a : Prog α).run b t = (Except.ok a, t) := rfl

theorem run_throw {α : Type} (e : String) (b : Backend) (t : List Call) :
    (throw e : Prog α).run b t = (Except.error e, t) := rfl

theorem run_call (c : Call) (b : Backend) (t : List Call) :
    (call c).run b t = (Except.ok (b.result t c), t ++ [c]) := rfl

theorem run_callOut (c : Call) (b : Backend) (t : List Call) :
    (callOut c).run b t = (Except.ok (b.result t c, b.handle t c), t ++ [c]) := rfl

theorem run_callVoid (c : Call) (b : Backend) (t : List Call) :
    (callVoid c).run b t = (Except.ok (), t ++ [c]) := rfl

theorem run_callReq (c : Call) (b : Backend) (t : List Call) :
    (callReq c).run b t = (Except.ok (b.memReq t c), t ++ [c]) := rfl

theorem run_callHandle (c : Call) (b : Backend) (t : List Call) :
    (callHandle c).run b t = (Except.ok (b.handle t c), t ++ [c]) := rfl

theorem run_ite {α : Type} (c : Prop) [Decidable c] (m n : Prog α) (b : Backend)
    (t : List Call) :
    (if c then m else n).run b t = if c then m.run b t else n.run b t := by
  split <;> rfl

theorem run_check (res : VkResult) (b : Backend) (t : List Call) :
    (VK_CHECK_RESULT res).run b t =
      if res = VK_SUCCESS then (Except.ok (), t)
      else (Except.error "Fatal : VkResult is not VK_SUCCESS", t) := by
  unfold VK_CHECK_RESULT
  by_cases h : res = VK_SUCCESS <;> simp [h, run_ite, run_throw, run_pure]

/-- The outcome and trace of `RunCommandBuffer`, path by path. -/
theorem RunCommandBuffer_run (cmd q dev : Handle) (b : Backend) (t : List Call) :
    (RunCommandBuffer cmd q dev).run b t =
      if b.result t (createFenceCall dev) = VK_SUCCESS then
        if b.result (t ++ [createFenceCall dev])
            (submitCall q cmd (b.handle t (createFenceCall dev))) = VK_SUCCESS then
          if b.result (t ++ [createFenceCall dev,
                submitCall q cmd (b.handle t (createFenceCall dev))])
              (waitCall dev (b.handle t (createFenceCall dev))) = VK_SUCCESS then
            (Except.ok (),
              t ++ [createFenceCall dev, submitCall q cmd (b.handle t (createFenceCall dev)),
                waitCall dev (b.handle t (createFenceCall dev)),
                Call.vkDestroyFence dev (b.handle t (createFenceCall dev))])
          else
            (Except.error "Fatal : VkResult is not VK_SUCCESS",
              t ++ [createFenceCall dev, submitCall q cmd (b.handle t (createFenceCall dev)),
                waitCall dev (b.handle t (createFenceCall dev))])
        else
          (Except.error "Fatal : VkResult is not VK_SUCCESS",
            t ++ [createFenceCall dev, submitCall q cmd (b.handle t (createFenceCall dev))])
      else
        (Except.error "Fatal : VkResult is not VK_SUCCESS", t ++ [createFenceCall dev]) := by
  unfold RunCommandBuffer
  simp only [run_bind, run_callOut, run_check, run_call, run_callVoid,
    createFenceCall, submitCall, waitCall]
  split_ifs <;> simp_all

/-- C1. For each of the three one-shot executions, on a backend on which every
call succeeds, the calls made are exactly: allocate one primary command buffer
from the pool, begin recording with the one-time-submit flag, the recorded
commands, end recording, create a fence without flags, submit the one command
buffer to the queue with that fence, wait on the fence, destroy the fence,
free the command buffer to the pool it came from. The command buffer that is
begun, recorded into, ended, submitted and freed is the handle the backend
gave for the allocation, and the fence that is submitted with, waited on and
destroyed is the handle the backend gave for the fence creation. -/
theorem one_shot_call_sequence (b : Backend)
    (hok : ∀ (h : List Call) (c : Call), b.result h c = VK_SUCCESS)
    (t : List Call) (dev pool queue : Handle)
    (triPos : List CFloat) (floatsNum : Int) (buffer : Handle)
    (pipeline vbo fbo : Handle) (extent : VkExtent2D) (renderPass : Handle)
    (image : Handle) (width height : Int) (outBuffer : Handle) :
    (∃ cmdBuff fence : Handle,
      cmdBuff = b.handle t (Call.vkAllocateCommandBuffers dev ⟨pool, VK_COMMAND_BUFFER_LEVEL_PRIMARY, 1⟩) ∧
      fence = b.handle (t ++
          [Call.vkAllocateCommandBuffers dev ⟨pool, VK_COMMAND_BUFFER_LEVEL_PRIMARY, 1⟩,
           Call.vkBeginCommandBuffer cmdBuff ⟨VK_COMMAND_BUFFER_USAGE_ONE_TIME_SUBMIT_BIT⟩,
           Call.vkCmdUpdateBuffer cmdBuff buffer 0 (mulSizeT (toSizeT floatsNum) sizeof_float)
             triPos,
           Call.vkEndCommandBuffer cmdBuff])
        (Call.vkCreateFence dev ⟨0⟩) ∧
      (PutTriangleVerticesToVBO_Now dev pool queue triPos floatsNum buffer).run b t =
        (Except.ok (), t ++
          [Call.vkAllocateCommandBuffers dev ⟨pool, VK_COMMAND_BUFFER_LEVEL_PRIMARY, 1⟩,
           Call.vkBeginCommandBuffer cmdBuff ⟨VK_COMMAND_BUFFER_USAGE_ONE_TIME_SUBMIT_BIT⟩,
           Call.vkCmdUpdateBuffer cmdBuff buffer 0 (mulSizeT (toSizeT floatsNum) sizeof_float)
             triPos,
           Call.vkEndCommandBuffer cmdBuff,
           Call.vkCreateFence dev ⟨0⟩,
           Call.vkQueueSubmit queue 1 [⟨0, 1, [cmdBuff], 0⟩] fence,
           Call.vkWaitForFences dev 1 [fence] VK_TRUE 100000000000,
           Call.vkDestroyFence dev fence,
           Call.vkFreeCommandBuffers dev pool 1 [cmdBuff]])) ∧
    (∃ cmdBuff fence : Handle,
      cmdBuff = b.handle t (Call.vkAllocateCommandBuffers dev ⟨pool, VK_COMMAND_BUFFER_LEVEL_PRIMARY, 1⟩) ∧
      fence = b.handle (t ++
          [Call.vkAllocateCommandBuffers dev ⟨pool, VK_COMMAND_BUFFER_LEVEL_PRIMARY, 1⟩,
           Call.vkBeginCommandBuffer cmdBuff ⟨VK_COMMAND_BUFFER_USAGE_ONE_TIME_SUBMIT_BIT⟩,
           Call.vkCmdBeginRenderPass cmdBuff
             ⟨renderPass, fbo, ⟨⟨0, 0⟩, extent⟩, 1, [[⟨0, 1⟩, ⟨0, 1⟩, ⟨1, 4⟩, ⟨1, 1⟩]]⟩
             VK_SUBPASS_CONTENTS_INLINE,
           Call.vkCmdBindPipeline cmdBuff VK_PIPELINE_BIND_POINT_GRAPHICS pipeline,
           Call.vkCmdBindVertexBuffers cmdBuff 0 1 [vbo] [0],
           Call.vkCmdDraw cmdBuff 3 1 0 0,
           Call.vkCmdEndRenderPass cmdBuff,
           Call.vkEndCommandBuffer cmdBuff])
        (Call.vkCreateFence dev ⟨0⟩) ∧
      (RenderToTexture_Now dev pool queue pipeline vbo fbo extent renderPass).run b t =
        (Except.ok (), t ++
          [Call.vkAllocateCommandBuffers dev ⟨pool, VK_COMMAND_BUFFER_LEVEL_PRIMARY, 1⟩,
           Call.vkBeginCommandBuffer cmdBuff ⟨VK_COMMAND_BUFFER_USAGE_ONE_TIME_SUBMIT_BIT⟩,
           Call.vkCmdBeginRenderPass cmdBuff
             ⟨renderPass, fbo, ⟨⟨0, 0⟩, extent⟩, 1, [[⟨0, 1⟩, ⟨0, 1⟩, ⟨1, 4⟩, ⟨1, 1⟩]]⟩
             VK_SUBPASS_CONTENTS_INLINE,
           Call.vkCmdBindPipeline cmdBuff VK_PIPELINE_BIND_POINT_GRAPHICS pipeline,
           Call.vkCmdBindVertexBuffers cmdBuff 0 1 [vbo] [0],
           Call.vkCmdDraw cmdBuff 3 1 0 0,
           Call.vkCmdEndRenderPass cmdBuff,
           Call.vkEndCommandBuffer cmdBuff,
           Call.vkCreateFence dev ⟨0⟩,
           Call.vkQueueSubmit queue 1 [⟨0, 1, [cmdBuff], 0⟩] fence,
           Call.vkWaitForFences dev 1 [fence] VK_TRUE 100000000000,
           Call.vkDestroyFence dev fence,
           Call.vkFreeCommandBuffers dev pool 1 [cmdBuff]])) ∧
    (∃ cmdBuff fence : Handle,
      cmdBuff = b.handle t (Call.vkAllocateCommandBuffers dev ⟨pool, VK_COMMAND_BUFFER_LEVEL_PRIMARY, 1⟩) ∧
      fence = b.handle (t ++
          [Call.vkAllocateCommandBuffers dev ⟨pool, VK_COMMAND_BUFFER_LEVEL_PRIMARY, 1⟩,
           Call.vkBeginCommandBuffer cmdBuff ⟨VK_COMMAND_BUFFER_USAGE_ONE_TIME_SUBMIT_BIT⟩,
           Call.vkCmdCopyImageToBuffer cmdBuff image VK_IMAGE_LAYOUT_TRANSFER_SRC_OPTIMAL
             outBuffer 1
             [⟨0, toUInt32 width, toUInt32 height, ⟨VK_IMAGE_ASPECT_COLOR_BIT, 0, 0, 1⟩,
               ⟨0, 0, 0⟩, ⟨toUInt32 width, toUInt32 height, 1⟩⟩],
           Call.vkEndCommandBuffer cmdBuff])
        (Call.vkCreateFence dev ⟨0⟩) ∧
      (CopyTextureToBuffer_Now dev pool queue image width height outBuffer).run b t =
        (Except.ok (), t ++
          [Call.vkAllocateCommandBuffers dev ⟨pool, VK_COMMAND_BUFFER_LEVEL_PRIMARY, 1⟩,
           Call.vkBeginCommandBuffer cmdBuff ⟨VK_COMMAND_BUFFER_USAGE_ONE_TIME_SUBMIT_BIT⟩,
           Call.vkCmdCopyImageToBuffer cmdBuff image VK_IMAGE_LAYOUT_TRANSFER_SRC_OPTIMAL
             outBuffer 1
             [⟨0, toUInt32 width, toUInt32 height, ⟨VK_IMAGE_ASPECT_COLOR_BIT, 0, 0, 1⟩,
               ⟨0, 0, 0⟩, ⟨toUInt32 width, toUInt32 height, 1⟩⟩],
           Call.vkEndCommandBuffer cmdBuff,
           Call.vkCreateFence dev ⟨0⟩,
           Call.vkQueueSubmit queue 1 [⟨0, 1, [cmdBuff], 0⟩] fence,
           Call.vkWaitForFences dev 1 [fence] VK_TRUE 100000000000,
           Call.vkDestroyFence dev fence,
           Call.vkFreeCommandBuffers dev pool 1 [cmdBuff]])) := by
  refine ⟨?_, ?_, ?_⟩
  · exact ⟨_, _, rfl, rfl, by
      unfold PutTriangleVerticesToVBO_Now
      simp only [run_bind, run_callOut, run_call, run_callVoid, run_ite, run_throw, run_pure,
        RunCommandBuffer_run, hok, createFenceCall, submitCall, waitCall, List.append_assoc,
        List.singleton_append, List.cons_append, List.nil_append, ne_eq, not_true_eq_false,
        if_true, if_false]⟩
  · exact ⟨_, _, rfl, rfl, by
      unfold RenderToTexture_Now
      simp only [run_bind, run_callOut, run_call, run_callVoid, run_ite, run_throw, run_pure,
        RunCommandBuffer_run, hok, createFenceCall, submitCall, waitCall, List.append_assoc,
        List.singleton_append, List.cons_append, List.nil_append, ne_eq, not_true_eq_false,
        if_true, if_false]⟩
  · exact ⟨_, _, rfl, rfl, by
      unfold CopyTextureToBuffer_Now
      simp only [run_bind, run_callOut, run_call, run_callVoid, run_ite, run_throw, run_pure,
        RunCommandBuffer_run, hok, createFenceCall, submitCall, waitCall, List.append_assoc,
        List.singleton_append, List.cons_append, List.nil_append, ne_eq, not_true_eq_false,
        if_true, if_false]⟩

/-- Witness of C1 on the backend on which every call succeeds and the handle
given by a call is its position in the history: the command buffer is handle
1 and the fence is the handle of the fence creation (5 for the upload and the
copy, 9 for the draw). -/
theorem one_shot_call_sequence_witness :
    (∀ (h : List Call) (c : Call), okBackend.result h c = VK_SUCCESS) ∧
    okBackend.handle [] (Call.vkAllocateCommandBuffers 10
      ⟨20, VK_COMMAND_BUFFER_LEVEL_PRIMARY, 1⟩) = 1 ∧
    (PutTriangleVerticesToVBO_Now 10 20 30 trianglePos 6 40).run okBackend [] =
      (Except.ok (),
        [Call.vkAllocateCommandBuffers 10 ⟨20, VK_COMMAND_BUFFER_LEVEL_PRIMARY, 1⟩,
         Call.vkBeginCommandBuffer 1 ⟨VK_COMMAND_BUFFER_USAGE_ONE_TIME_SUBMIT_BIT⟩,
         Call.vkCmdUpdateBuffer 1 40 0 24 trianglePos,
         Call.vkEndCommandBuffer 1,
         Call.vkCreateFence 10 ⟨0⟩,
         Call.vkQueueSubmit 30 1 [⟨0, 1, [1], 0⟩] 5,
         Call.vkWaitForFences 10 1 [5] VK_TRUE 100000000000,
         Call.vkDestroyFence 10 5,
         Call.vkFreeCommandBuffers 10 20 1 [1]]) ∧
    ((∃ cmdBuff fence : Handle,
      cmdBuff = okBackend.handle [] (Call.vkAllocateCommandBuffers 10 ⟨20, VK_COMMAND_BUFFER_LEVEL_PRIMARY, 1⟩) ∧
      fence = okBackend.handle ([] ++
          [Call.vkAllocateCommandBuffers 10 ⟨20, VK_COMMAND_BUFFER_LEVEL_PRIMARY, 1⟩,
           Call.vkBeginCommandBuffer cmdBuff ⟨VK_COMMAND_BUFFER_USAGE_ONE_TIME_SUBMIT_BIT⟩,
           Call.vkCmdUpdateBuffer cmdBuff 40 0 (mulSizeT (toSizeT 6) sizeof_float)
             trianglePos,
           Call.vkEndCommandBuffer cmdBuff])
        (Call.vkCreateFence 10 ⟨0⟩) ∧
      (PutTriangleVerticesToVBO_Now 10 20 30 trianglePos 6 40).run okBackend [] =
        (Except.ok (), [] ++
          [Call.vkAllocateCommandBuffers 10 ⟨20, VK_COMMAND_BUFFER_LEVEL_PRIMARY, 1⟩,
           Call.vkBeginCommandBuffer cmdBuff ⟨VK_COMMAND_BUFFER_USAGE_ONE_TIME_SUBMIT_BIT⟩,
           Call.vkCmdUpdateBuffer cmdBuff 40 0 (mulSizeT (toSizeT 6) sizeof_float)
             trianglePos,
           Call.vkEndCommandBuffer cmdBuff,
           Call.vkCreateFence 10 ⟨0⟩,
           Call.vkQueueSubmit 30 1 [⟨0, 1, [cmdBuff], 0⟩] fence,
           Call.vkWaitForFences 10 1 [fence] VK_TRUE 100000000000,
           Call.vkDestroyFence 10 fence,
           Call.vkFreeCommandBuffers 10 20 1 [cmdBuff]])) ∧
    (∃ cmdBuff fence : Handle,
      cmdBuff = okBackend.handle [] (Call.vkAllocateCommandBuffers 10 ⟨20, VK_COMMAND_BUFFER_LEVEL_PRIMARY, 1⟩) ∧
      fence = okBackend.handle ([] ++
          [Call.vkAllocateCommandBuffers 10 ⟨20, VK_COMMAND_BUFFER_LEVEL_PRIMARY, 1⟩,
           Call.vkBeginCommandBuffer cmdBuff ⟨VK_COMMAND_BUFFER_USAGE_ONE_TIME_SUBMIT_BIT⟩,
           Call.vkCmdBeginRenderPass cmdBuff
             ⟨70, 60, ⟨⟨0, 0⟩, ⟨800, 600⟩⟩, 1, [[⟨0, 1⟩, ⟨0, 1⟩, ⟨1, 4⟩, ⟨1, 1⟩]]⟩
             VK_SUBPASS_CONTENTS_INLINE,
           Call.vkCmdBindPipeline cmdBuff VK_PIPELINE_BIND_POINT_GRAPHICS 50,
           Call.vkCmdBindVertexBuffers cmdBuff 0 1 [40] [0],
           Call.vkCmdDraw cmdBuff 3 1 0 0,
           Call.vkCmdEndRenderPass cmdBuff,
           Call.vkEndCommandBuffer cmdBuff])
        (Call.vkCreateFence 10 ⟨0⟩) ∧
      (RenderToTexture_Now 10 20 30 50 40 60 ⟨800, 600⟩ 70).run okBackend [] =
        (Except.ok (), [] ++
          [Call.vkAllocateCommandBuffers 10 ⟨20, VK_COMMAND_BUFFER_LEVEL_PRIMARY, 1⟩,
           Call.vkBeginCommandBuffer cmdBuff ⟨VK_COMMAND_BUFFER_USAGE_ONE_TIME_SUBMIT_BIT⟩,
           Call.vkCmdBeginRenderPass cmdBuff
             ⟨70, 60, ⟨⟨0, 0⟩, ⟨800, 600⟩⟩, 1, [[⟨0, 1⟩, ⟨0, 1⟩, ⟨1, 4⟩, ⟨1, 1⟩]]⟩
             VK_SUBPASS_CONTENTS_INLINE,
           Call.vkCmdBindPipeline cmdBuff VK_PIPELINE_BIND_POINT_GRAPHICS 50,
           Call.vkCmdBindVertexBuffers cmdBuff 0 1 [40] [0],
           Call.vkCmdDraw cmdBuff 3 1 0 0,
           Call.vkCmdEndRenderPass cmdBuff,
           Call.vkEndCommandBuffer cmdBuff,
           Call.vkCreateFence 10 ⟨0⟩,
           Call.vkQueueSubmit 30 1 [⟨0, 1, [cmdBuff], 0⟩] fence,
           Call.vkWaitForFences 10 1 [fence] VK_TRUE 100000000000,
           Call.vkDestroyFence 10 fence,
           Call.vkFreeCommandBuffers 10 20 1 [cmdBuff]])) ∧
    (∃ cmdBuff fence : Handle,
      cmdBuff = okBackend.handle [] (Call.vkAllocateCommandBuffers 10 ⟨20, VK_COMMAND_BUFFER_LEVEL_PRIMARY, 1⟩) ∧
      fence = okBackend.handle ([] ++
          [Call.vkAllocateCommandBuffers 10 ⟨20, VK_COMMAND_BUFFER_LEVEL_PRIMARY, 1⟩,
           Call.vkBeginCommandBuffer cmdBuff ⟨VK_COMMAND_BUFFER_USAGE_ONE_TIME_SUBMIT_BIT⟩,
           Call.vkCmdCopyImageToBuffer cmdBuff 80 VK_IMAGE_LAYOUT_TRANSFER_SRC_OPTIMAL
             90 1
             [⟨0, toUInt32 800, toUInt32 600, ⟨VK_IMAGE_ASPECT_COLOR_BIT, 0, 0, 1⟩,
               ⟨0, 0, 0⟩, ⟨toUInt32 800, toUInt32 600, 1⟩⟩],
           Call.vkEndCommandBuffer cmdBuff])
        (Call.vkCreateFence 10 ⟨0⟩) ∧
      (CopyTextureToBuffer_Now 10 20 30 80 800 600 90).run okBackend [] =
        (Except.ok (), [] ++
          [Call.vkAllocateCommandBuffers 10 ⟨20, VK_COMMAND_BUFFER_LEVEL_PRIMARY, 1⟩,
           Call.vkBeginCommandBuffer cmdBuff ⟨VK_COMMAND_BUFFER_USAGE_ONE_TIME_SUBMIT_BIT⟩,
           Call.vkCmdCopyImageToBuffer cmdBuff 80 VK_IMAGE_LAYOUT_TRANSFER_SRC_OPTIMAL
             90 1
             [⟨0, toUInt32 800, toUInt32 600, ⟨VK_IMAGE_ASPECT_COLOR_BIT, 0, 0, 1⟩,
               ⟨0, 0, 0⟩, ⟨toUInt32 800, toUInt32 600, 1⟩⟩],
           Call.vkEndCommandBuffer cmdBuff,
           Call.vkCreateFence 10 ⟨0⟩,
           Call.vkQueueSubmit 30 1 [⟨0, 1, [cmdBuff], 0⟩] fence,
           Call.vkWaitForFences 10 1 [fence] VK_TRUE 100000000000,
           Call.vkDestroyFence 10 fence,
           Call.vkFreeCommandBuffers 10 20 1 [cmdBuff]]))) :=
  ⟨fun _ _ => rfl, rfl, rfl,
   one_shot_call_sequence okBackend (fun _ _ => rfl) [] 10 20 30 trianglePos 6 40
      50 40 60 ⟨800, 600⟩ 70 80 800 600 90⟩

/-- C2. `RunCommandBuffer` returns normally exactly when fence creation, queue
submission and the fence wait all returned `VK_SUCCESS`; every other result of
the fence wait, a timeout included, ends it with a fatal error. -/
theorem RunCommandBuffer_returns_iff_all_succeed (b : Backend) (t : List Call)
    (cmd q dev : Handle) :
    (((RunCommandBuffer cmd q dev).run b t).1 = Except.ok () ↔
      (b.result t (createFenceCall dev) = VK_SUCCESS ∧
       b.result (t ++ [createFenceCall dev])
         (submitCall q cmd (b.handle t (createFenceCall dev))) = VK_SUCCESS ∧
       b.result (t ++ [createFenceCall dev, submitCall q cmd (b.handle t (createFenceCall dev))])
         (waitCall dev (b.handle t (createFenceCall dev))) = VK_SUCCESS)) ∧
    (b.result (t ++ [createFenceCall dev, submitCall q cmd (b.handle t (createFenceCall dev))])
         (waitCall dev (b.handle t (createFenceCall dev))) ≠ VK_SUCCESS →
      ∃ msg, ((RunCommandBuffer cmd q dev).run b t).1 = Except.error msg) := by
  rw [RunCommandBuffer_run]
  constructor
  · split_ifs <;> simp_all
  · intro hw
    split_ifs <;> simp_all

/-- Witness of C2: on a backend whose fence wait times out, `RunCommandBuffer`
ends with a fatal error. -/
theorem RunCommandBuffer_timeout_witness :
    timeoutBackend.result ([] ++ [createFenceCall 3, submitCall 2 1 (timeoutBackend.handle [] (createFenceCall 3))])
        (waitCall 3 (timeoutBackend.handle [] (createFenceCall 3))) = VK_TIMEOUT ∧
    ∃ msg, ((RunCommandBuffer 1 2 3).run timeoutBackend []).1 = Except.error msg :=
  ⟨rfl, (RunCommandBuffer_returns_iff_all_succeed timeoutBackend [] 1 2 3).2 (by decide)⟩

/-- C3 (failing input). On a backend that rejects every begin and every end of
recording, each of the three executions returns normally and has submitted the
command buffer to the queue. -/
theorem rejected_recording_is_submitted :
    (PutTriangleVerticesToVBO_Now 10 20 30 trianglePos 6 40).run recordingRejectedBackend [] =
      (Except.ok (),
        [Call.vkAllocateCommandBuffers 10 ⟨20, 0, 1⟩,
         Call.vkBeginCommandBuffer 1 ⟨1⟩,
         Call.vkCmdUpdateBuffer 1 40 0 24 trianglePos,
         Call.vkEndCommandBuffer 1,
         Call.vkCreateFence 10 ⟨0⟩,
         Call.vkQueueSubmit 30 1 [⟨0, 1, [1], 0⟩] 5,
         Call.vkWaitForFences 10 1 [5] 1 100000000000,
         Call.vkDestroyFence 10 5,
         Call.vkFreeCommandBuffers 10 20 1 [1]]) ∧
    (RenderToTexture_Now 10 20 30 50 40 60 ⟨800, 600⟩ 70).run recordingRejectedBackend [] =
      (Except.ok (),
        [Call.vkAllocateCommandBuffers 10 ⟨20, 0, 1⟩,
         Call.vkBeginCommandBuffer 1 ⟨1⟩,
         Call.vkCmdBeginRenderPass 1
           ⟨70, 60, ⟨⟨0, 0⟩, ⟨800, 600⟩⟩, 1, [[⟨0, 1⟩, ⟨0, 1⟩, ⟨1, 4⟩, ⟨1, 1⟩]]⟩ 0,
         Call.vkCmdBindPipeline 1 0 50,
         Call.vkCmdBindVertexBuffers 1 0 1 [40] [0],
         Call.vkCmdDraw 1 3 1 0 0,
         Call.vkCmdEndRenderPass 1,
         Call.vkEndCommandBuffer 1,
         Call.vkCreateFence 10 ⟨0⟩,
         Call.vkQueueSubmit 30 1 [⟨0, 1, [1], 0⟩] 9,
         Call.vkWaitForFences 10 1 [9] 1 100000000000,
         Call.vkDestroyFence 10 9,
         Call.vkFreeCommandBuffers 10 20 1 [1]]) ∧
    (CopyTextureToBuffer_Now 10 20 30 80 800 600 90).run recordingRejectedBackend [] =
      (Except.ok (),
        [Call.vkAllocateCommandBuffers 10 ⟨20, 0, 1⟩,
         Call.vkBeginCommandBuffer 1 ⟨1⟩,
         Call.vkCmdCopyImageToBuffer 1 80 6 90 1
           [⟨0, 800, 600, ⟨1, 0, 0, 1⟩, ⟨0, 0, 0⟩, ⟨800, 600, 1⟩⟩],
         Call.vkEndCommandBuffer 1,
         Call.vkCreateFence 10 ⟨0⟩,
         Call.vkQueueSubmit 30 1 [⟨0, 1, [1], 0⟩] 5,
         Call.vkWaitForFences 10 1 [5] 1 100000000000,
         Call.vkDestroyFence 10 5,
         Call.vkFreeCommandBuffers 10 20 1 [1]]) :=
  ⟨rfl, rfl, rfl⟩

/-! ## Host-side synchronisation of the programs -/

theorem syncRun_append (b : Backend) (l1 l2 : List Call) :
    ∀ (hist : List Call) (inFlight : List Handle),
      syncRun b hist inFlight (l1 ++ l2) =
        (syncRun b hist inFlight l1).bind (fun inFlight1 => syncRun b (hist ++ l1) inFlight1 l2) := by
  induction l1 with
  | nil => intro hist inFlight; simp [syncRun]
  | cons c rest ih =>
    intro hist inFlight
    simp only [List.cons_append, syncRun]
    cases h : syncStep b hist inFlight c with
    | none => simp
    | some inFlight1 => simp [ih, List.append_assoc]

theorem syncStep_other (b : Backend) (hist : List Call) (c : Call) (hc : isSubmit c = false) :
    syncStep b hist [] c = some [] := by
  cases c <;> simp_all [syncStep, isSubmit]

theorem Synchronised_pure {α : Type} (a : α) : Synchronised (pure a : Prog α) := by
  intro b t
  exact ⟨[], by simp [run_pure], [], rfl, fun _ _ => rfl⟩

theorem Synchronised_throw {α : Type} (e : String) : Synchronised (throw e : Prog α) := by
  intro b t
  exact ⟨[], by simp [run_throw], [], rfl, fun _ _ => rfl⟩

theorem Synchronised_call (c : Call) (hc : isSubmit c = false) : Synchronised (call c) := by
  intro b t
  exact ⟨[c], by simp [run_call], [], by simp [syncRun, syncStep_other b t c hc], fun _ _ => rfl⟩

theorem Synchronised_callOut (c : Call) (hc : isSubmit c = false) :
    Synchronised (callOut c) := by
  intro b t
  exact ⟨[c], by simp [run_callOut], [], by simp [syncRun, syncStep_other b t c hc],
    fun _ _ => rfl⟩

theorem Synchronised_callVoid (c : Call) (hc : isSubmit c = false) :
    Synchronised (callVoid c) := by
  intro b t
  exact ⟨[c], by simp [run_callVoid], [], by simp [syncRun, syncStep_other b t c hc],
    fun _ _ => rfl⟩

theorem Synchronised_ite {α : Type} (c : Prop) [Decidable c] (m n : Prog α)
    (hm : Synchronised m) (hn : Synchronised n) : Synchronised (if c then m else n) := by
  split
  · exact hm
  · exact hn

theorem Synchronised_bind {α β : Type} (m : Prog α) (f : α → Prog β)
    (hm : Synchronised m) (hf : ∀ a, Synchronised (f a)) : Synchronised (m >>= f) := by
  intro b t
  obtain ⟨new1, h1, inF1, hs1, hz1⟩ := hm b t
  rw [run_bind]
  rcases hr : m.run b t with ⟨e | a, t1⟩
  · refine ⟨new1, ?_, inF1, hs1, ?_⟩
    · simpa [hr] using h1
    · intro a ha; simp at ha
  · have ht1 : t1 = t ++ new1 := by simpa [hr] using h1
    have hz : inF1 = [] := hz1 a (by simp [hr])
    subst ht1
    subst hz
    obtain ⟨new2, h2, inF2, hs2, hz2⟩ := hf a b (t ++ new1)
    refine ⟨new1 ++ new2, ?_, inF2, ?_, ?_⟩
    · simp only [h2, List.append_assoc]
    · rw [syncRun_append, hs1]
      simpa using hs2
    · intro v hv
      exact hz2 v hv

theorem Synchronised_RunCommandBuffer (cmd q dev : Handle) :
    Synchronised (RunCommandBuffer cmd q dev) := by
  intro b t
  rw [RunCommandBuffer_run]
  by_cases h1 : b.result t (createFenceCall dev) = VK_SUCCESS
  · by_cases h2 : b.result (t ++ [createFenceCall dev])
        (submitCall q cmd (b.handle t (createFenceCall dev))) = VK_SUCCESS
    · by_cases h3 : b.result (t ++ [createFenceCall dev,
          submitCall q cmd (b.handle t (createFenceCall dev))])
          (waitCall dev (b.handle t (createFenceCall dev))) = VK_SUCCESS
      · simp only [h1, h2, h3, if_true]
        refine ⟨_, rfl, [], ?_, fun _ _ => rfl⟩
        simp only [createFenceCall, submitCall, waitCall] at h1 h2 h3 ⊢
        simp [syncRun, syncStep, h2, h3]
      · simp only [h1, h2, h3, if_true, if_false]
        refine ⟨_, rfl, [b.handle t (createFenceCall dev)], ?_, fun _ h => by simp at h⟩
        simp only [createFenceCall, submitCall, waitCall] at h1 h2 h3 ⊢
        simp [syncRun, syncStep, h2, h3]
    · simp only [h1, h2, if_true, if_false]
      refine ⟨_, rfl, [], ?_, fun _ _ => rfl⟩
      simp only [createFenceCall, submitCall, waitCall] at h1 h2 ⊢
      simp [syncRun, syncStep, h2]
  · simp only [h1, if_false]
    refine ⟨_, rfl, [], ?_, fun _ _ => rfl⟩
    simp [syncRun, syncStep, createFenceCall]

theorem forall_pair {α β : Type} {P : α × β → Prop} (h : ∀ a b, P (a, b)) : ∀ p, P p :=
  fun ⟨a, b⟩ => h a b

theorem Synchronised_RenderImageAndSaveItToFile (app : App) :
    Synchronised (RenderImageAndSaveItToFile app) := by
  unfold RenderImageAndSaveItToFile PutTriangleVerticesToVBO_Now RenderToTexture_Now
    CopyTextureToBuffer_Now
  repeat' (first
    | exact Synchronised_pure _
    | exact Synchronised_throw _
    | exact Synchronised_call _ rfl
    | exact Synchronised_callOut _ rfl
    | exact Synchronised_callVoid _ rfl
    | exact Synchronised_RunCommandBuffer _ _ _
    | apply Synchronised_bind
    | apply Synchronised_ite
    | apply forall_pair
    | intro _)


/-! ## Normal returns -/

theorem run_bind_ok {α β : Type} {m : Prog α} {f : α → Prog β} {b : Backend}
    {t t2 : List Call} {v : β} (h : (m >>= f).run b t = (Except.ok v, t2)) :
    ∃ a t1, m.run b t = (Except.ok a, t1) ∧ (f a).run b t1 = (Except.ok v, t2) := by
  rw [run_bind] at h
  rcases hr : m.run b t with ⟨e | a, t1⟩
  · simp [hr] at h
  · exact ⟨a, t1, rfl, by simpa [hr] using h⟩

theorem run_eq_of_fst {α : Type} {m : Prog α} {b : Backend} {t : List Call} {a : α}
    (h : (m.run b t).1 = Except.ok a) : m.run b t = (Except.ok a, (m.run b t).2) :=
  Prod.ext h rfl

/-- A normal return of `PutTriangleVerticesToVBO_Now` has made exactly these calls. -/
theorem PutTriangleVerticesToVBO_Now_ok {b : Backend} {t t2 : List Call}
    {dev pool queue : Handle} {triPos : List CFloat} {floatsNum : Int} {buffer : Handle}
    (h : (PutTriangleVerticesToVBO_Now dev pool queue triPos floatsNum buffer).run b t =
      (Except.ok (), t2)) :
    ∃ cmdBuff fence : Handle, t2 = t ++
      [Call.vkAllocateCommandBuffers dev ⟨pool, VK_COMMAND_BUFFER_LEVEL_PRIMARY, 1⟩,
       Call.vkBeginCommandBuffer cmdBuff ⟨VK_COMMAND_BUFFER_USAGE_ONE_TIME_SUBMIT_BIT⟩,
       Call.vkCmdUpdateBuffer cmdBuff buffer 0 (mulSizeT (toSizeT floatsNum) sizeof_float)
         triPos,
       Call.vkEndCommandBuffer cmdBuff,
       Call.vkCreateFence dev ⟨0⟩,
       Call.vkQueueSubmit queue 1 [⟨0, 1, [cmdBuff], 0⟩] fence,
       Call.vkWaitForFences dev 1 [fence] VK_TRUE 100000000000,
       Call.vkDestroyFence dev fence,
       Call.vkFreeCommandBuffers dev pool 1 [cmdBuff]] := by
  unfold PutTriangleVerticesToVBO_Now at h
  simp only [run_bind, run_callOut, run_call, run_callVoid, run_ite, run_throw, run_pure,
    RunCommandBuffer_run, createFenceCall, submitCall, waitCall, List.append_assoc,
    List.singleton_append, List.cons_append, List.nil_append] at h
  split_ifs at h <;>
    simp only [Prod.mk.injEq, reduceCtorEq, false_and, true_and, List.append_assoc,
      List.singleton_append, List.cons_append, List.nil_append] at h
  exact ⟨_, _, h.symm⟩

/-- A normal return of `RenderToTexture_Now` has made exactly these calls. -/
theorem RenderToTexture_Now_ok {b : Backend} {t t2 : List Call}
    {dev pool queue pipeline vbo fbo : Handle} {extent : VkExtent2D} {renderPass : Handle}
    (h : (RenderToTexture_Now dev pool queue pipeline vbo fbo extent renderPass).run b t =
      (Except.ok (), t2)) :
    ∃ cmdBuff fence : Handle, t2 = t ++
      [Call.vkAllocateCommandBuffers dev ⟨pool, VK_COMMAND_BUFFER_LEVEL_PRIMARY, 1⟩,
       Call.vkBeginCommandBuffer cmdBuff ⟨VK_COMMAND_BUFFER_USAGE_ONE_TIME_SUBMIT_BIT⟩,
       Call.vkCmdBeginRenderPass cmdBuff
         ⟨renderPass, fbo, ⟨⟨0, 0⟩, extent⟩, 1, [[⟨0, 1⟩, ⟨0, 1⟩, ⟨1, 4⟩, ⟨1, 1⟩]]⟩
         VK_SUBPASS_CONTENTS_INLINE,
       Call.vkCmdBindPipeline cmdBuff VK_PIPELINE_BIND_POINT_GRAPHICS pipeline,
       Call.vkCmdBindVertexBuffers cmdBuff 0 1 [vbo] [0],
       Call.vkCmdDraw cmdBuff 3 1 0 0,
       Call.vkCmdEndRenderPass cmdBuff,
       Call.vkEndCommandBuffer cmdBuff,
       Call.vkCreateFence dev ⟨0⟩,
       Call.vkQueueSubmit queue 1 [⟨0, 1, [cmdBuff], 0⟩] fence,
       Call.vkWaitForFences dev 1 [fence] VK_TRUE 100000000000,
       Call.vkDestroyFence dev fence,
       Call.vkFreeCommandBuffers dev pool 1 [cmdBuff]] := by
  unfold RenderToTexture_Now at h
  simp only [run_bind, run_callOut, run_call, run_callVoid, run_ite, run_throw, run_pure,
    RunCommandBuffer_run, createFenceCall, submitCall, waitCall, List.append_assoc,
    List.singleton_append, List.cons_append, List.nil_append] at h
  split_ifs at h <;>
    simp only [Prod.mk.injEq, reduceCtorEq, false_and, true_and, List.append_assoc,
      List.singleton_append, List.cons_append, List.nil_append] at h
  exact ⟨_, _, h.symm⟩

/-- A normal return of `CopyTextureToBuffer_Now` has made exactly these calls. -/
theorem CopyTextureToBuffer_Now_ok {b : Backend} {t t2 : List Call}
    {dev pool queue image : Handle} {width height : Int} {outBuffer : Handle}
    (h : (CopyTextureToBuffer_Now dev pool queue image width height outBuffer).run b t =
      (Except.ok (), t2)) :
    ∃ cmdBuff fence : Handle, t2 = t ++
      [Call.vkAllocateCommandBuffers dev ⟨pool, VK_COMMAND_BUFFER_LEVEL_PRIMARY, 1⟩,
       Call.vkBeginCommandBuffer cmdBuff ⟨VK_COMMAND_BUFFER_USAGE_ONE_TIME_SUBMIT_BIT⟩,
       Call.vkCmdCopyImageToBuffer cmdBuff image VK_IMAGE_LAYOUT_TRANSFER_SRC_OPTIMAL
         outBuffer 1
         [⟨0, toUInt32 width, toUInt32 height, ⟨VK_IMAGE_ASPECT_COLOR_BIT, 0, 0, 1⟩,
           ⟨0, 0, 0⟩, ⟨toUInt32 width, toUInt32 height, 1⟩⟩],
       Call.vkEndCommandBuffer cmdBuff,
       Call.vkCreateFence dev ⟨0⟩,
       Call.vkQueueSubmit queue 1 [⟨0, 1, [cmdBuff], 0⟩] fence,
       Call.vkWaitForFences dev 1 [fence] VK_TRUE 100000000000,
       Call.vkDestroyFence dev fence,
       Call.vkFreeCommandBuffers dev pool 1 [cmdBuff]] := by
  unfold CopyTextureToBuffer_Now at h
  simp only [run_bind, run_callOut, run_call, run_callVoid, run_ite, run_throw, run_pure,
    RunCommandBuffer_run, createFenceCall, submitCall, waitCall, List.append_assoc,
    List.singleton_append, List.cons_append, List.nil_append] at h
  split_ifs at h <;>
    simp only [Prod.mk.injEq, reduceCtorEq, false_and, true_and, List.append_assoc,
      List.singleton_append, List.cons_append, List.nil_append] at h
  exact ⟨_, _, h.symm⟩

/-- A normal return of `RenderImageAndSaveItToFile` has made exactly the calls
of the vertex upload, the draw, the copy and the read-back, in this order. -/
theorem RenderImageAndSaveItToFile_ok {b : Backend} {t t2 : List Call} {app : App}
    (h : (RenderImageAndSaveItToFile app).run b t = (Except.ok (), t2)) :
    ∃ cmd1 fence1 cmd2 fence2 cmd3 fence3 mapped : Handle,
      t2 = t ++ (uploadCalls app cmd1 fence1 ++ drawCalls app cmd2 fence2 ++
        copyCalls app cmd3 fence3 ++ readbackCalls app mapped) := by
  unfold RenderImageAndSaveItToFile at h
  obtain ⟨_, t1, h1, h⟩ := run_bind_ok h
  obtain ⟨cmd1, fence1, rfl⟩ := PutTriangleVerticesToVBO_Now_ok h1
  obtain ⟨_, t1, h1, h⟩ := run_bind_ok h
  obtain ⟨cmd2, fence2, rfl⟩ := RenderToTexture_Now_ok h1
  obtain ⟨_, t1, h1, h⟩ := run_bind_ok h
  obtain ⟨cmd3, fence3, rfl⟩ := CopyTextureToBuffer_Now_ok h1
  simp only [run_bind, run_callOut, run_callVoid, Prod.mk.injEq, true_and,
    List.append_assoc, List.singleton_append, List.cons_append, List.nil_append] at h
  exact ⟨cmd1, fence1, cmd2, fence2, cmd3, fence3, _, by rw [← h]; rfl⟩

/-- C4. In `RenderImageAndSaveItToFile` no submission is made, and the staging
memory is neither mapped nor handed to the bitmap writer, while the fence wait
of an earlier submission has not returned success; and a run that returns
normally has made exactly three submissions, in the order vertex upload, draw,
image-to-buffer copy, each followed by its fence wait before the next
execution starts, and maps the staging memory after the copy's wait. -/
theorem render_submissions_sequential (b : Backend) (app : App) (t : List Call) :
    hostSynchronised b t (((RenderImageAndSaveItToFile app).run b t).2.drop t.length) = true ∧
    (((RenderImageAndSaveItToFile app).run b t).1 = Except.ok () →
      ∃ cmd1 fence1 cmd2 fence2 cmd3 fence3 mapped : Handle,
        ((RenderImageAndSaveItToFile app).run b t).2 =
          t ++ (uploadCalls app cmd1 fence1 ++ drawCalls app cmd2 fence2 ++
            copyCalls app cmd3 fence3 ++ readbackCalls app mapped) ∧
        (uploadCalls app cmd1 fence1 ++ drawCalls app cmd2 fence2 ++
            copyCalls app cmd3 fence3 ++ readbackCalls app mapped).filter isSubmit =
          [Call.vkQueueSubmit app.graphicsQueue 1 [⟨0, 1, [cmd1], 0⟩] fence1,
           Call.vkQueueSubmit app.graphicsQueue 1 [⟨0, 1, [cmd2], 0⟩] fence2,
           Call.vkQueueSubmit app.transferQueue 1 [⟨0, 1, [cmd3], 0⟩] fence3]) := by
  constructor
  · obtain ⟨new, hnew, inFlight, hs, _⟩ := Synchronised_RenderImageAndSaveItToFile app b t
    rw [hnew, List.drop_left]
    simp [hostSynchronised, hs]
  · intro h
    obtain ⟨cmd1, fence1, cmd2, fence2, cmd3, fence3, mapped, h2⟩ :=
      RenderImageAndSaveItToFile_ok (run_eq_of_fst h)
    exact ⟨cmd1, fence1, cmd2, fence2, cmd3, fence3, mapped, h2, rfl⟩

/-- Witness of C4 on the backend on which every call succeeds. -/
theorem render_submissions_sequential_witness :
    ((RenderImageAndSaveItToFile App.init).run okBackend []).1 = Except.ok () ∧
    ∃ cmd1 fence1 cmd2 fence2 cmd3 fence3 mapped : Handle,
      ((RenderImageAndSaveItToFile App.init).run okBackend []).2 =
        [] ++ (uploadCalls App.init cmd1 fence1 ++ drawCalls App.init cmd2 fence2 ++
          copyCalls App.init cmd3 fence3 ++ readbackCalls App.init mapped) ∧
      (uploadCalls App.init cmd1 fence1 ++ drawCalls App.init cmd2 fence2 ++
          copyCalls App.init cmd3 fence3 ++ readbackCalls App.init mapped).filter isSubmit =
        [Call.vkQueueSubmit App.init.graphicsQueue 1 [⟨0, 1, [cmd1], 0⟩] fence1,
         Call.vkQueueSubmit App.init.graphicsQueue 1 [⟨0, 1, [cmd2], 0⟩] fence2,
         Call.vkQueueSubmit App.init.transferQueue 1 [⟨0, 1, [cmd3], 0⟩] fence3] :=
  ⟨rfl, (render_submissions_sequential okBackend App.init []).2 rfl⟩

/-! ## Memory-type selection -/

theorem findMemoryTypeFrom_some (bits props : Nat) :
    ∀ (table : List Nat) (i k : Nat), findMemoryTypeFrom bits props i table = some k →
      i ≤ k ∧ bits.testBit k = true ∧
        ∃ flags, table[k - i]? = some flags ∧ flags &&& props = props := by
  intro table
  induction table with
  | nil => intro i k h; simp [findMemoryTypeFrom] at h
  | cons flags rest ih =>
    intro i k h
    unfold findMemoryTypeFrom at h
    split_ifs at h with hc
    · have hk : i = k := by simpa using h
      subst hk
      exact ⟨le_refl _, hc.1, flags, by simp, hc.2⟩
    · obtain ⟨hle, hbit, fl, hget, hfl⟩ := ih (i + 1) k h
      refine ⟨by omega, hbit, fl, ?_, hfl⟩
      have hki : k - i = (k - (i + 1)) + 1 := by omega
      rw [hki]
      simpa using hget

theorem findMemoryTypeFrom_zero_suitable {bits props : Nat} {table : List Nat} {k : Nat}
    (h : findMemoryTypeFrom bits props 0 table = some k) :
    suitableType table bits props k = true := by
  obtain ⟨_, hbit, fl, hget, hfl⟩ := findMemoryTypeFrom_some bits props table 0 k h
  simp only [Nat.sub_zero] at hget
  simp only [suitableType, hbit, hget, hfl, beq_self_eq_true, Bool.and_self]

theorem findMemoryTypeFrom_none (bits props : Nat) :
    ∀ (table : List Nat) (i : Nat), findMemoryTypeFrom bits props i table = none →
      ∀ (j : Nat) (flags : Nat), table[j]? = some flags →
        ¬ (bits.testBit (i + j) = true ∧ flags &&& props = props) := by
  intro table
  induction table with
  | nil => intro i _ j flags hget; simp at hget
  | cons fl rest ih =>
    intro i h j flags hget
    unfold findMemoryTypeFrom at h
    split_ifs at h with hc
    cases j with
    | zero =>
      have hfl : fl = flags := by simpa using hget
      subst hfl
      simpa using hc
    | succ j =>
      have hget2 : rest[j]? = some flags := by simpa using hget
      have := ih (i + 1) h j flags hget2
      have hij : i + 1 + j = i + (j + 1) := by omega
      rwa [hij] at this

/-- When the table has a suitable entry, the scan finds one. -/
theorem findMemoryTypeFrom_zero_isSome {bits props : Nat} {table : List Nat} {i : Nat}
    (h : suitableType table bits props i = true) :
    ∃ k, findMemoryTypeFrom bits props 0 table = some k := by
  cases hf : findMemoryTypeFrom bits props 0 table with
  | some k => exact ⟨k, rfl⟩
  | none =>
    exfalso
    unfold suitableType at h
    cases hget : table[i]? with
    | none => simp only [hget, Bool.and_false, Bool.false_eq_true] at h
    | some flags =>
      simp only [hget, Bool.and_eq_true, beq_iff_eq] at h
      exact findMemoryTypeFrom_none bits props table 0 hf i flags hget
        ⟨by simpa using h.1, h.2⟩

theorem FindMemoryType_run_some {bits props : Nat} {pd : Handle} {b : Backend} {k : Nat}
    (h : findMemoryTypeFrom bits props 0 (b.memoryTypes pd) = some k) (t : List Call) :
    (FindMemoryType bits props pd).run b t = (Except.ok k, t) := by
  simp only [FindMemoryType, Prog.run, h]

theorem FindMemoryType_run_none {bits props : Nat} {pd : Handle} {b : Backend}
    (h : findMemoryTypeFrom bits props 0 (b.memoryTypes pd) = none) (t : List Call) :
    (FindMemoryType bits props pd).run b t =
      (Except.error "[FindMemoryType]: no suitable memory type", t) := by
  simp only [FindMemoryType, Prog.run, h]

/-! ## The resource creators, path by path -/

/-- `CreateVertexBuffer` when the scan of the memory-type table finds type `k`. -/
theorem CreateVertexBuffer_run_some {b : Backend} {t : List Call} {dev pd : Handle}
    {size k : Nat}
    (hfind : findMemoryTypeFrom (bufferRequirements b t dev (vertexBufferInfo size)).memoryTypeBits
      VK_MEMORY_PROPERTY_DEVICE_LOCAL_BIT 0 (b.memoryTypes pd) = some k) :
    (CreateVertexBuffer dev pd size).run b t =
      if b.result t (Call.vkCreateBuffer dev (vertexBufferInfo size)) = VK_SUCCESS then
        if b.result (t ++ (bufferCreationCalls b t dev (vertexBufferInfo size) k).take 2)
            (bufferAllocation b t dev (vertexBufferInfo size) k) = VK_SUCCESS then
          if b.result (t ++ (bufferCreationCalls b t dev (vertexBufferInfo size) k).take 3)
              (Call.vkBindBufferMemory dev (createdBuffer b t dev (vertexBufferInfo size))
                (bufferMemory b t dev (vertexBufferInfo size) k) 0) = VK_SUCCESS then
            (Except.ok (createdBuffer b t dev (vertexBufferInfo size),
                bufferMemory b t dev (vertexBufferInfo size) k),
              t ++ bufferCreationCalls b t dev (vertexBufferInfo size) k)
          else
            (Except.error "Fatal : VkResult is not VK_SUCCESS",
              t ++ bufferCreationCalls b t dev (vertexBufferInfo size) k)
        else
          (Except.error "Fatal : VkResult is not VK_SUCCESS",
            t ++ (bufferCreationCalls b t dev (vertexBufferInfo size) k).take 3)
      else
        (Except.error "Fatal : VkResult is not VK_SUCCESS",
          t ++ (bufferCreationCalls b t dev (vertexBufferInfo size) k).take 1) := by
  have hrun := fun t1 => FindMemoryType_run_some hfind t1
  simp only [bufferRequirements, vertexBufferInfo, bufferCreationCalls, createdBuffer,
    bufferAllocation, bufferMemory, List.take_succ_cons, List.take_zero] at hrun ⊢
  split_ifs <;>
    simp [CreateVertexBuffer, run_bind, run_callOut, run_callReq, run_call, run_check,
      run_pure, hrun, *]

/-- `CreateVertexBuffer` when the memory-type table has no suitable type. -/
theorem CreateVertexBuffer_run_none {b : Backend} {t : List Call} {dev pd : Handle}
    {size : Nat}
    (hfind : findMemoryTypeFrom (bufferRequirements b t dev (vertexBufferInfo size)).memoryTypeBits
      VK_MEMORY_PROPERTY_DEVICE_LOCAL_BIT 0 (b.memoryTypes pd) = none) :
    (CreateVertexBuffer dev pd size).run b t =
      if b.result t (Call.vkCreateBuffer dev (vertexBufferInfo size)) = VK_SUCCESS then
        (Except.error "[FindMemoryType]: no suitable memory type",
          t ++ [Call.vkCreateBuffer dev (vertexBufferInfo size),
            Call.vkGetBufferMemoryRequirements dev
              (createdBuffer b t dev (vertexBufferInfo size))])
      else
        (Except.error "Fatal : VkResult is not VK_SUCCESS",
          t ++ [Call.vkCreateBuffer dev (vertexBufferInfo size)]) := by
  have hrun := fun t1 => FindMemoryType_run_none hfind t1
  simp only [bufferRequirements, vertexBufferInfo, createdBuffer] at hrun ⊢
  split_ifs <;>
    simp [CreateVertexBuffer, run_bind, run_callOut, run_callReq, run_call, run_check,
      run_pure, hrun, *]


/-- Allocations and bindings of `CreateVertexBuffer`, on every path. -/
theorem CreateVertexBuffer_memory (b : Backend) (t : List Call) (dev pd : Handle) (size : Nat) :
    (∀ a ∈ allocations (((CreateVertexBuffer dev pd size).run b t).2.drop t.length),
      a.allocationSize = (bufferRequirements b t dev (vertexBufferInfo size)).size ∧
      suitableType (b.memoryTypes pd)
        (bufferRequirements b t dev (vertexBufferInfo size)).memoryTypeBits
        VK_MEMORY_PROPERTY_DEVICE_LOCAL_BIT a.memoryTypeIndex = true) ∧
    (∀ x ∈ bindings (((CreateVertexBuffer dev pd size).run b t).2.drop t.length),
      x.2.2 = 0) ∧
    ((∀ i, suitableType (b.memoryTypes pd)
        (bufferRequirements b t dev (vertexBufferInfo size)).memoryTypeBits
        VK_MEMORY_PROPERTY_DEVICE_LOCAL_BIT i = false) →
      (∃ msg, ((CreateVertexBuffer dev pd size).run b t).1 = Except.error msg) ∧
      allocations (((CreateVertexBuffer dev pd size).run b t).2.drop t.length) = []) ∧
    (∀ buffer memory, ((CreateVertexBuffer dev pd size).run b t).1 = Except.ok (buffer, memory) →
      (allocations (((CreateVertexBuffer dev pd size).run b t).2.drop t.length)).map
          (fun a => a.allocationSize) =
        [(bufferRequirements b t dev (vertexBufferInfo size)).size] ∧
      bindings (((CreateVertexBuffer dev pd size).run b t).2.drop t.length) =
        [(buffer, memory, 0)]) := by
  cases hfind : findMemoryTypeFrom
      (bufferRequirements b t dev (vertexBufferInfo size)).memoryTypeBits
      VK_MEMORY_PROPERTY_DEVICE_LOCAL_BIT 0 (b.memoryTypes pd) with
  | none =>
    rw [CreateVertexBuffer_run_none hfind]
    split_ifs <;> simp [allocations, bindings]
  | some k =>
    have hsuit := findMemoryTypeFrom_zero_suitable hfind
    rw [CreateVertexBuffer_run_some hfind]
    refine ⟨?_, ?_, ?_, ?_⟩
    · split_ifs <;>
        simp [allocations, bindings, bufferCreationCalls, bufferAllocation, hsuit]
    · split_ifs <;>
        simp [allocations, bindings, bufferCreationCalls, bufferAllocation]
    · intro hall
      exact absurd (hall k) (by simp [hsuit])
    · intro buffer memory
      split_ifs <;>
        simp [allocations, bindings, bufferCreationCalls, bufferAllocation]

/-- A normal return of `CreateVertexBuffer`: its calls and the handles it
returns. -/
theorem CreateVertexBuffer_ok {b : Backend} {t t2 : List Call} {dev pd : Handle} {size : Nat}
    {buffer memory : Handle}
    (h : (CreateVertexBuffer dev pd size).run b t = (Except.ok (buffer, memory), t2)) :
    ∃ k, t2 = t ++ bufferCreationCalls b t dev (vertexBufferInfo size) k ∧
      buffer = createdBuffer b t dev (vertexBufferInfo size) ∧
      memory = bufferMemory b t dev (vertexBufferInfo size) k := by
  cases hfind : findMemoryTypeFrom
      (bufferRequirements b t dev (vertexBufferInfo size)).memoryTypeBits
      VK_MEMORY_PROPERTY_DEVICE_LOCAL_BIT 0 (b.memoryTypes pd) with
  | none =>
    rw [CreateVertexBuffer_run_none hfind] at h
    split_ifs at h <;> simp at h
  | some k =>
    rw [CreateVertexBuffer_run_some hfind] at h
    split_ifs at h <;> simp at h
    exact ⟨k, h.2.symm, h.1.1.symm, h.1.2.symm⟩

/-- `CreateStagingBuffer` when the scan of the memory-type table finds type `k`. -/
theorem CreateStagingBuffer_run_some {b : Backend} {t : List Call} {dev pd : Handle}
    {size k : Nat}
    (hfind : findMemoryTypeFrom (bufferRequirements b t dev (stagingBufferInfo size)).memoryTypeBits
      (VK_MEMORY_PROPERTY_HOST_COHERENT_BIT ||| VK_MEMORY_PROPERTY_HOST_VISIBLE_BIT) 0 (b.memoryTypes pd) = some k) :
    (CreateStagingBuffer dev pd size).run b t =
      if b.result t (Call.vkCreateBuffer dev (stagingBufferInfo size)) = VK_SUCCESS then
        if b.result (t ++ (bufferCreationCalls b t dev (stagingBufferInfo size) k).take 2)
            (bufferAllocation b t dev (stagingBufferInfo size) k) = VK_SUCCESS then
          if b.result (t ++ (bufferCreationCalls b t dev (stagingBufferInfo size) k).take 3)
              (Call.vkBindBufferMemory dev (createdBuffer b t dev (stagingBufferInfo size))
                (bufferMemory b t dev (stagingBufferInfo size) k) 0) = VK_SUCCESS then
            (Except.ok (createdBuffer b t dev (stagingBufferInfo size),
                bufferMemory b t dev (stagingBufferInfo size) k),
              t ++ bufferCreationCalls b t dev (stagingBufferInfo size) k)
          else
            (Except.error "Fatal : VkResult is not VK_SUCCESS",
              t ++ bufferCreationCalls b t dev (stagingBufferInfo size) k)
        else
          (Except.error "Fatal : VkResult is not VK_SUCCESS",
            t ++ (bufferCreationCalls b t dev (stagingBufferInfo size) k).take 3)
      else
        (Except.error "Fatal : VkResult is not VK_SUCCESS",
          t ++ (bufferCreationCalls b t dev (stagingBufferInfo size) k).take 1) := by
  have hrun := fun t1 => FindMemoryType_run_some hfind t1
  simp only [bufferRequirements, stagingBufferInfo, bufferCreationCalls, createdBuffer,
    bufferAllocation, bufferMemory, List.take_succ_cons, List.take_zero] at hrun ⊢
  split_ifs <;>
    simp [CreateStagingBuffer, run_bind, run_callOut, run_callReq, run_call, run_check,
      run_pure, hrun, *]

/-- `CreateStagingBuffer` when the memory-type table has no suitable type. -/
theorem CreateStagingBuffer_run_none {b : Backend} {t : List Call} {dev pd : Handle}
    {size : Nat}
    (hfind : findMemoryTypeFrom (bufferRequirements b t dev (stagingBufferInfo size)).memoryTypeBits
      (VK_MEMORY_PROPERTY_HOST_COHERENT_BIT ||| VK_MEMORY_PROPERTY_HOST_VISIBLE_BIT) 0 (b.memoryTypes pd) = none) :
    (CreateStagingBuffer dev pd size).run b t =
      if b.result t (Call.vkCreateBuffer dev (stagingBufferInfo size)) = VK_SUCCESS then
        (Except.error "[FindMemoryType]: no suitable memory type",
          t ++ [Call.vkCreateBuffer dev (stagingBufferInfo size),
            Call.vkGetBufferMemoryRequirements dev
              (createdBuffer b t dev (stagingBufferInfo size))])
      else
        (Except.error "Fatal : VkResult is not VK_SUCCESS",
          t ++ [Call.vkCreateBuffer dev (stagingBufferInfo size)]) := by
  have hrun := fun t1 => FindMemoryType_run_none hfind t1
  simp only [bufferRequirements, stagingBufferInfo, createdBuffer] at hrun ⊢
  split_ifs <;>
    simp [CreateStagingBuffer, run_bind, run_callOut, run_callReq, run_call, run_check,
      run_pure, hrun, *]


/-- Allocations and bindings of `CreateStagingBuffer`, on every path. -/
theorem CreateStagingBuffer_memory (b : Backend) (t : List Call) (dev pd : Handle) (size : Nat) :
    (∀ a ∈ allocations (((CreateStagingBuffer dev pd size).run b t).2.drop t.length),
      a.allocationSize = (bufferRequirements b t dev (stagingBufferInfo size)).size ∧
      suitableType (b.memoryTypes pd)
        (bufferRequirements b t dev (stagingBufferInfo size)).memoryTypeBits
        (VK_MEMORY_PROPERTY_HOST_COHERENT_BIT ||| VK_MEMORY_PROPERTY_HOST_VISIBLE_BIT) a.memoryTypeIndex = true) ∧
    (∀ x ∈ bindings (((CreateStagingBuffer dev pd size).run b t).2.drop t.length),
      x.2.2 = 0) ∧
    ((∀ i, suitableType (b.memoryTypes pd)
        (bufferRequirements b t dev (stagingBufferInfo size)).memoryTypeBits
        (VK_MEMORY_PROPERTY_HOST_COHERENT_BIT ||| VK_MEMORY_PROPERTY_HOST_VISIBLE_BIT) i = false) →
      (∃ msg, ((CreateStagingBuffer dev pd size).run b t).1 = Except.error msg) ∧
      allocations (((CreateStagingBuffer dev pd size).run b t).2.drop t.length) = []) ∧
    (∀ buffer memory, ((CreateStagingBuffer dev pd size).run b t).1 = Except.ok (buffer, memory) →
      (allocations (((CreateStagingBuffer dev pd size).run b t).2.drop t.length)).map
          (fun a => a.allocationSize) =
        [(bufferRequirements b t dev (stagingBufferInfo size)).size] ∧
      bindings (((CreateStagingBuffer dev pd size).run b t).2.drop t.length) =
        [(buffer, memory, 0)]) := by
  cases hfind : findMemoryTypeFrom
      (bufferRequirements b t dev (stagingBufferInfo size)).memoryTypeBits
      (VK_MEMORY_PROPERTY_HOST_COHERENT_BIT ||| VK_MEMORY_PROPERTY_HOST_VISIBLE_BIT) 0 (b.memoryTypes pd) with
  | none =>
    rw [CreateStagingBuffer_run_none hfind]
    split_ifs <;> simp [allocations, bindings]
  | some k =>
    have hsuit := findMemoryTypeFrom_zero_suitable hfind
    rw [CreateStagingBuffer_run_some hfind]
    refine ⟨?_, ?_, ?_, ?_⟩
    · split_ifs <;>
        simp [allocations, bindings, bufferCreationCalls, bufferAllocation, hsuit]
    · split_ifs <;>
        simp [allocations, bindings, bufferCreationCalls, bufferAllocation]
    · intro hall
      exact absurd (hall k) (by simp [hsuit])
    · intro buffer memory
      split_ifs <;>
        simp [allocations, bindings, bufferCreationCalls, bufferAllocation]

/-- A normal return of `CreateStagingBuffer`: its calls and the handles it
returns. -/
theorem CreateStagingBuffer_ok {b : Backend} {t t2 : List Call} {dev pd : Handle} {size : Nat}
    {buffer memory : Handle}
    (h : (CreateStagingBuffer dev pd size).run b t = (Except.ok (buffer, memory), t2)) :
    ∃ k, t2 = t ++ bufferCreationCalls b t dev (stagingBufferInfo size) k ∧
      buffer = createdBuffer b t dev (stagingBufferInfo size) ∧
      memory = bufferMemory b t dev (stagingBufferInfo size) k := by
  cases hfind : findMemoryTypeFrom
      (bufferRequirements b t dev (stagingBufferInfo size)).memoryTypeBits
      (VK_MEMORY_PROPERTY_HOST_COHERENT_BIT ||| VK_MEMORY_PROPERTY_HOST_VISIBLE_BIT) 0 (b.memoryTypes pd) with
  | none =>
    rw [CreateStagingBuffer_run_none hfind] at h
    split_ifs at h <;> simp at h
  | some k =>
    rw [CreateStagingBuffer_run_some hfind] at h
    split_ifs at h <;> simp at h
    exact ⟨k, h.2.symm, h.1.1.symm, h.1.2.symm⟩


/-- `CreateTextureForRenderToIt` when the scan of the memory-type table finds
type `k`. -/
theorem CreateTextureForRenderToIt_run_some {b : Backend} {t : List Call} {dev pd : Handle}
    {width height : Int} {k : Nat}
    (hfind : findMemoryTypeFrom
      (imageRequirements b t dev (offscreenImageInfo width height)).memoryTypeBits
      VK_MEMORY_PROPERTY_DEVICE_LOCAL_BIT 0 (b.memoryTypes pd) = some k) :
    (CreateTextureForRenderToIt dev pd width height).run b t =
      if b.result t (Call.vkCreateImage dev (offscreenImageInfo width height)) = VK_SUCCESS then
        if b.result (t ++ (imageCreationCalls b t dev (offscreenImageInfo width height) k).take 2)
            (imageAllocation b t dev (offscreenImageInfo width height) k) = VK_SUCCESS then
          if b.result (t ++ (imageCreationCalls b t dev (offscreenImageInfo width height) k).take 3)
              (Call.vkBindImageMemory dev (createdImage b t dev (offscreenImageInfo width height))
                (imageMemory b t dev (offscreenImageInfo width height) k) 0) = VK_SUCCESS then
            if b.result (t ++ imageCreationCalls b t dev (offscreenImageInfo width height) k)
                (Call.vkCreateImageView dev
                  (offscreenViewInfo (createdImage b t dev (offscreenImageInfo width height)))) =
                VK_SUCCESS then
              (Except.ok (createdImage b t dev (offscreenImageInfo width height),
                  imageMemory b t dev (offscreenImageInfo width height) k,
                  b.handle (t ++ imageCreationCalls b t dev (offscreenImageInfo width height) k)
                    (Call.vkCreateImageView dev
                      (offscreenViewInfo
                        (createdImage b t dev (offscreenImageInfo width height))))),
                t ++ (imageCreationCalls b t dev (offscreenImageInfo width height) k ++
                  [Call.vkCreateImageView dev
                    (offscreenViewInfo (createdImage b t dev (offscreenImageInfo width height)))]))
            else
              (Except.error "Fatal : VkResult is not VK_SUCCESS",
                t ++ (imageCreationCalls b t dev (offscreenImageInfo width height) k ++
                  [Call.vkCreateImageView dev
                    (offscreenViewInfo (createdImage b t dev (offscreenImageInfo width height)))]))
          else
            (Except.error "Fatal : VkResult is not VK_SUCCESS",
              t ++ imageCreationCalls b t dev (offscreenImageInfo width height) k)
        else
          (Except.error "Fatal : VkResult is not VK_SUCCESS",
            t ++ (imageCreationCalls b t dev (offscreenImageInfo width height) k).take 3)
      else
        (Except.error "Fatal : VkResult is not VK_SUCCESS",
          t ++ (imageCreationCalls b t dev (offscreenImageInfo width height) k).take 1) := by
  have hrun := fun t1 => FindMemoryType_run_some hfind t1
  simp only [imageRequirements, offscreenImageInfo, offscreenViewInfo, imageCreationCalls,
    createdImage, imageAllocation, imageMemory, List.take_succ_cons, List.take_zero]
    at hrun ⊢
  split_ifs <;>
    simp [CreateTextureForRenderToIt, run_bind, run_callOut, run_callReq, run_call, run_check,
      run_pure, hrun, *]

/-- `CreateTextureForRenderToIt` when the memory-type table has no suitable
type. -/
theorem CreateTextureForRenderToIt_run_none {b : Backend} {t : List Call} {dev pd : Handle}
    {width height : Int}
    (hfind : findMemoryTypeFrom
      (imageRequirements b t dev (offscreenImageInfo width height)).memoryTypeBits
      VK_MEMORY_PROPERTY_DEVICE_LOCAL_BIT 0 (b.memoryTypes pd) = none) :
    (CreateTextureForRenderToIt dev pd width height).run b t =
      if b.result t (Call.vkCreateImage dev (offscreenImageInfo width height)) = VK_SUCCESS then
        (Except.error "[FindMemoryType]: no suitable memory type",
          t ++ [Call.vkCreateImage dev (offscreenImageInfo width height),
            Call.vkGetImageMemoryRequirements dev
              (createdImage b t dev (offscreenImageInfo width height))])
      else
        (Except.error "Fatal : VkResult is not VK_SUCCESS",
          t ++ [Call.vkCreateImage dev (offscreenImageInfo width height)]) := by
  have hrun := fun t1 => FindMemoryType_run_none hfind t1
  simp only [imageRequirements, offscreenImageInfo, createdImage] at hrun ⊢
  split_ifs <;>
    simp [CreateTextureForRenderToIt, run_bind, run_callOut, run_callReq, run_call, run_check,
      run_pure, hrun, *]

/-- Allocations and bindings of `CreateTextureForRenderToIt`, on every path. -/
theorem CreateTextureForRenderToIt_memory (b : Backend) (t : List Call) (dev pd : Handle)
    (width height : Int) :
    (∀ a ∈ allocations (((CreateTextureForRenderToIt dev pd width height).run b t).2.drop
        t.length),
      a.allocationSize = (imageRequirements b t dev (offscreenImageInfo width height)).size ∧
      suitableType (b.memoryTypes pd)
        (imageRequirements b t dev (offscreenImageInfo width height)).memoryTypeBits
        VK_MEMORY_PROPERTY_DEVICE_LOCAL_BIT a.memoryTypeIndex = true) ∧
    (∀ x ∈ bindings (((CreateTextureForRenderToIt dev pd width height).run b t).2.drop
        t.length),
      x.2.2 = 0) ∧
    ((∀ i, suitableType (b.memoryTypes pd)
        (imageRequirements b t dev (offscreenImageInfo width height)).memoryTypeBits
        VK_MEMORY_PROPERTY_DEVICE_LOCAL_BIT i = false) →
      (∃ msg, ((CreateTextureForRenderToIt dev pd width height).run b t).1 =
        Except.error msg) ∧
      allocations (((CreateTextureForRenderToIt dev pd width height).run b t).2.drop
        t.length) = []) ∧
    (∀ image memory view,
      ((CreateTextureForRenderToIt dev pd width height).run b t).1 =
        Except.ok (image, memory, view) →
      (allocations (((CreateTextureForRenderToIt dev pd width height).run b t).2.drop
          t.length)).map (fun a => a.allocationSize) =
        [(imageRequirements b t dev (offscreenImageInfo width height)).size] ∧
      bindings (((CreateTextureForRenderToIt dev pd width height).run b t).2.drop t.length) =
        [(image, memory, 0)]) := by
  cases hfind : findMemoryTypeFrom
      (imageRequirements b t dev (offscreenImageInfo width height)).memoryTypeBits
      VK_MEMORY_PROPERTY_DEVICE_LOCAL_BIT 0 (b.memoryTypes pd) with
  | none =>
    rw [CreateTextureForRenderToIt_run_none hfind]
    split_ifs <;> simp [allocations, bindings]
  | some k =>
    have hsuit := findMemoryTypeFrom_zero_suitable hfind
    rw [CreateTextureForRenderToIt_run_some hfind]
    refine ⟨?_, ?_, ?_, ?_⟩
    · split_ifs <;>
        simp [allocations, bindings, imageCreationCalls, imageAllocation, hsuit]
    · split_ifs <;>
        simp [allocations, bindings, imageCreationCalls, imageAllocation]
    · intro hall
      exact absurd (hall k) (by simp [hsuit])
    · intro image memory view
      split_ifs <;>
        simp [allocations, bindings, imageCreationCalls, imageAllocation]
      intro h1 h2 _
      exact ⟨h1, h2⟩

/-- A normal return of `CreateTextureForRenderToIt`: its calls and the handles
it returns. -/
theorem CreateTextureForRenderToIt_ok {b : Backend} {t t2 : List Call} {dev pd : Handle}
    {width height : Int} {image memory view : Handle}
    (h : (CreateTextureForRenderToIt dev pd width height).run b t =
      (Except.ok (image, memory, view), t2)) :
    ∃ k, t2 = t ++ (imageCreationCalls b t dev (offscreenImageInfo width height) k ++
        [Call.vkCreateImageView dev (offscreenViewInfo image)]) ∧
      image = createdImage b t dev (offscreenImageInfo width height) ∧
      memory = imageMemory b t dev (offscreenImageInfo width height) k ∧
      view = b.handle (t ++ imageCreationCalls b t dev (offscreenImageInfo width height) k)
        (Call.vkCreateImageView dev (offscreenViewInfo image)) := by
  cases hfind : findMemoryTypeFrom
      (imageRequirements b t dev (offscreenImageInfo width height)).memoryTypeBits
      VK_MEMORY_PROPERTY_DEVICE_LOCAL_BIT 0 (b.memoryTypes pd) with
  | none =>
    rw [CreateTextureForRenderToIt_run_none hfind] at h
    split_ifs at h <;> simp at h
  | some k =>
    rw [CreateTextureForRenderToIt_run_some hfind] at h
    split_ifs at h <;> simp at h
    obtain ⟨⟨rfl, rfl, rfl⟩, rfl⟩ := h
    exact ⟨k, by simp, rfl, rfl, rfl⟩


/-- `CreateVertexBuffer` requests its allocation as soon as the buffer is created and
the table has a suitable type. -/
theorem CreateVertexBuffer_allocates {b : Backend} {t : List Call} {dev pd : Handle} {size i : Nat}
    (hc : b.result t (Call.vkCreateBuffer dev (vertexBufferInfo size)) = VK_SUCCESS)
    (hs : suitableType (b.memoryTypes pd) (bufferRequirements b t dev (vertexBufferInfo size)).memoryTypeBits
        VK_MEMORY_PROPERTY_DEVICE_LOCAL_BIT i = true) :
    ∃ k, suitableType (b.memoryTypes pd) (bufferRequirements b t dev (vertexBufferInfo size)).memoryTypeBits
        VK_MEMORY_PROPERTY_DEVICE_LOCAL_BIT k = true ∧
      allocations (((CreateVertexBuffer dev pd size).run b t).2.drop t.length) =
        [⟨(bufferRequirements b t dev (vertexBufferInfo size)).size, k⟩] := by
  obtain ⟨k, hfind⟩ := findMemoryTypeFrom_zero_isSome hs
  refine ⟨k, findMemoryTypeFrom_zero_suitable hfind, ?_⟩
  rw [CreateVertexBuffer_run_some hfind, if_pos hc]
  split_ifs <;> simp [allocations, bufferCreationCalls, bufferAllocation]

/-- `CreateVertexBuffer` returns normally when every call succeeds and the table has a
suitable type. -/
theorem CreateVertexBuffer_returns {b : Backend} {t : List Call} {dev pd : Handle} {size i : Nat}
    (hok : ∀ (h : List Call) (c : Call), b.result h c = VK_SUCCESS)
    (hs : suitableType (b.memoryTypes pd) (bufferRequirements b t dev (vertexBufferInfo size)).memoryTypeBits
        VK_MEMORY_PROPERTY_DEVICE_LOCAL_BIT i = true) :
    ∃ k, suitableType (b.memoryTypes pd) (bufferRequirements b t dev (vertexBufferInfo size)).memoryTypeBits
        VK_MEMORY_PROPERTY_DEVICE_LOCAL_BIT k = true ∧
      (CreateVertexBuffer dev pd size).run b t =
        (Except.ok (createdBuffer b t dev (vertexBufferInfo size), bufferMemory b t dev (vertexBufferInfo size) k),
          t ++ bufferCreationCalls b t dev (vertexBufferInfo size) k) := by
  obtain ⟨k, hfind⟩ := findMemoryTypeFrom_zero_isSome hs
  refine ⟨k, findMemoryTypeFrom_zero_suitable hfind, ?_⟩
  rw [CreateVertexBuffer_run_some hfind]
  simp only [hok, if_true]

/-- `CreateStagingBuffer` requests its allocation as soon as the buffer is created and
the table has a suitable type. -/
theorem CreateStagingBuffer_allocates {b : Backend} {t : List Call} {dev pd : Handle} {size i : Nat}
    (hc : b.result t (Call.vkCreateBuffer dev (stagingBufferInfo size)) = VK_SUCCESS)
    (hs : suitableType (b.memoryTypes pd) (bufferRequirements b t dev (stagingBufferInfo size)).memoryTypeBits
        (VK_MEMORY_PROPERTY_HOST_COHERENT_BIT ||| VK_MEMORY_PROPERTY_HOST_VISIBLE_BIT) i = true) :
    ∃ k, suitableType (b.memoryTypes pd) (bufferRequirements b t dev (stagingBufferInfo size)).memoryTypeBits
        (VK_MEMORY_PROPERTY_HOST_COHERENT_BIT ||| VK_MEMORY_PROPERTY_HOST_VISIBLE_BIT) k = true ∧
      allocations (((CreateStagingBuffer dev pd size).run b t).2.drop t.length) =
        [⟨(bufferRequirements b t dev (stagingBufferInfo size)).size, k⟩] := by
  obtain ⟨k, hfind⟩ := findMemoryTypeFrom_zero_isSome hs
  refine ⟨k, findMemoryTypeFrom_zero_suitable hfind, ?_⟩
  rw [CreateStagingBuffer_run_some hfind, if_pos hc]
  split_ifs <;> simp [allocations, bufferCreationCalls, bufferAllocation]

/-- `CreateStagingBuffer` returns normally when every call succeeds and the table has a
suitable type. -/
theorem CreateStagingBuffer_returns {b : Backend} {t : List Call} {dev pd : Handle} {size i : Nat}
    (hok : ∀ (h : List Call) (c : Call), b.result h c = VK_SUCCESS)
    (hs : suitableType (b.memoryTypes pd) (bufferRequirements b t dev (stagingBufferInfo size)).memoryTypeBits
        (VK_MEMORY_PROPERTY_HOST_COHERENT_BIT ||| VK_MEMORY_PROPERTY_HOST_VISIBLE_BIT) i = true) :
    ∃ k, suitableType (b.memoryTypes pd) (bufferRequirements b t dev (stagingBufferInfo size)).memoryTypeBits
        (VK_MEMORY_PROPERTY_HOST_COHERENT_BIT ||| VK_MEMORY_PROPERTY_HOST_VISIBLE_BIT) k = true ∧
      (CreateStagingBuffer dev pd size).run b t =
        (Except.ok (createdBuffer b t dev (stagingBufferInfo size), bufferMemory b t dev (stagingBufferInfo size) k),
          t ++ bufferCreationCalls b t dev (stagingBufferInfo size) k) := by
  obtain ⟨k, hfind⟩ := findMemoryTypeFrom_zero_isSome hs
  refine ⟨k, findMemoryTypeFrom_zero_suitable hfind, ?_⟩
  rw [CreateStagingBuffer_run_some hfind]
  simp only [hok, if_true]

/-- `CreateTextureForRenderToIt` requests its allocation as soon as the image is
created and the table has a suitable type. -/
theorem CreateTextureForRenderToIt_allocates {b : Backend} {t : List Call} {dev pd : Handle}
    {width height : Int} {i : Nat}
    (hc : b.result t (Call.vkCreateImage dev (offscreenImageInfo width height)) = VK_SUCCESS)
    (hs : suitableType (b.memoryTypes pd) (imageRequirements b t dev (offscreenImageInfo width height)).memoryTypeBits
        VK_MEMORY_PROPERTY_DEVICE_LOCAL_BIT i = true) :
    ∃ k, suitableType (b.memoryTypes pd) (imageRequirements b t dev (offscreenImageInfo width height)).memoryTypeBits
        VK_MEMORY_PROPERTY_DEVICE_LOCAL_BIT k = true ∧
      allocations (((CreateTextureForRenderToIt dev pd width height).run b t).2.drop t.length) =
        [⟨(imageRequirements b t dev (offscreenImageInfo width height)).size, k⟩] := by
  obtain ⟨k, hfind⟩ := findMemoryTypeFrom_zero_isSome hs
  refine ⟨k, findMemoryTypeFrom_zero_suitable hfind, ?_⟩
  rw [CreateTextureForRenderToIt_run_some hfind, if_pos hc]
  split_ifs <;> simp [allocations, imageCreationCalls, imageAllocation]

/-- `CreateTextureForRenderToIt` returns normally when every call succeeds and
the table has a suitable type. -/
theorem CreateTextureForRenderToIt_returns {b : Backend} {t : List Call} {dev pd : Handle}
    {width height : Int} {i : Nat}
    (hok : ∀ (h : List Call) (c : Call), b.result h c = VK_SUCCESS)
    (hs : suitableType (b.memoryTypes pd) (imageRequirements b t dev (offscreenImageInfo width height)).memoryTypeBits
        VK_MEMORY_PROPERTY_DEVICE_LOCAL_BIT i = true) :
    ∃ k, suitableType (b.memoryTypes pd) (imageRequirements b t dev (offscreenImageInfo width height)).memoryTypeBits
        VK_MEMORY_PROPERTY_DEVICE_LOCAL_BIT k = true ∧
      (CreateTextureForRenderToIt dev pd width height).run b t =
        (Except.ok (createdImage b t dev (offscreenImageInfo width height), imageMemory b t dev (offscreenImageInfo width height) k,
            b.handle (t ++ imageCreationCalls b t dev (offscreenImageInfo width height) k)
              (Call.vkCreateImageView dev (offscreenViewInfo (createdImage b t dev (offscreenImageInfo width height))))),
          t ++ (imageCreationCalls b t dev (offscreenImageInfo width height) k ++
            [Call.vkCreateImageView dev
              (offscreenViewInfo (createdImage b t dev (offscreenImageInfo width height)))])) := by
  obtain ⟨k, hfind⟩ := findMemoryTypeFrom_zero_isSome hs
  refine ⟨k, findMemoryTypeFrom_zero_suitable hfind, ?_⟩
  rw [CreateTextureForRenderToIt_run_some hfind]
  simp only [hok, if_true]

/-- C5. Every allocation a resource creator requests is from a memory type that
is in the compatible bitmask reported for the resource and whose property
flags contain the requested ones (device-local for the vertex buffer and the
off-screen image, host-visible and host-coherent for the staging buffer). When
the memory-type table has no such type the creator fails with a fatal error
without requesting an allocation. When the table has such a type and the
resource itself was created, the creator does request an allocation, exactly
one, from such a type; and when in addition every call succeeds it returns
normally. -/
theorem creators_allocate_from_suitable_type (b : Backend) (t : List Call) (dev pd : Handle)
    (size : Nat) (width height : Int) :
    ((∀ a ∈ allocations (((CreateVertexBuffer dev pd size).run b t).2.drop t.length),
        suitableType (b.memoryTypes pd) (bufferRequirements b t dev (vertexBufferInfo size)).memoryTypeBits VK_MEMORY_PROPERTY_DEVICE_LOCAL_BIT a.memoryTypeIndex = true) ∧
      ((∀ i, suitableType (b.memoryTypes pd) (bufferRequirements b t dev (vertexBufferInfo size)).memoryTypeBits VK_MEMORY_PROPERTY_DEVICE_LOCAL_BIT i = false) →
        (∃ msg, ((CreateVertexBuffer dev pd size).run b t).1 = Except.error msg) ∧
        allocations (((CreateVertexBuffer dev pd size).run b t).2.drop t.length) = []) ∧
      (∀ i, b.result t (Call.vkCreateBuffer dev (vertexBufferInfo size)) = VK_SUCCESS →
        suitableType (b.memoryTypes pd) (bufferRequirements b t dev (vertexBufferInfo size)).memoryTypeBits VK_MEMORY_PROPERTY_DEVICE_LOCAL_BIT i = true →
        ∃ k, suitableType (b.memoryTypes pd) (bufferRequirements b t dev (vertexBufferInfo size)).memoryTypeBits VK_MEMORY_PROPERTY_DEVICE_LOCAL_BIT k = true ∧
          allocations (((CreateVertexBuffer dev pd size).run b t).2.drop t.length) = [⟨(bufferRequirements b t dev (vertexBufferInfo size)).size, k⟩]) ∧
      ((∀ (h : List Call) (c : Call), b.result h c = VK_SUCCESS) →
        ∀ i, suitableType (b.memoryTypes pd) (bufferRequirements b t dev (vertexBufferInfo size)).memoryTypeBits VK_MEMORY_PROPERTY_DEVICE_LOCAL_BIT i = true →
        ∃ k, suitableType (b.memoryTypes pd) (bufferRequirements b t dev (vertexBufferInfo size)).memoryTypeBits VK_MEMORY_PROPERTY_DEVICE_LOCAL_BIT k = true ∧
          allocations (((CreateVertexBuffer dev pd size).run b t).2.drop t.length) = [⟨(bufferRequirements b t dev (vertexBufferInfo size)).size, k⟩] ∧
          ∃ r, ((CreateVertexBuffer dev pd size).run b t).1 = Except.ok r)) ∧
    ((∀ a ∈ allocations (((CreateStagingBuffer dev pd size).run b t).2.drop t.length),
        suitableType (b.memoryTypes pd) (bufferRequirements b t dev (stagingBufferInfo size)).memoryTypeBits (VK_MEMORY_PROPERTY_HOST_COHERENT_BIT ||| VK_MEMORY_PROPERTY_HOST_VISIBLE_BIT) a.memoryTypeIndex = true) ∧
      ((∀ i, suitableType (b.memoryTypes pd) (bufferRequirements b t dev (stagingBufferInfo size)).memoryTypeBits (VK_MEMORY_PROPERTY_HOST_COHERENT_BIT ||| VK_MEMORY_PROPERTY_HOST_VISIBLE_BIT) i = false) →
        (∃ msg, ((CreateStagingBuffer dev pd size).run b t).1 = Except.error msg) ∧
        allocations (((CreateStagingBuffer dev pd size).run b t).2.drop t.length) = []) ∧
      (∀ i, b.result t (Call.vkCreateBuffer dev (stagingBufferInfo size)) = VK_SUCCESS →
        suitableType (b.memoryTypes pd) (bufferRequirements b t dev (stagingBufferInfo size)).memoryTypeBits (VK_MEMORY_PROPERTY_HOST_COHERENT_BIT ||| VK_MEMORY_PROPERTY_HOST_VISIBLE_BIT) i = true →
        ∃ k, suitableType (b.memoryTypes pd) (bufferRequirements b t dev (stagingBufferInfo size)).memoryTypeBits (VK_MEMORY_PROPERTY_HOST_COHERENT_BIT ||| VK_MEMORY_PROPERTY_HOST_VISIBLE_BIT) k = true ∧
          allocations (((CreateStagingBuffer dev pd size).run b t).2.drop t.length) = [⟨(bufferRequirements b t dev (stagingBufferInfo size)).size, k⟩]) ∧
      ((∀ (h : List Call) (c : Call), b.result h c = VK_SUCCESS) →
        ∀ i, suitableType (b.memoryTypes pd) (bufferRequirements b t dev (stagingBufferInfo size)).memoryTypeBits (VK_MEMORY_PROPERTY_HOST_COHERENT_BIT ||| VK_MEMORY_PROPERTY_HOST_VISIBLE_BIT) i = true →
        ∃ k, suitableType (b.memoryTypes pd) (bufferRequirements b t dev (stagingBufferInfo size)).memoryTypeBits (VK_MEMORY_PROPERTY_HOST_COHERENT_BIT ||| VK_MEMORY_PROPERTY_HOST_VISIBLE_BIT) k = true ∧
          allocations (((CreateStagingBuffer dev pd size).run b t).2.drop t.length) = [⟨(bufferRequirements b t dev (stagingBufferInfo size)).size, k⟩] ∧
          ∃ r, ((CreateStagingBuffer dev pd size).run b t).1 = Except.ok r)) ∧
    ((∀ a ∈ allocations (((CreateTextureForRenderToIt dev pd width height).run b t).2.drop t.length),
        suitableType (b.memoryTypes pd) (imageRequirements b t dev (offscreenImageInfo width height)).memoryTypeBits VK_MEMORY_PROPERTY_DEVICE_LOCAL_BIT a.memoryTypeIndex = true) ∧
      ((∀ i, suitableType (b.memoryTypes pd) (imageRequirements b t dev (offscreenImageInfo width height)).memoryTypeBits VK_MEMORY_PROPERTY_DEVICE_LOCAL_BIT i = false) →
        (∃ msg, ((CreateTextureForRenderToIt dev pd width height).run b t).1 = Except.error msg) ∧
        allocations (((CreateTextureForRenderToIt dev pd width height).run b t).2.drop t.length) = []) ∧
      (∀ i, b.result t (Call.vkCreateImage dev (offscreenImageInfo width height)) = VK_SUCCESS →
        suitableType (b.memoryTypes pd) (imageRequirements b t dev (offscreenImageInfo width height)).memoryTypeBits VK_MEMORY_PROPERTY_DEVICE_LOCAL_BIT i = true →
        ∃ k, suitableType (b.memoryTypes pd) (imageRequirements b t dev (offscreenImageInfo width height)).memoryTypeBits VK_MEMORY_PROPERTY_DEVICE_LOCAL_BIT k = true ∧
          allocations (((CreateTextureForRenderToIt dev pd width height).run b t).2.drop t.length) = [⟨(imageRequirements b t dev (offscreenImageInfo width height)).size, k⟩]) ∧
      ((∀ (h : List Call) (c : Call), b.result h c = VK_SUCCESS) →
        ∀ i, suitableType (b.memoryTypes pd) (imageRequirements b t dev (offscreenImageInfo width height)).memoryTypeBits VK_MEMORY_PROPERTY_DEVICE_LOCAL_BIT i = true →
        ∃ k, suitableType (b.memoryTypes pd) (imageRequirements b t dev (offscreenImageInfo width height)).memoryTypeBits VK_MEMORY_PROPERTY_DEVICE_LOCAL_BIT k = true ∧
          allocations (((CreateTextureForRenderToIt dev pd width height).run b t).2.drop t.length) = [⟨(imageRequirements b t dev (offscreenImageInfo width height)).size, k⟩] ∧
          ∃ r, ((CreateTextureForRenderToIt dev pd width height).run b t).1 = Except.ok r)) := by
  refine ⟨?_, ?_, ?_⟩
  · obtain ⟨v1, _, v3, _⟩ := CreateVertexBuffer_memory b t dev pd size
    refine ⟨fun a ha => (v1 a ha).2, v3, fun i hc hs => CreateVertexBuffer_allocates hc hs, ?_⟩
    intro hok i hs
    obtain ⟨k, hk, hal⟩ := CreateVertexBuffer_allocates (hok _ _) hs
    obtain ⟨k2, _, hrun⟩ := CreateVertexBuffer_returns hok hs
    exact ⟨k, hk, hal, _, by rw [hrun]⟩
  · obtain ⟨s1, _, s3, _⟩ := CreateStagingBuffer_memory b t dev pd size
    refine ⟨fun a ha => (s1 a ha).2, s3, fun i hc hs => CreateStagingBuffer_allocates hc hs, ?_⟩
    intro hok i hs
    obtain ⟨k, hk, hal⟩ := CreateStagingBuffer_allocates (hok _ _) hs
    obtain ⟨k2, _, hrun⟩ := CreateStagingBuffer_returns hok hs
    exact ⟨k, hk, hal, _, by rw [hrun]⟩
  · obtain ⟨i1, _, i3, _⟩ := CreateTextureForRenderToIt_memory b t dev pd width height
    refine ⟨fun a ha => (i1 a ha).2, i3, fun i hc hs => CreateTextureForRenderToIt_allocates hc hs, ?_⟩
    intro hok i hs
    obtain ⟨k, hk, hal⟩ := CreateTextureForRenderToIt_allocates (hok _ _) hs
    obtain ⟨k2, _, hrun⟩ := CreateTextureForRenderToIt_returns hok hs
    exact ⟨k, hk, hal, _, by rw [hrun]⟩

/-- Witness of C5. On the backend on which every call succeeds, whose table is
(host-visible only, device-local, host-visible and host-coherent), the vertex
buffer and the off-screen image are allocated from type 1 and the staging
buffer from type 2, not from the partial match 0; on a device without memory
types each of the three creators fails without an allocation. -/
theorem creators_allocate_from_suitable_type_witness :
    allocations (((CreateVertexBuffer 1 2 24).run okBackend []).2.drop 0) = [⟨64, 1⟩] ∧
    allocations (((CreateStagingBuffer 1 2 1920000).run okBackend []).2.drop 0) = [⟨64, 2⟩] ∧
    allocations (((CreateTextureForRenderToIt 1 2 800 600).run okBackend []).2.drop 0) =
      [⟨64, 1⟩] ∧
    suitableType [2, 1, 6] 7 VK_MEMORY_PROPERTY_DEVICE_LOCAL_BIT 1 = true ∧
    suitableType [2, 1, 6] 7
      (VK_MEMORY_PROPERTY_HOST_COHERENT_BIT ||| VK_MEMORY_PROPERTY_HOST_VISIBLE_BIT) 2 = true ∧
    suitableType [2, 1, 6] 7
      (VK_MEMORY_PROPERTY_HOST_COHERENT_BIT ||| VK_MEMORY_PROPERTY_HOST_VISIBLE_BIT) 0 = false ∧
    (∃ k, suitableType [2, 1, 6] 7 VK_MEMORY_PROPERTY_DEVICE_LOCAL_BIT k = true ∧
      allocations (((CreateVertexBuffer 1 2 24).run okBackend []).2.drop 0) = [⟨64, k⟩] ∧
      ∃ r, ((CreateVertexBuffer 1 2 24).run okBackend []).1 = Except.ok r) ∧
    ((∃ msg, ((CreateVertexBuffer 1 2 24).run noMemoryBackend []).1 = Except.error msg) ∧
      allocations (((CreateVertexBuffer 1 2 24).run noMemoryBackend []).2.drop 0) = []) ∧
    ((∃ msg, ((CreateStagingBuffer 1 2 1920000).run noMemoryBackend []).1 =
        Except.error msg) ∧
      allocations (((CreateStagingBuffer 1 2 1920000).run noMemoryBackend []).2.drop 0) = []) ∧
    ((∃ msg, ((CreateTextureForRenderToIt 1 2 800 600).run noMemoryBackend []).1 =
        Except.error msg) ∧
      allocations (((CreateTextureForRenderToIt 1 2 800 600).run noMemoryBackend []).2.drop 0) =
        []) :=
  ⟨rfl, rfl, rfl,
   (creators_allocate_from_suitable_type okBackend [] 1 2 24 800 600).1.1 ⟨64, 1⟩
     (by decide),
   (creators_allocate_from_suitable_type okBackend [] 1 2 1920000 800 600).2.1.1 ⟨64, 2⟩
     (by decide),
   rfl,
   (creators_allocate_from_suitable_type okBackend [] 1 2 24 800 600).1.2.2.2
     (fun _ _ => rfl) 1 rfl,
   (creators_allocate_from_suitable_type noMemoryBackend [] 1 2 24 800 600).1.2.1
     (fun i => by simp [suitableType, noMemoryBackend]),
   (creators_allocate_from_suitable_type noMemoryBackend [] 1 2 1920000 800 600).2.1.2.1
     (fun i => by simp [suitableType, noMemoryBackend]),
   (creators_allocate_from_suitable_type noMemoryBackend [] 1 2 24 800 600).2.2.2.1
     (fun i => by simp [suitableType, noMemoryBackend])⟩

/-- C6. Every allocation a resource creator requests has exactly the size the
backend reported for the resource, and every binding it makes is at offset 0.
A creator that returns normally has made exactly these calls: create the
resource, query its requirements, allocate a block of the reported size, bind
at offset 0 (and, for the image, create the view); the resource it returns is
the handle the backend gave for the creation, the memory it returns and binds
is the handle the backend gave for that allocation, and there is one
allocation and one binding. As soon as the resource is created and the table
has a suitable memory type the allocation of the reported size is requested,
and when in addition every call succeeds the creator returns normally. -/
theorem creators_allocate_reported_size (b : Backend) (t : List Call) (dev pd : Handle)
    (size : Nat) (width height : Int) :
    ((∀ a ∈ allocations (((CreateVertexBuffer dev pd size).run b t).2.drop t.length),
        a.allocationSize = (bufferRequirements b t dev (vertexBufferInfo size)).size) ∧
      (∀ x ∈ bindings (((CreateVertexBuffer dev pd size).run b t).2.drop t.length), x.2.2 = 0) ∧
      (∀ resource memory, ((CreateVertexBuffer dev pd size).run b t).1 = Except.ok (resource, memory) →
        ∃ k, ((CreateVertexBuffer dev pd size).run b t).2 = t ++
            [Call.vkCreateBuffer dev (vertexBufferInfo size), Call.vkGetBufferMemoryRequirements dev resource,
             Call.vkAllocateMemory dev ⟨(bufferRequirements b t dev (vertexBufferInfo size)).size, k⟩,
             Call.vkBindBufferMemory dev resource memory 0] ∧
          resource = b.handle t (Call.vkCreateBuffer dev (vertexBufferInfo size)) ∧
          memory = b.handle (t ++ [Call.vkCreateBuffer dev (vertexBufferInfo size), Call.vkGetBufferMemoryRequirements dev resource])
            (Call.vkAllocateMemory dev ⟨(bufferRequirements b t dev (vertexBufferInfo size)).size, k⟩) ∧
          allocations (((CreateVertexBuffer dev pd size).run b t).2.drop t.length) = [⟨(bufferRequirements b t dev (vertexBufferInfo size)).size, k⟩] ∧
          bindings (((CreateVertexBuffer dev pd size).run b t).2.drop t.length) = [(resource, memory, 0)]) ∧
      (∀ i, b.result t (Call.vkCreateBuffer dev (vertexBufferInfo size)) = VK_SUCCESS →
        suitableType (b.memoryTypes pd) (bufferRequirements b t dev (vertexBufferInfo size)).memoryTypeBits VK_MEMORY_PROPERTY_DEVICE_LOCAL_BIT i = true →
        (allocations (((CreateVertexBuffer dev pd size).run b t).2.drop t.length)).map (fun a => a.allocationSize) =
          [(bufferRequirements b t dev (vertexBufferInfo size)).size]) ∧
      ((∀ (h : List Call) (c : Call), b.result h c = VK_SUCCESS) →
        ∀ i, suitableType (b.memoryTypes pd) (bufferRequirements b t dev (vertexBufferInfo size)).memoryTypeBits VK_MEMORY_PROPERTY_DEVICE_LOCAL_BIT i = true →
        ∃ r, ((CreateVertexBuffer dev pd size).run b t).1 = Except.ok r)) ∧
    ((∀ a ∈ allocations (((CreateStagingBuffer dev pd size).run b t).2.drop t.length),
        a.allocationSize = (bufferRequirements b t dev (stagingBufferInfo size)).size) ∧
      (∀ x ∈ bindings (((CreateStagingBuffer dev pd size).run b t).2.drop t.length), x.2.2 = 0) ∧
      (∀ resource memory, ((CreateStagingBuffer dev pd size).run b t).1 = Except.ok (resource, memory) →
        ∃ k, ((CreateStagingBuffer dev pd size).run b t).2 = t ++
            [Call.vkCreateBuffer dev (stagingBufferInfo size), Call.vkGetBufferMemoryRequirements dev resource,
             Call.vkAllocateMemory dev ⟨(bufferRequirements b t dev (stagingBufferInfo size)).size, k⟩,
             Call.vkBindBufferMemory dev resource memory 0] ∧
          resource = b.handle t (Call.vkCreateBuffer dev (stagingBufferInfo size)) ∧
          memory = b.handle (t ++ [Call.vkCreateBuffer dev (stagingBufferInfo size), Call.vkGetBufferMemoryRequirements dev resource])
            (Call.vkAllocateMemory dev ⟨(bufferRequirements b t dev (stagingBufferInfo size)).size, k⟩) ∧
          allocations (((CreateStagingBuffer dev pd size).run b t).2.drop t.length) = [⟨(bufferRequirements b t dev (stagingBufferInfo size)).size, k⟩] ∧
          bindings (((CreateStagingBuffer dev pd size).run b t).2.drop t.length) = [(resource, memory, 0)]) ∧
      (∀ i, b.result t (Call.vkCreateBuffer dev (stagingBufferInfo size)) = VK_SUCCESS →
        suitableType (b.memoryTypes pd) (bufferRequirements b t dev (stagingBufferInfo size)).memoryTypeBits (VK_MEMORY_PROPERTY_HOST_COHERENT_BIT ||| VK_MEMORY_PROPERTY_HOST_VISIBLE_BIT) i = true →
        (allocations (((CreateStagingBuffer dev pd size).run b t).2.drop t.length)).map (fun a => a.allocationSize) =
          [(bufferRequirements b t dev (stagingBufferInfo size)).size]) ∧
      ((∀ (h : List Call) (c : Call), b.result h c = VK_SUCCESS) →
        ∀ i, suitableType (b.memoryTypes pd) (bufferRequirements b t dev (stagingBufferInfo size)).memoryTypeBits (VK_MEMORY_PROPERTY_HOST_COHERENT_BIT ||| VK_MEMORY_PROPERTY_HOST_VISIBLE_BIT) i = true →
        ∃ r, ((CreateStagingBuffer dev pd size).run b t).1 = Except.ok r)) ∧
    ((∀ a ∈ allocations (((CreateTextureForRenderToIt dev pd width height).run b t).2.drop t.length),
        a.allocationSize = (imageRequirements b t dev (offscreenImageInfo width height)).size) ∧
      (∀ x ∈ bindings (((CreateTextureForRenderToIt dev pd width height).run b t).2.drop t.length), x.2.2 = 0) ∧
      (∀ resource memory view, ((CreateTextureForRenderToIt dev pd width height).run b t).1 = Except.ok (resource, memory, view) →
        ∃ k, ((CreateTextureForRenderToIt dev pd width height).run b t).2 = t ++
            [Call.vkCreateImage dev (offscreenImageInfo width height), Call.vkGetImageMemoryRequirements dev resource,
             Call.vkAllocateMemory dev ⟨(imageRequirements b t dev (offscreenImageInfo width height)).size, k⟩,
             Call.vkBindImageMemory dev resource memory 0,
             Call.vkCreateImageView dev (offscreenViewInfo resource)] ∧
          resource = b.handle t (Call.vkCreateImage dev (offscreenImageInfo width height)) ∧
          memory = b.handle (t ++ [Call.vkCreateImage dev (offscreenImageInfo width height), Call.vkGetImageMemoryRequirements dev resource])
            (Call.vkAllocateMemory dev ⟨(imageRequirements b t dev (offscreenImageInfo width height)).size, k⟩) ∧
          allocations (((CreateTextureForRenderToIt dev pd width height).run b t).2.drop t.length) = [⟨(imageRequirements b t dev (offscreenImageInfo width height)).size, k⟩] ∧
          bindings (((CreateTextureForRenderToIt dev pd width height).run b t).2.drop t.length) = [(resource, memory, 0)]) ∧
      (∀ i, b.result t (Call.vkCreateImage dev (offscreenImageInfo width height)) = VK_SUCCESS →
        suitableType (b.memoryTypes pd) (imageRequirements b t dev (offscreenImageInfo width height)).memoryTypeBits VK_MEMORY_PROPERTY_DEVICE_LOCAL_BIT i = true →
        (allocations (((CreateTextureForRenderToIt dev pd width height).run b t).2.drop t.length)).map (fun a => a.allocationSize) =
          [(imageRequirements b t dev (offscreenImageInfo width height)).size]) ∧
      ((∀ (h : List Call) (c : Call), b.result h c = VK_SUCCESS) →
        ∀ i, suitableType (b.memoryTypes pd) (imageRequirements b t dev (offscreenImageInfo width height)).memoryTypeBits VK_MEMORY_PROPERTY_DEVICE_LOCAL_BIT i = true →
        ∃ r, ((CreateTextureForRenderToIt dev pd width height).run b t).1 = Except.ok r)) := by
  refine ⟨?_, ?_, ?_⟩
  · obtain ⟨v1, v2, _, _⟩ := CreateVertexBuffer_memory b t dev pd size
    refine ⟨fun a ha => (v1 a ha).1, v2, ?_, ?_, ?_⟩
    · intro resource memory h
      obtain ⟨k, ht2, hb, hm⟩ := CreateVertexBuffer_ok (run_eq_of_fst h)
      subst hb
      subst hm
      refine ⟨k, ?_, rfl, rfl, ?_, ?_⟩
      · rw [ht2]
        rfl
      · rw [ht2]
        simp [allocations, bufferCreationCalls, bufferAllocation]
      · rw [ht2]
        simp [bindings, bufferCreationCalls, bufferAllocation]
    · intro i hc hs
      obtain ⟨k, _, hal⟩ := CreateVertexBuffer_allocates hc hs
      rw [hal]
      rfl
    · intro hok i hs
      obtain ⟨k, _, hrun⟩ := CreateVertexBuffer_returns hok hs
      exact ⟨_, by rw [hrun]⟩
  · obtain ⟨s1, s2, _, _⟩ := CreateStagingBuffer_memory b t dev pd size
    refine ⟨fun a ha => (s1 a ha).1, s2, ?_, ?_, ?_⟩
    · intro resource memory h
      obtain ⟨k, ht2, hb, hm⟩ := CreateStagingBuffer_ok (run_eq_of_fst h)
      subst hb
      subst hm
      refine ⟨k, ?_, rfl, rfl, ?_, ?_⟩
      · rw [ht2]
        rfl
      · rw [ht2]
        simp [allocations, bufferCreationCalls, bufferAllocation]
      · rw [ht2]
        simp [bindings, bufferCreationCalls, bufferAllocation]
    · intro i hc hs
      obtain ⟨k, _, hal⟩ := CreateStagingBuffer_allocates hc hs
      rw [hal]
      rfl
    · intro hok i hs
      obtain ⟨k, _, hrun⟩ := CreateStagingBuffer_returns hok hs
      exact ⟨_, by rw [hrun]⟩
  · obtain ⟨i1, i2, _, _⟩ := CreateTextureForRenderToIt_memory b t dev pd width height
    refine ⟨fun a ha => (i1 a ha).1, i2, ?_, ?_, ?_⟩
    · intro resource memory view h
      obtain ⟨k, ht2, hb, hm, hv⟩ := CreateTextureForRenderToIt_ok (run_eq_of_fst h)
      subst hb
      subst hm
      refine ⟨k, ?_, rfl, rfl, ?_, ?_⟩
      · rw [ht2]
        rfl
      · rw [ht2]
        simp [allocations, imageCreationCalls, imageAllocation]
      · rw [ht2]
        simp [bindings, imageCreationCalls, imageAllocation]
    · intro i hc hs
      obtain ⟨k, _, hal⟩ := CreateTextureForRenderToIt_allocates hc hs
      rw [hal]
      rfl
    · intro hok i hs
      obtain ⟨k, _, hrun⟩ := CreateTextureForRenderToIt_returns hok hs
      exact ⟨_, by rw [hrun]⟩

/-- Witness of C6 on the backend on which every call succeeds and every
resource is reported to need 64 bytes: each of the three creators returns
normally, with one allocation of 64 bytes and one binding of the allocated
memory (handle 3) to the created resource (handle 1) at offset 0. -/
theorem creators_allocate_reported_size_witness :
    ((CreateVertexBuffer 1 2 24).run okBackend []).1 = Except.ok (1, 3) ∧
    ((CreateStagingBuffer 1 2 1920000).run okBackend []).1 = Except.ok (1, 3) ∧
    ((CreateTextureForRenderToIt 1 2 800 600).run okBackend []).1 = Except.ok (1, 3, 5) ∧
    (bufferRequirements okBackend [] 1 (vertexBufferInfo 24)).size = 64 ∧
    (∃ k, ((CreateVertexBuffer 1 2 24).run okBackend []).2 = [] ++
          [Call.vkCreateBuffer 1 (vertexBufferInfo 24), Call.vkGetBufferMemoryRequirements 1 1,
           Call.vkAllocateMemory 1 ⟨64, k⟩, Call.vkBindBufferMemory 1 1 3 0] ∧
        (1 : Handle) = okBackend.handle [] (Call.vkCreateBuffer 1 (vertexBufferInfo 24)) ∧
        (3 : Handle) = okBackend.handle ([] ++ [Call.vkCreateBuffer 1 (vertexBufferInfo 24),
            Call.vkGetBufferMemoryRequirements 1 1]) (Call.vkAllocateMemory 1 ⟨64, k⟩) ∧
        allocations (((CreateVertexBuffer 1 2 24).run okBackend []).2.drop
          ([] : List Call).length) = [⟨64, k⟩] ∧
        bindings (((CreateVertexBuffer 1 2 24).run okBackend []).2.drop
          ([] : List Call).length) = [(1, 3, 0)]) ∧
    (∃ k, ((CreateStagingBuffer 1 2 1920000).run okBackend []).2 = [] ++
          [Call.vkCreateBuffer 1 (stagingBufferInfo 1920000),
           Call.vkGetBufferMemoryRequirements 1 1,
           Call.vkAllocateMemory 1 ⟨64, k⟩, Call.vkBindBufferMemory 1 1 3 0] ∧
        (1 : Handle) = okBackend.handle [] (Call.vkCreateBuffer 1 (stagingBufferInfo 1920000)) ∧
        (3 : Handle) = okBackend.handle ([] ++ [Call.vkCreateBuffer 1 (stagingBufferInfo 1920000),
            Call.vkGetBufferMemoryRequirements 1 1]) (Call.vkAllocateMemory 1 ⟨64, k⟩) ∧
        allocations (((CreateStagingBuffer 1 2 1920000).run okBackend []).2.drop
          ([] : List Call).length) = [⟨64, k⟩] ∧
        bindings (((CreateStagingBuffer 1 2 1920000).run okBackend []).2.drop
          ([] : List Call).length) = [(1, 3, 0)]) ∧
    (∃ k, ((CreateTextureForRenderToIt 1 2 800 600).run okBackend []).2 = [] ++
          [Call.vkCreateImage 1 (offscreenImageInfo 800 600),
           Call.vkGetImageMemoryRequirements 1 1,
           Call.vkAllocateMemory 1 ⟨64, k⟩, Call.vkBindImageMemory 1 1 3 0,
           Call.vkCreateImageView 1 (offscreenViewInfo 1)] ∧
        (1 : Handle) = okBackend.handle [] (Call.vkCreateImage 1 (offscreenImageInfo 800 600)) ∧
        (3 : Handle) = okBackend.handle ([] ++ [Call.vkCreateImage 1 (offscreenImageInfo 800 600),
            Call.vkGetImageMemoryRequirements 1 1]) (Call.vkAllocateMemory 1 ⟨64, k⟩) ∧
        allocations (((CreateTextureForRenderToIt 1 2 800 600).run okBackend []).2.drop
          ([] : List Call).length) = [⟨64, k⟩] ∧
        bindings (((CreateTextureForRenderToIt 1 2 800 600).run okBackend []).2.drop
          ([] : List Call).length) = [(1, 3, 0)]) :=
  ⟨rfl, rfl, rfl, rfl,
   (creators_allocate_reported_size okBackend [] 1 2 24 800 600).1.2.2.1 1 3 rfl,
   (creators_allocate_reported_size okBackend [] 1 2 1920000 800 600).2.1.2.2.1 1 3 rfl,
   (creators_allocate_reported_size okBackend [] 1 2 24 800 600).2.2.2.2.1 1 3 5 rfl⟩

/-! ## Normal returns of the builders of `InitResources` -/

theorem CreateRenderPass_ok {b : Backend} {t t2 : List Call} {dev : Handle}
    {fmt layout : Nat} {rp : Handle}
    (h : (CreateRenderPass dev fmt layout).run b t = (Except.ok rp, t2)) :
    t2 = t ++ [Call.vkCreateRenderPass dev (renderPassCreateInfo fmt layout)] ∧
    rp = b.handle t (Call.vkCreateRenderPass dev (renderPassCreateInfo fmt layout)) := by
  unfold CreateRenderPass at h
  simp only [run_bind, run_callOut, run_ite, run_throw, run_pure] at h
  split_ifs at h <;> simp at h
  exact ⟨h.2.symm, h.1.symm⟩

theorem CreateFBO_ok {b : Backend} {t t2 : List Call} {dev rp view : Handle}
    {width height : Int} {fbo : Handle}
    (h : (CreateFBO dev rp view width height).run b t = (Except.ok fbo, t2)) :
    t2 = t ++ [Call.vkCreateFramebuffer dev
      ⟨rp, 1, [view], toUInt32 width, toUInt32 height, 1⟩] ∧
    fbo = b.handle t (Call.vkCreateFramebuffer dev
      ⟨rp, 1, [view], toUInt32 width, toUInt32 height, 1⟩) := by
  unfold CreateFBO at h
  simp only [run_bind, run_callOut, run_ite, run_throw, run_pure] at h
  split_ifs at h <;> simp at h
  exact ⟨h.2.symm, h.1.symm⟩

theorem AllCalls_pure {α : Type} (P : Call → Bool) (a : α) : AllCalls P (pure a : Prog α) :=
  fun _ _ => ⟨[], by simp [run_pure], by simp⟩

theorem AllCalls_throw {α : Type} (P : Call → Bool) (e : String) :
    AllCalls P (throw e : Prog α) :=
  fun _ _ => ⟨[], by simp [run_throw], by simp⟩

theorem AllCalls_call (P : Call → Bool) (c : Call) (hc : P c = true) : AllCalls P (call c) :=
  fun _ _ => ⟨[c], by simp [run_call], by simp [hc]⟩

theorem AllCalls_callOut (P : Call → Bool) (c : Call) (hc : P c = true) :
    AllCalls P (callOut c) :=
  fun _ _ => ⟨[c], by simp [run_callOut], by simp [hc]⟩

theorem AllCalls_callVoid (P : Call → Bool) (c : Call) (hc : P c = true) :
    AllCalls P (callVoid c) :=
  fun _ _ => ⟨[c], by simp [run_callVoid], by simp [hc]⟩

theorem AllCalls_ite {α : Type} (P : Call → Bool) (c : Prop) [Decidable c] (m n : Prog α)
    (hm : AllCalls P m) (hn : AllCalls P n) : AllCalls P (if c then m else n) := by
  split
  · exact hm
  · exact hn

theorem AllCalls_bind {α β : Type} (P : Call → Bool) (m : Prog α) (f : α → Prog β)
    (hm : AllCalls P m) (hf : ∀ a, AllCalls P (f a)) : AllCalls P (m >>= f) := by
  intro b t
  obtain ⟨new1, h1, hp1⟩ := hm b t
  rw [run_bind]
  rcases hr : m.run b t with ⟨e | a, t1⟩
  · exact ⟨new1, by simpa [hr] using h1, hp1⟩
  · have ht1 : t1 = t ++ new1 := by simpa [hr] using h1
    subst ht1
    obtain ⟨new2, h2, hp2⟩ := hf a b (t ++ new1)
    refine ⟨new1 ++ new2, by simp only [h2, List.append_assoc], ?_⟩
    intro c hc
    rcases List.mem_append.mp hc with hc | hc
    · exact hp1 c hc
    · exact hp2 c hc

/-- `CreateGraphicsPipeline` only reads the shader files, creates and destroys
the shader modules and creates the pipeline layout and the pipeline. -/
theorem CreateGraphicsPipeline_calls (dev : Handle) (extent : VkExtent2D) (rp : Handle) :
    AllCalls isPipelineSetupCall (CreateGraphicsPipeline dev extent rp) := by
  unfold CreateGraphicsPipeline ReadFile CreateShaderModule
  repeat' (first
    | exact AllCalls_pure _ _
    | exact AllCalls_throw _ _
    | exact AllCalls_callOut _ _ rfl
    | exact AllCalls_callVoid _ _ rfl
    | apply AllCalls_bind
    | apply AllCalls_ite
    | apply forall_pair
    | intro _)


/-- A normal return of `InitResources`, step by step: the histories after the
vertex buffer (`ta`), the render pass (`tb`), the off-screen image and its view
(`tc`), the framebuffer (`td`) and the staging buffer (`te`), and the handles
stored in the application object. -/
theorem InitResources_ok {b : Backend} {t t1 : List Call} {app app1 : App}
    (h : (InitResources app).run b t = (Except.ok app1, t1)) :
    ∃ (kv ki ks : Nat) (ta tb tc td te pipe : List Call) (layout pipeline : Handle),
      ta = t ++ bufferCreationCalls b t app.device (vertexBufferInfo 24) kv ∧
      tb = ta ++ [Call.vkCreateRenderPass app.device
        (renderPassCreateInfo FRAMEBUFFER_FORMAT VK_IMAGE_LAYOUT_TRANSFER_SRC_OPTIMAL)] ∧
      tc = tb ++ (imageCreationCalls b tb app.device (offscreenImageInfo WIDTH HEIGHT) ki ++
        [Call.vkCreateImageView app.device (offscreenViewInfo app1.offImage)]) ∧
      td = tc ++ [Call.vkCreateFramebuffer app.device
        ⟨app1.renderPassOffscreen, 1, [app1.offImageView], 800, 600, 1⟩] ∧
      te = td ++ bufferCreationCalls b td app.device (stagingBufferInfo 1920000) ks ∧
      t1 = te ++ pipe ∧
      (∀ c ∈ pipe, isPipelineSetupCall c = true) ∧
      app1 = { app with
        m_vbo := createdBuffer b t app.device (vertexBufferInfo 24),
        m_vboMem := bufferMemory b t app.device (vertexBufferInfo 24) kv,
        renderPassOffscreen := b.handle ta (Call.vkCreateRenderPass app.device
          (renderPassCreateInfo FRAMEBUFFER_FORMAT VK_IMAGE_LAYOUT_TRANSFER_SRC_OPTIMAL)),
        offImage := createdImage b tb app.device (offscreenImageInfo WIDTH HEIGHT),
        offImageMem := imageMemory b tb app.device (offscreenImageInfo WIDTH HEIGHT) ki,
        offImageView := b.handle
          (tb ++ imageCreationCalls b tb app.device (offscreenImageInfo WIDTH HEIGHT) ki)
          (Call.vkCreateImageView app.device (offscreenViewInfo
            (createdImage b tb app.device (offscreenImageInfo WIDTH HEIGHT)))),
        offFrameBufferObj := b.handle tc (Call.vkCreateFramebuffer app.device
          ⟨app1.renderPassOffscreen, 1, [app1.offImageView], 800, 600, 1⟩),
        stagingBuff := createdBuffer b td app.device (stagingBufferInfo 1920000),
        stagingBuffMem := bufferMemory b td app.device (stagingBufferInfo 1920000) ks,
        pipelineLayout := layout,
        graphicsPipeline := pipeline } := by
  unfold InitResources at h
  obtain ⟨⟨vbo, vboMem⟩, ta, h1, h⟩ := run_bind_ok h
  obtain ⟨kv, rfl, rfl, rfl⟩ := CreateVertexBuffer_ok h1
  obtain ⟨rp, tb, h1, h⟩ := run_bind_ok h
  obtain ⟨rfl, rfl⟩ := CreateRenderPass_ok h1
  obtain ⟨⟨img, imgMem, view⟩, tc, h1, h⟩ := run_bind_ok h
  obtain ⟨ki, rfl, rfl, rfl, rfl⟩ := CreateTextureForRenderToIt_ok h1
  obtain ⟨fbo, td, h1, h⟩ := run_bind_ok h
  obtain ⟨rfl, rfl⟩ := CreateFBO_ok h1
  obtain ⟨⟨st, stMem⟩, te, h1, h⟩ := run_bind_ok h
  obtain ⟨ks, rfl, rfl, rfl⟩ := CreateStagingBuffer_ok h1
  obtain ⟨⟨layout, pipeline⟩, tf, h1, h⟩ := run_bind_ok h
  obtain ⟨pipe, hpipe, hall⟩ := CreateGraphicsPipeline_calls _ _ _ b _
  rw [h1] at hpipe
  simp only [run_pure, Prod.mk.injEq, Except.ok.injEq] at h hpipe
  obtain ⟨rfl, rfl⟩ := h
  refine ⟨kv, ki, ks, _, _, _, _, _, pipe, layout, pipeline, rfl, rfl, rfl, rfl, rfl, hpipe,
    hall, rfl⟩

theorem not_createRenderPass_of_pipelineSetup {c : Call} (h : isPipelineSetupCall c = true) :
    isCreateRenderPass c = false := by
  cases c <;> simp_all [isPipelineSetupCall, isCreateRenderPass]

/-- C7. After `InitResources` and `RenderImageAndSaveItToFile` have returned
normally: `InitResources` created one render pass, whose attachment has final
layout transfer-source-optimal, and stored its handle; the only render pass
instance of the run is begun with that handle and the off-screen framebuffer;
the copy declares transfer-source-optimal as the layout of the off-screen
image; and between the end of the render pass and the copy no command at all
is recorded. -/
theorem copy_layout_is_render_pass_final_layout (b : Backend) (t t1 t2 : List Call)
    (app app1 : App)
    (h1 : (InitResources app).run b t = (Except.ok app1, t1))
    (h2 : (RenderImageAndSaveItToFile app1).run b t1 = (Except.ok (), t2)) :
    ∃ (pre post before mid gap rest : List Call) (rpInfo : VkRenderPassCreateInfo)
      (rpBegin : VkRenderPassBeginInfo) (cmd2 cmd3 : Handle),
      t1 = t ++ (pre ++ [Call.vkCreateRenderPass app.device rpInfo] ++ post) ∧
      app1.renderPassOffscreen =
        b.handle (t ++ pre) (Call.vkCreateRenderPass app.device rpInfo) ∧
      (∀ c ∈ pre ++ post, isCreateRenderPass c = false) ∧
      rpInfo.pAttachments.map (fun a => a.finalLayout) =
        [VK_IMAGE_LAYOUT_TRANSFER_SRC_OPTIMAL] ∧
      Call.vkCreateImageView app.device (offscreenViewInfo app1.offImage) ∈ post ∧
      Call.vkCreateFramebuffer app.device
        ⟨app1.renderPassOffscreen, 1, [app1.offImageView], 800, 600, 1⟩ ∈ post ∧
      t2 = t1 ++ (before ++
        [Call.vkCmdBeginRenderPass cmd2 rpBegin VK_SUBPASS_CONTENTS_INLINE] ++ mid ++
        [Call.vkCmdEndRenderPass cmd2] ++ gap ++
        [Call.vkCmdCopyImageToBuffer cmd3 app1.offImage VK_IMAGE_LAYOUT_TRANSFER_SRC_OPTIMAL
          app1.stagingBuff 1 [wholeRegion]] ++ rest) ∧
      rpBegin.renderPass = app1.renderPassOffscreen ∧
      rpBegin.framebuffer = app1.offFrameBufferObj ∧
      (∀ c ∈ before ++ mid ++ gap ++ rest, isBeginRenderPass c = false) ∧
      (∀ c ∈ gap, isRecordedCommand c = false) := by
  obtain ⟨kv, ki, ks, ta, tb, tc, td, te, pipe, layout, pipeline, hta, htb, htc, htd, hte,
    ht1, hpipe, happ⟩ := InitResources_ok h1
  obtain ⟨cmd1, fence1, cmd2, fence2, cmd3, fence3, mapped, rfl⟩ :=
    RenderImageAndSaveItToFile_ok h2
  refine ⟨bufferCreationCalls b t app.device (vertexBufferInfo 24) kv,
    imageCreationCalls b tb app.device (offscreenImageInfo WIDTH HEIGHT) ki ++
      ([Call.vkCreateImageView app.device (offscreenViewInfo app1.offImage)] ++
      ([Call.vkCreateFramebuffer app.device
          ⟨app1.renderPassOffscreen, 1, [app1.offImageView], 800, 600, 1⟩] ++
        (bufferCreationCalls b td app.device (stagingBufferInfo 1920000) ks ++ pipe))),
    uploadCalls app1 cmd1 fence1 ++ (drawCalls app1 cmd2 fence2).take 2,
    ((drawCalls app1 cmd2 fence2).drop 3).take 3,
    (drawCalls app1 cmd2 fence2).drop 7 ++ (copyCalls app1 cmd3 fence3).take 2,
    (copyCalls app1 cmd3 fence3).drop 3 ++ readbackCalls app1 mapped,
    renderPassCreateInfo FRAMEBUFFER_FORMAT VK_IMAGE_LAYOUT_TRANSFER_SRC_OPTIMAL,
    ⟨app1.renderPassOffscreen, app1.offFrameBufferObj, ⟨⟨0, 0⟩, ⟨800, 600⟩⟩, 1,
      [[⟨0, 1⟩, ⟨0, 1⟩, ⟨1, 4⟩, ⟨1, 1⟩]]⟩,
    cmd2, cmd3, ?_, ?_, ?_, rfl, ?_, ?_, ?_, rfl, rfl, ?_, ?_⟩
  · rw [ht1, hte, htd, htc, htb, hta]
    simp only [List.append_assoc]
  · have := congrArg App.renderPassOffscreen happ
    rw [this, hta]
  · intro c hc
    simp only [List.mem_append, List.mem_singleton, List.mem_cons, List.not_mem_nil, or_false,
      bufferCreationCalls, imageCreationCalls, bufferAllocation, imageAllocation] at hc
    casesm* _ ∨ _
    all_goals first
      | (subst c; rfl)
      | exact not_createRenderPass_of_pipelineSetup (hpipe c (by assumption))
  · simp
  · simp
  · simp [uploadCalls, drawCalls, copyCalls, readbackCalls]
  · intro c hc
    simp only [uploadCalls, drawCalls, copyCalls, readbackCalls, List.take_succ_cons,
      List.take_zero, List.drop_succ_cons, List.drop_zero, List.cons_append, List.nil_append,
      List.mem_cons, List.mem_singleton, List.not_mem_nil, or_false, List.append_assoc,
      List.mem_append] at hc
    casesm* _ ∨ _
    all_goals (subst c; rfl)
  · intro c hc
    simp only [drawCalls, copyCalls, List.take_succ_cons,
      List.take_zero, List.drop_succ_cons, List.drop_zero, List.cons_append, List.nil_append,
      List.mem_cons, List.mem_singleton, List.not_mem_nil, or_false, List.mem_append] at hc
    casesm* _ ∨ _
    all_goals (subst c; rfl)


/-- Witness of C7: the complete run on the backend on which every call
succeeds. -/
theorem copy_layout_is_render_pass_final_layout_witness :
    (InitResources okApp0).run okBackend okTrace0 = (Except.ok okApp1, okTrace1) ∧
    (RenderImageAndSaveItToFile okApp1).run okBackend okTrace1 = (Except.ok (), okTrace2) ∧
    ∃ (pre post before mid gap rest : List Call) (rpInfo : VkRenderPassCreateInfo)
      (rpBegin : VkRenderPassBeginInfo) (cmd2 cmd3 : Handle),
      okTrace1 = okTrace0 ++ (pre ++ [Call.vkCreateRenderPass okApp0.device rpInfo] ++ post) ∧
      okApp1.renderPassOffscreen =
        okBackend.handle (okTrace0 ++ pre) (Call.vkCreateRenderPass okApp0.device rpInfo) ∧
      (∀ c ∈ pre ++ post, isCreateRenderPass c = false) ∧
      rpInfo.pAttachments.map (fun a => a.finalLayout) =
        [VK_IMAGE_LAYOUT_TRANSFER_SRC_OPTIMAL] ∧
      Call.vkCreateImageView okApp0.device (offscreenViewInfo okApp1.offImage) ∈ post ∧
      Call.vkCreateFramebuffer okApp0.device
        ⟨okApp1.renderPassOffscreen, 1, [okApp1.offImageView], 800, 600, 1⟩ ∈ post ∧
      okTrace2 = okTrace1 ++ (before ++
        [Call.vkCmdBeginRenderPass cmd2 rpBegin VK_SUBPASS_CONTENTS_INLINE] ++ mid ++
        [Call.vkCmdEndRenderPass cmd2] ++ gap ++
        [Call.vkCmdCopyImageToBuffer cmd3 okApp1.offImage VK_IMAGE_LAYOUT_TRANSFER_SRC_OPTIMAL
          okApp1.stagingBuff 1 [wholeRegion]] ++ rest) ∧
      rpBegin.renderPass = okApp1.renderPassOffscreen ∧
      rpBegin.framebuffer = okApp1.offFrameBufferObj ∧
      (∀ c ∈ before ++ mid ++ gap ++ rest, isBeginRenderPass c = false) ∧
      (∀ c ∈ gap, isRecordedCommand c = false) :=
  ⟨rfl, rfl,
   copy_layout_is_render_pass_final_layout okBackend okTrace0 okTrace1 okTrace2 okApp0 okApp1
     rfl rfl⟩

/-- C8. For the 800x600 target: `WIDTH * HEIGHT` does not overflow `int` and
the size computed from it is 1,920,000 bytes; `InitResources` creates the
staging buffer with that size and binds the staging memory to it; the copy
recorded by `CopyTextureToBuffer_Now` into that buffer starts at buffer offset
0 and image offset (0,0,0), has row length `WIDTH` and image height `HEIGHT`
(no padding) and extent (`WIDTH`, `HEIGHT`, 1), so it writes exactly the first
1,920,000 bytes; and the range of the staging memory mapped afterwards for the
bitmap writer has the same size. -/
theorem copy_region_matches_staging_size (b : Backend) (t t1 t2 : List Call) (app app1 : App)
    (h1 : (InitResources app).run b t = (Except.ok app1, t1))
    (h2 : (RenderImageAndSaveItToFile app1).run b t1 = (Except.ok (), t2)) :
    fitsInt32 (WIDTH * HEIGHT) ∧
    WIDTH * HEIGHT * 4 = 1920000 ∧
    mulSizeT (toSizeT (wrapInt32 (WIDTH * HEIGHT))) sizeof_int = 1920000 ∧
    ∃ (td after before mid rest : List Call) (cmd3 : Handle) (region : VkBufferImageCopy)
      (stagingSize mappedSize : Nat),
      t1 = td ++ ([Call.vkCreateBuffer app.device (stagingBufferInfo stagingSize)] ++ after) ∧
      app1.stagingBuff = b.handle td (Call.vkCreateBuffer app.device
        (stagingBufferInfo stagingSize)) ∧
      Call.vkBindBufferMemory app.device app1.stagingBuff app1.stagingBuffMem 0 ∈ after ∧
      t2 = t1 ++ (before ++
        [Call.vkCmdCopyImageToBuffer cmd3 app1.offImage VK_IMAGE_LAYOUT_TRANSFER_SRC_OPTIMAL
          app1.stagingBuff 1 [region]] ++ mid ++
        [Call.vkMapMemory app1.device app1.stagingBuffMem 0 mappedSize 0] ++ rest) ∧
      region.bufferOffset = 0 ∧
      region.imageOffset = ⟨0, 0, 0⟩ ∧
      (region.bufferRowLength : Int) = WIDTH ∧
      (region.bufferImageHeight : Int) = HEIGHT ∧
      region.imageExtent = ⟨WIDTH.toNat, HEIGHT.toNat, 1⟩ ∧
      copyEnd region 4 = 1920000 ∧
      stagingSize = 1920000 ∧
      mappedSize = 1920000 := by
  obtain ⟨kv, ki, ks, ta, tb, tc, td, te, pipe, layout, pipeline, hta, htb, htc, htd, hte,
    ht1, hpipe, happ⟩ := InitResources_ok h1
  obtain ⟨cmd1, fence1, cmd2, fence2, cmd3, fence3, mapped, rfl⟩ :=
    RenderImageAndSaveItToFile_ok h2
  refine ⟨by decide, by decide, by decide, td,
    (bufferCreationCalls b td app.device (stagingBufferInfo 1920000) ks).drop 1 ++ pipe,
    uploadCalls app1 cmd1 fence1 ++ drawCalls app1 cmd2 fence2 ++
      (copyCalls app1 cmd3 fence3).take 2,
    (copyCalls app1 cmd3 fence3).drop 3,
    (readbackCalls app1 mapped).drop 1,
    cmd3, wholeRegion, 1920000, 1920000, ?_, ?_, ?_, ?_, rfl, rfl, by decide, by decide,
    by decide, by decide, rfl, rfl⟩
  · rw [ht1, hte]
    simp [bufferCreationCalls]
  · have := congrArg App.stagingBuff happ
    rw [this]
    rfl
  · have hs := congrArg App.stagingBuff happ
    have hm := congrArg App.stagingBuffMem happ
    rw [hs, hm]
    simp [bufferCreationCalls]
  · simp [uploadCalls, drawCalls, copyCalls, readbackCalls]

/-- Witness of C8: the complete run on the backend on which every call
succeeds. -/
theorem copy_region_matches_staging_size_witness :
    (InitResources okApp0).run okBackend okTrace0 = (Except.ok okApp1, okTrace1) ∧
    (RenderImageAndSaveItToFile okApp1).run okBackend okTrace1 = (Except.ok (), okTrace2) ∧
    Call.vkCreateBuffer 3 (stagingBufferInfo 1920000) ∈ okTrace1 ∧
    Call.vkMapMemory 3 21 0 1920000 0 ∈ okTrace2 ∧
    fitsInt32 (WIDTH * HEIGHT) :=
  ⟨rfl, rfl, by decide, by decide,
   (copy_region_matches_staging_size okBackend okTrace0 okTrace1 okTrace2 okApp0 okApp1
     rfl rfl).1⟩

/-! ## `InitVulkan` -/

theorem GetQueueFamilyIndex_ok {b : Backend} {t t2 : List Call} {pd : Handle} {bits i : Nat}
    (h : (GetQueueFamilyIndex pd bits).run b t = (Except.ok i, t2)) :
    t2 = t ∧ b.queueFamilyIndex pd bits = some i := by
  simp only [GetQueueFamilyIndex, Prog.run] at h
  cases hq : b.queueFamilyIndex pd bits with
  | none => simp [hq] at h
  | some k =>
    simp only [hq, Prod.mk.injEq, Except.ok.injEq] at h
    exact ⟨h.2.symm, by rw [h.1]⟩

theorem CreateInstance_ok {b : Backend} {t t2 : List Call} {v : Bool} {inst : Handle}
    (h : (CreateInstance v).run b t = (Except.ok inst, t2)) :
    t2 = t ++ [Call.CreateInstance v] ∧ inst = b.handle t (Call.CreateInstance v) := by
  unfold CreateInstance at h
  simp only [run_bind, run_callOut, run_ite, run_throw, run_pure] at h
  split_ifs at h <;> simp at h
  exact ⟨h.2.symm, h.1.symm⟩

theorem InitDebugReportCallback_ok {b : Backend} {t t2 : List Call} {inst cb : Handle}
    (h : (InitDebugReportCallback inst).run b t = (Except.ok cb, t2)) :
    t2 = t ++ [Call.InitDebugReportCallback inst] ∧
    cb = b.handle t (Call.InitDebugReportCallback inst) := by
  unfold InitDebugReportCallback at h
  simp only [run_bind, run_callOut, run_ite, run_throw, run_pure] at h
  split_ifs at h <;> simp at h
  exact ⟨h.2.symm, h.1.symm⟩

theorem FindPhysicalDevice_ok {b : Backend} {t t2 : List Call} {inst : Handle} {p : Bool}
    {deviceId : Int} {pd : Handle}
    (h : (FindPhysicalDevice inst p deviceId).run b t = (Except.ok pd, t2)) :
    t2 = t ++ [Call.FindPhysicalDevice inst p deviceId] ∧
    pd = b.handle t (Call.FindPhysicalDevice inst p deviceId) := by
  unfold FindPhysicalDevice at h
  simp only [run_bind, run_callOut, run_ite, run_throw, run_pure] at h
  split_ifs at h <;> simp at h
  exact ⟨h.2.symm, h.1.symm⟩

theorem CreateLogicalDevice_ok {b : Backend} {t t2 : List Call} {f : Nat} {pd dev : Handle}
    (h : (CreateLogicalDevice f pd).run b t = (Except.ok dev, t2)) :
    t2 = t ++ [Call.vkCreateDevice pd [f]] ∧ dev = b.handle t (Call.vkCreateDevice pd [f]) := by
  unfold CreateLogicalDevice at h
  simp only [run_bind, run_callOut, run_ite, run_throw, run_pure] at h
  split_ifs at h <;> simp at h
  exact ⟨h.2.symm, h.1.symm⟩

theorem GetQueueFamilyIndex_run_some {b : Backend} {pd : Handle} {bits i : Nat}
    (h : b.queueFamilyIndex pd bits = some i) (t : List Call) :
    (GetQueueFamilyIndex pd bits).run b t = (Except.ok i, t) := by
  simp only [GetQueueFamilyIndex, Prog.run, h]

/-- A normal return of `InitVulkan`: the queue families found, the calls made
from device creation on, and the handles stored. -/
theorem InitVulkan_ok {b : Backend} {t t1 : List Call} {v : Bool} {app app1 : App}
    (h : (InitVulkan v app).run b t = (Except.ok app1, t1)) :
    ∃ (f g : Nat) (pre : List Call),
      b.queueFamilyIndex app1.physicalDevice VK_QUEUE_GRAPHICS_BIT = some f ∧
      b.queueFamilyIndex app1.physicalDevice VK_QUEUE_TRANSFER_BIT = some g ∧
      (pre = [Call.CreateInstance v, Call.FindPhysicalDevice app1.inst true 0] ∨
       pre = [Call.CreateInstance v, Call.InitDebugReportCallback app1.inst,
              Call.FindPhysicalDevice app1.inst true 0]) ∧
      t1 = t ++ (pre ++
        [Call.vkCreateDevice app1.physicalDevice [f],
         Call.vkGetDeviceQueue app1.device f 0,
         Call.vkGetDeviceQueue app1.device g 0,
         Call.vkCreateCommandPool app1.device ⟨f⟩,
         Call.vkCreateCommandPool app1.device ⟨g⟩]) := by
  unfold InitVulkan at h
  obtain ⟨inst, ta, h1, h⟩ := run_bind_ok h
  obtain ⟨rfl, rfl⟩ := CreateInstance_ok h1
  obtain ⟨appA, tb, h1, h⟩ := run_bind_ok h
  obtain ⟨pd, tc, h2, h⟩ := run_bind_ok h
  obtain ⟨rfl, rfl⟩ := FindPhysicalDevice_ok h2
  obtain ⟨f, td, h2, h⟩ := run_bind_ok h
  obtain ⟨rfl, hf⟩ := GetQueueFamilyIndex_ok h2
  obtain ⟨g, td, h2, h⟩ := run_bind_ok h
  obtain ⟨rfl, hg⟩ := GetQueueFamilyIndex_ok h2
  obtain ⟨dev, td, h2, h⟩ := run_bind_ok h
  obtain ⟨rfl, rfl⟩ := CreateLogicalDevice_ok h2
  have hf2 := fun t0 => GetQueueFamilyIndex_run_some hf t0
  have hg2 := fun t0 => GetQueueFamilyIndex_run_some hg t0
  simp only [run_bind, run_callOut, run_callHandle, run_ite, run_throw, run_pure, hf2, hg2]
    at h
  split_ifs at h <;>
    simp only [Prod.mk.injEq, reduceCtorEq, false_and, Except.ok.injEq, List.append_assoc,
      List.singleton_append, List.cons_append, List.nil_append] at h
  obtain ⟨happ, ht1⟩ := h
  subst happ
  subst ht1
  cases v
  · simp only [Bool.false_eq_true, if_false, run_pure, Prod.mk.injEq, Except.ok.injEq] at h1
    obtain ⟨rfl, rfl⟩ := h1
    exact ⟨f, g, _, hf, hg, Or.inl rfl, by simp⟩
  · simp only [if_true] at h1
    obtain ⟨cb, te, h3, h1⟩ := run_bind_ok h1
    obtain ⟨rfl, rfl⟩ := InitDebugReportCallback_ok h3
    simp only [run_pure, Prod.mk.injEq, Except.ok.injEq] at h1
    obtain ⟨rfl, rfl⟩ := h1
    exact ⟨f, g, _, hf, hg, Or.inr rfl, by simp⟩


/-- On every normal return of `InitVulkan` the device is created with the
graphics family alone, while queues are retrieved from, and pools created for,
the graphics and the transfer family. -/
theorem InitVulkan_families (b : Backend) (v : Bool) (app app1 : App) (t t1 : List Call)
    (h : (InitVulkan v app).run b t = (Except.ok app1, t1)) :
    ∃ f g : Nat,
      b.queueFamilyIndex app1.physicalDevice VK_QUEUE_GRAPHICS_BIT = some f ∧
      b.queueFamilyIndex app1.physicalDevice VK_QUEUE_TRANSFER_BIT = some g ∧
      enabledFamilies (t1.drop t.length) = [f] ∧
      usedFamilies (t1.drop t.length) = [f, g, f, g] := by
  obtain ⟨f, g, pre, hf, hg, hpre, rfl⟩ := InitVulkan_ok h
  refine ⟨f, g, hf, hg, ?_, ?_⟩ <;>
    rcases hpre with rfl | rfl <;>
    simp [enabledFamilies, usedFamilies]

/-- C9 (failing input). On a device whose graphics family is 0 and whose
transfer family is 1, `InitVulkan` returns normally, the logical device was
created with family 0 alone, and a queue is retrieved from family 1 and a
command pool created for family 1, which was not enabled. -/
theorem transfer_family_not_enabled :
    (InitVulkan false App.init).run splitQueueBackend [] =
      (Except.ok okApp0,
        [Call.CreateInstance false,
         Call.FindPhysicalDevice 1 true 0,
         Call.vkCreateDevice 2 [0],
         Call.vkGetDeviceQueue 3 0 0,
         Call.vkGetDeviceQueue 3 1 0,
         Call.vkCreateCommandPool 3 ⟨0⟩,
         Call.vkCreateCommandPool 3 ⟨1⟩]) ∧
    enabledFamilies ((InitVulkan false App.init).run splitQueueBackend []).2 = [0] ∧
    usedFamilies ((InitVulkan false App.init).run splitQueueBackend []).2 = [0, 1, 0, 1] ∧
    ¬ (∀ f ∈ usedFamilies ((InitVulkan false App.init).run splitQueueBackend []).2,
        f ∈ enabledFamilies ((InitVulkan false App.init).run splitQueueBackend []).2) :=
  ⟨rfl, rfl, rfl, by decide⟩

/-- C10 (counterexample). On a device whose graphics and transfer family are
both family 0, `InitVulkan` creates two command pools, not one. -/
theorem one_family_two_pools :
    okBackend.queueFamilyIndex 2 VK_QUEUE_GRAPHICS_BIT =
      okBackend.queueFamilyIndex 2 VK_QUEUE_TRANSFER_BIT ∧
    ((InitVulkan false App.init).run okBackend []).1 = Except.ok okApp0 ∧
    createdPools ((InitVulkan false App.init).run okBackend []).2 = [(3, 0), (3, 0)] ∧
    ¬ ((createdPools ((InitVulkan false App.init).run okBackend []).2).length = 1) :=
  ⟨rfl, rfl, rfl, by decide⟩

/-- C10 (amended). For every pair of queue family indices found for graphics
and for transfer, a normal return of `InitVulkan` has created exactly two
command pools on the logical device: the first for the graphics family, the
second for the transfer family, also when the two indices coincide. -/
theorem InitVulkan_creates_two_pools (b : Backend) (v : Bool) (app app1 : App)
    (t t1 : List Call)
    (h : (InitVulkan v app).run b t = (Except.ok app1, t1)) :
    ∃ f g : Nat,
      b.queueFamilyIndex app1.physicalDevice VK_QUEUE_GRAPHICS_BIT = some f ∧
      b.queueFamilyIndex app1.physicalDevice VK_QUEUE_TRANSFER_BIT = some g ∧
      createdPools (t1.drop t.length) = [(app1.device, f), (app1.device, g)] := by
  obtain ⟨f, g, pre, hf, hg, hpre, rfl⟩ := InitVulkan_ok h
  refine ⟨f, g, hf, hg, ?_⟩
  rcases hpre with rfl | rfl <;> simp [createdPools]

/-- Witness of C10 (amended) on a device with distinct graphics and transfer
families. -/
theorem InitVulkan_creates_two_pools_witness :
    ∃ f g : Nat,
      splitQueueBackend.queueFamilyIndex okApp0.physicalDevice VK_QUEUE_GRAPHICS_BIT = some f ∧
      splitQueueBackend.queueFamilyIndex okApp0.physicalDevice VK_QUEUE_TRANSFER_BIT = some g ∧
      createdPools (((InitVulkan false App.init).run splitQueueBackend []).2.drop
          ([] : List Call).length) =
        [(okApp0.device, f), (okApp0.device, g)] :=
  InitVulkan_creates_two_pools splitQueueBackend false App.init okApp0 []
    ((InitVulkan false App.init).run splitQueueBackend []).2 rfl

/-! ## Further facts -/

/-- The synchronisation check rejects a second submission made before the wait
for the first, a mapping made before the wait, and a second submission made
after a wait that timed out. -/
theorem hostSynchronised_rejects :
    hostSynchronised okBackend [] [submitCall 1 2 3, submitCall 1 4 5] = false ∧
    hostSynchronised okBackend [] [submitCall 1 2 3, Call.vkMapMemory 0 7 0 16 0] = false ∧
    hostSynchronised timeoutBackend [] [submitCall 1 2 3, waitCall 0 3, submitCall 1 4 5] =
      false ∧
    hostSynchronised okBackend [] [submitCall 1 2 3, waitCall 0 3, submitCall 1 4 5] = true :=
  ⟨rfl, rfl, rfl, rfl⟩

/-- A rejected command-buffer allocation ends each of the three executions with
a fatal error, with no further call. -/
theorem rejected_allocation_is_fatal (b : Backend) (t : List Call) (dev pool queue : Handle)
    (triPos : List CFloat) (floatsNum : Int) (buffer : Handle)
    (pipeline vbo fbo : Handle) (extent : VkExtent2D) (renderPass : Handle)
    (image : Handle) (width height : Int) (outBuffer : Handle)
    (h : b.result t (allocCall dev pool) ≠ VK_SUCCESS) :
    (PutTriangleVerticesToVBO_Now dev pool queue triPos floatsNum buffer).run b t =
      (Except.error "[PutTriangleVerticesToVBO_Now]: failed to allocate command buffer!",
        t ++ [allocCall dev pool]) ∧
    (RenderToTexture_Now dev pool queue pipeline vbo fbo extent renderPass).run b t =
      (Except.error "[RenderToTexture_Now]: failed to allocate command buffer!",
        t ++ [allocCall dev pool]) ∧
    (CopyTextureToBuffer_Now dev pool queue image width height outBuffer).run b t =
      (Except.error "[RenderToTexture_Now]: failed to allocate command buffer!",
        t ++ [allocCall dev pool]) := by
  simp only [allocCall] at h
  refine ⟨?_, ?_, ?_⟩
  · simp [PutTriangleVerticesToVBO_Now, run_bind, run_callOut, run_ite, run_throw, h, allocCall]
  · simp [RenderToTexture_Now, run_bind, run_callOut, run_ite, run_throw, h, allocCall]
  · simp [CopyTextureToBuffer_Now, run_bind, run_callOut, run_ite, run_throw, h, allocCall]

/-- When `RunCommandBuffer` is reached with a submission the backend rejects, it
ends with a fatal error right after the rejected submission: no wait is
made. -/
theorem rejected_submission_is_fatal (b : Backend) (t : List Call) (cmd q dev : Handle)
    (h1 : b.result t (createFenceCall dev) = VK_SUCCESS)
    (h2 : b.result (t ++ [createFenceCall dev])
      (submitCall q cmd (b.handle t (createFenceCall dev))) ≠ VK_SUCCESS) :
    (RunCommandBuffer cmd q dev).run b t =
      (Except.error "Fatal : VkResult is not VK_SUCCESS",
        t ++ [createFenceCall dev, submitCall q cmd (b.handle t (createFenceCall dev))]) := by
  rw [RunCommandBuffer_run]
  simp [h1, h2]

/-- C11. For every image format, `CreateRenderPass` called with final layout
transfer-source-optimal, as `InitResources` calls it, makes one call,
`vkCreateRenderPass`, whose description has exactly one attachment (that
format, one sample, load op clear, store op store, initial layout undefined,
final layout transfer-source-optimal), exactly one subpass (graphics, its only
color output attachment 0, no input attachment) and exactly one dependency
(from the external source to subpass 0, destination stage
color-attachment-output, destination access color-attachment read and write);
and a normal return of `InitResources` has made that call for
`FRAMEBUFFER_FORMAT`. -/
theorem render_pass_description (b : Backend) (t : List Call) (dev : Handle) (fmt : Nat) :
    ((CreateRenderPass dev fmt VK_IMAGE_LAYOUT_TRANSFER_SRC_OPTIMAL).run b t).2 =
      t ++ [Call.vkCreateRenderPass dev
        (renderPassCreateInfo fmt VK_IMAGE_LAYOUT_TRANSFER_SRC_OPTIMAL)] ∧
    (renderPassCreateInfo fmt VK_IMAGE_LAYOUT_TRANSFER_SRC_OPTIMAL).attachmentCount = 1 ∧
    (renderPassCreateInfo fmt VK_IMAGE_LAYOUT_TRANSFER_SRC_OPTIMAL).pAttachments =
      [{ format := fmt, samples := VK_SAMPLE_COUNT_1_BIT,
         loadOp := VK_ATTACHMENT_LOAD_OP_CLEAR, storeOp := VK_ATTACHMENT_STORE_OP_STORE,
         stencilLoadOp := VK_ATTACHMENT_LOAD_OP_DONT_CARE,
         stencilStoreOp := VK_ATTACHMENT_STORE_OP_DONT_CARE,
         initialLayout := VK_IMAGE_LAYOUT_UNDEFINED,
         finalLayout := VK_IMAGE_LAYOUT_TRANSFER_SRC_OPTIMAL }] ∧
    (renderPassCreateInfo fmt VK_IMAGE_LAYOUT_TRANSFER_SRC_OPTIMAL).subpassCount = 1 ∧
    (renderPassCreateInfo fmt VK_IMAGE_LAYOUT_TRANSFER_SRC_OPTIMAL).pSubpasses.map
        (fun s => (s.pipelineBindPoint, s.inputAttachmentCount, s.colorAttachmentCount,
          s.pColorAttachments.map (fun r => r.attachment))) =
      [(VK_PIPELINE_BIND_POINT_GRAPHICS, 0, 1, [0])] ∧
    (renderPassCreateInfo fmt VK_IMAGE_LAYOUT_TRANSFER_SRC_OPTIMAL).dependencyCount = 1 ∧
    (renderPassCreateInfo fmt VK_IMAGE_LAYOUT_TRANSFER_SRC_OPTIMAL).pDependencies.map
        (fun d => (d.srcSubpass, d.dstSubpass, d.dstStageMask, d.dstAccessMask)) =
      [(VK_SUBPASS_EXTERNAL, 0, VK_PIPELINE_STAGE_COLOR_ATTACHMENT_OUTPUT_BIT,
        VK_ACCESS_COLOR_ATTACHMENT_READ_BIT ||| VK_ACCESS_COLOR_ATTACHMENT_WRITE_BIT)] ∧
    (∀ (app app1 : App) (t1 : List Call),
      (InitResources app).run b t = (Except.ok app1, t1) →
      (t1.drop t.length).filter isCreateRenderPass =
        [Call.vkCreateRenderPass app.device
          (renderPassCreateInfo FRAMEBUFFER_FORMAT VK_IMAGE_LAYOUT_TRANSFER_SRC_OPTIMAL)]) := by
  refine ⟨?_, rfl, rfl, rfl, rfl, rfl, rfl, ?_⟩
  · unfold CreateRenderPass
    simp only [run_bind, run_callOut, run_ite, run_throw, run_pure]
    split_ifs <;> rfl
  · intro app app1 t1 h
    obtain ⟨kv, ki, ks, ta, tb, tc, td, te, pipe, layout, pipeline, hta, htb, htc, htd, hte,
      ht1, hpipe, happ⟩ := InitResources_ok h
    have hp : pipe.filter isCreateRenderPass = [] := by
      rw [List.filter_eq_nil_iff]
      intro c hc
      simp [not_createRenderPass_of_pipelineSetup (hpipe c hc)]
    rw [ht1, hte, htd, htc, htb, hta]
    simp only [List.append_assoc, List.drop_left, List.filter_append, hp]
    simp [bufferCreationCalls, imageCreationCalls, bufferAllocation, imageAllocation,
      isCreateRenderPass]

/-- Witness of C11: the render pass created in the complete run on the backend
on which every call succeeds. -/
theorem render_pass_description_witness :
    (InitResources okApp0).run okBackend okTrace0 = (Except.ok okApp1, okTrace1) ∧
    (okTrace1.drop okTrace0.length).filter isCreateRenderPass =
      [Call.vkCreateRenderPass okApp0.device
        (renderPassCreateInfo FRAMEBUFFER_FORMAT VK_IMAGE_LAYOUT_TRANSFER_SRC_OPTIMAL)] :=
  ⟨rfl, (render_pass_description okBackend okTrace0 3 FRAMEBUFFER_FORMAT).2.2.2.2.2.2.2
    okApp0 okApp1 okTrace1 rfl⟩

/-! ## `run` and `main` -/

theorem poolRun_rejects :
    poolsOutliveBuffers okBackend []
      [Call.vkAllocateCommandBuffers 3 ⟨6, VK_COMMAND_BUFFER_LEVEL_PRIMARY, 1⟩,
       Call.vkDestroyCommandPool 3 6] = false := by
  rfl

/-- C14. The upload does not stay inside the buffer or the array. On every
backend, when `InitResources` and then `RenderImageAndSaveItToFile` return
normally, the first call of `InitResources` creates the vertex buffer with a
size of `6 * sizeof(float)` = 24 bytes, and the only buffer update of the
rendering writes, from offset 0 of that buffer, `(6 * 2) * sizeof(float)` = 48
bytes read from `trianglePos`, whose byte size is 24: the byte count is twice
the size of the buffer and twice the size of the array. -/
theorem vertex_upload_exceeds_buffer (b : Backend) (t t1 t2 : List Call) (app app1 : App)
    (h1 : (InitResources app).run b t = (Except.ok app1, t1))
    (h2 : (RenderImageAndSaveItToFile app1).run b t1 = (Except.ok (), t2)) :
    (t1.drop t.length).head? = some (Call.vkCreateBuffer app.device (vertexBufferInfo 24)) ∧
    app1.m_vbo = b.handle t (Call.vkCreateBuffer app.device (vertexBufferInfo 24)) ∧
    (vertexBufferInfo 24).size = mulSizeT (toSizeT 6) sizeof_float ∧
    updateBufferCalls (t2.drop t1.length) = [(app1.m_vbo, 0, 48, 24)] ∧
    mulSizeT (toSizeT (wrapInt32 (6 * 2))) sizeof_float = 48 ∧
    trianglePos.length * sizeof_float = 24 ∧
    ¬ (0 + 48 ≤ (vertexBufferInfo 24).size) ∧
    ¬ (48 ≤ trianglePos.length * sizeof_float) := by
  obtain ⟨kv, ki, ks, ta, tb, tc, td, te, pipe, layout, pipeline, ha, hb, hc, hd, he, ht1,
    hp, happ⟩ := InitResources_ok h1
  obtain ⟨cmd1, fence1, cmd2, fence2, cmd3, fence3, mapped, ht2⟩ :=
    RenderImageAndSaveItToFile_ok h2
  refine ⟨?_, ?_, by decide, ?_, by decide, by decide, by decide, by decide⟩
  · rw [ht1, he, hd, hc, hb, ha]
    simp [List.append_assoc, bufferCreationCalls]
  · rw [happ]
    rfl
  · rw [ht2]
    simp [uploadCalls, drawCalls, copyCalls, readbackCalls, updateBufferCalls, trianglePos,
      sizeof_float]

theorem vertex_upload_exceeds_buffer_witness :
    (InitResources okApp0).run okBackend okTrace0 = (Except.ok okApp1, okTrace1) ∧
    (RenderImageAndSaveItToFile okApp1).run okBackend okTrace1 = (Except.ok (), okTrace2) ∧
    Call.vkCreateBuffer 3 (vertexBufferInfo 24) ∈ okTrace1 ∧
    Call.vkCmdUpdateBuffer 31 8 0 48 trianglePos ∈ okTrace2 ∧
    updateBufferCalls (okTrace2.drop okTrace1.length) = [(8, 0, 48, 24)] :=
  ⟨rfl, rfl, by decide, by decide,
   (vertex_upload_exceeds_buffer okBackend okTrace0 okTrace1 okTrace2 okApp0 okApp1
     rfl rfl).2.2.2.1⟩

/-! ## Families of the command pools and of the queues -/

/-- C15. The upload is allocated from the transfer pool and submitted to the
graphics queue. On every backend a normal return of
`RenderImageAndSaveItToFile` has made exactly these allocations and
submissions, in this order: the upload from `commandPoolTransfer` to
`graphicsQueue`, the draw from `commandPool` to `graphicsQueue`, the copy from
`commandPoolTransfer` to `transferQueue`. On a device whose graphics family is
0 and whose transfer family is 1 the whole of `run` returns normally and the
upload's command buffer, from a pool of family 1, is submitted to a queue of
family 0; when both families are 0 the three submissions match. -/
theorem upload_submitted_to_other_family :
    (∀ (b : Backend) (app : App) (t t2 : List Call),
      (RenderImageAndSaveItToFile app).run b t = (Except.ok (), t2) →
      ∃ cmd1 fence1 cmd2 fence2 cmd3 fence3 : Handle,
        (t2.drop t.length).filter isAllocateOrSubmit =
          [Call.vkAllocateCommandBuffers app.device
             ⟨app.commandPoolTransfer, VK_COMMAND_BUFFER_LEVEL_PRIMARY, 1⟩,
           Call.vkQueueSubmit app.graphicsQueue 1 [⟨0, 1, [cmd1], 0⟩] fence1,
           Call.vkAllocateCommandBuffers app.device
             ⟨app.commandPool, VK_COMMAND_BUFFER_LEVEL_PRIMARY, 1⟩,
           Call.vkQueueSubmit app.graphicsQueue 1 [⟨0, 1, [cmd2], 0⟩] fence2,
           Call.vkAllocateCommandBuffers app.device
             ⟨app.commandPoolTransfer, VK_COMMAND_BUFFER_LEVEL_PRIMARY, 1⟩,
           Call.vkQueueSubmit app.transferQueue 1 [⟨0, 1, [cmd3], 0⟩] fence3]) ∧
    splitQueueBackend.queueFamilyIndex 2 VK_QUEUE_GRAPHICS_BIT = some 0 ∧
    splitQueueBackend.queueFamilyIndex 2 VK_QUEUE_TRANSFER_BIT = some 1 ∧
    ((run false App.init).run splitQueueBackend []).1 = Except.ok () ∧
    submissionFamilies splitQueueBackend ((run false App.init).run splitQueueBackend []).2 =
      [(some 1, some 0), (some 0, some 0), (some 1, some 1)] ∧
    ¬ (∀ p ∈ submissionFamilies splitQueueBackend
          ((run false App.init).run splitQueueBackend []).2, p.1 = p.2) ∧
    submissionFamilies okBackend ((run false App.init).run okBackend []).2 =
      [(some 0, some 0), (some 0, some 0), (some 0, some 0)] := by
  refine ⟨?_, rfl, rfl, rfl, rfl, by decide, rfl⟩
  intro b app t t2 h
  obtain ⟨cmd1, fence1, cmd2, fence2, cmd3, fence3, mapped, ht2⟩ :=
    RenderImageAndSaveItToFile_ok h
  refine ⟨cmd1, fence1, cmd2, fence2, cmd3, fence3, ?_⟩
  rw [ht2]
  simp [uploadCalls, drawCalls, copyCalls, readbackCalls, isAllocateOrSubmit]
/-! ## The vertex data read by the draw -/

theorem ReadFile_ok {b : Backend} {t t2 : List Call} {name : String} {code : Handle}
    (h : (ReadFile name).run b t = (Except.ok code, t2)) :
    t2 = t ++ [Call.ReadFile name] ∧ code = b.handle t (Call.ReadFile name) := by
  unfold ReadFile at h
  simp only [run_bind, run_callOut, run_ite, run_throw, run_pure] at h
  split_ifs at h <;> simp at h
  exact ⟨h.2.symm, h.1.symm⟩

theorem CreateShaderModule_ok {b : Backend} {t t2 : List Call} {dev code m : Handle}
    (h : (CreateShaderModule dev code).run b t = (Except.ok m, t2)) :
    t2 = t ++ [Call.CreateShaderModule dev code] ∧
    m = b.handle t (Call.CreateShaderModule dev code) := by
  unfold CreateShaderModule at h
  simp only [run_bind, run_callOut, run_ite, run_throw, run_pure] at h
  split_ifs at h <;> simp at h
  exact ⟨h.2.symm, h.1.symm⟩

theorem CreateGraphicsPipeline_ok {b : Backend} {t t2 : List Call} {dev rp : Handle}
    {extent : VkExtent2D} {layout pipeline : Handle}
    (h : (CreateGraphicsPipeline dev extent rp).run b t = (Except.ok (layout, pipeline), t2)) :
    ∃ (vcode fcode vmod fmod : Handle) (pinfo : VkGraphicsPipelineCreateInfo),
      t2 = t ++ ([Call.ReadFile "shaders/vert.spv", Call.ReadFile "shaders/frag.spv",
          Call.CreateShaderModule dev vcode, Call.CreateShaderModule dev fcode,
          Call.vkCreatePipelineLayout dev ⟨0, 0⟩] ++
        [Call.vkCreateGraphicsPipelines dev VK_NULL_HANDLE 1 [pinfo]] ++
        [Call.vkDestroyShaderModule dev fmod, Call.vkDestroyShaderModule dev vmod]) ∧
      pipeline = b.handle (t ++ [Call.ReadFile "shaders/vert.spv",
          Call.ReadFile "shaders/frag.spv",
          Call.CreateShaderModule dev vcode, Call.CreateShaderModule dev fcode,
          Call.vkCreatePipelineLayout dev ⟨0, 0⟩])
        (Call.vkCreateGraphicsPipelines dev VK_NULL_HANDLE 1 [pinfo]) ∧
      pinfo.pVertexInputState =
        ⟨1, [⟨0, sizeof_float * 2, VK_VERTEX_INPUT_RATE_VERTEX⟩],
         1, [⟨0, 0, VK_FORMAT_R32G32_SFLOAT, 0⟩]⟩ ∧
      pinfo.layout = layout ∧ pinfo.renderPass = rp := by
  unfold CreateGraphicsPipeline at h
  obtain ⟨vcode, ta, h1, h⟩ := run_bind_ok h
  obtain ⟨rfl, rfl⟩ := ReadFile_ok h1
  obtain ⟨fcode, tb, h1, h⟩ := run_bind_ok h
  obtain ⟨rfl, rfl⟩ := ReadFile_ok h1
  obtain ⟨vmod, tc, h1, h⟩ := run_bind_ok h
  obtain ⟨rfl, rfl⟩ := CreateShaderModule_ok h1
  obtain ⟨fmod, td, h1, h⟩ := run_bind_ok h
  obtain ⟨rfl, rfl⟩ := CreateShaderModule_ok h1
  simp only [run_bind, run_callOut, run_callVoid, run_ite, run_throw, run_pure] at h
  split_ifs at h <;> simp at h
  obtain ⟨⟨rfl, rfl⟩, rfl⟩ := h
  exact ⟨_, _, _, _, _, by simp only [List.append_assoc, List.singleton_append,
    List.cons_append, List.nil_append]; rfl, by
      simp only [List.append_assoc, List.singleton_append, List.cons_append,
        List.nil_append], rfl, rfl, rfl⟩

theorem InitResources_pipeline_ok {b : Backend} {t t1 : List Call} {app app1 : App}
    (h : (InitResources app).run b t = (Except.ok app1, t1)) :
    ∃ (pre post : List Call) (pinfo : VkGraphicsPipelineCreateInfo),
      t1 = t ++ (pre ++ [Call.vkCreateGraphicsPipelines app.device VK_NULL_HANDLE 1 [pinfo]] ++
        post) ∧
      app1.graphicsPipeline = b.handle (t ++ pre)
        (Call.vkCreateGraphicsPipelines app.device VK_NULL_HANDLE 1 [pinfo]) ∧
      (∀ c ∈ pre ++ post, isCreateGraphicsPipelines c = false) ∧
      pinfo.pVertexInputState =
        ⟨1, [⟨0, sizeof_float * 2, VK_VERTEX_INPUT_RATE_VERTEX⟩],
         1, [⟨0, 0, VK_FORMAT_R32G32_SFLOAT, 0⟩]⟩ ∧
      pinfo.renderPass = app1.renderPassOffscreen ∧
      pre.head? = some (Call.vkCreateBuffer app.device (vertexBufferInfo 24)) ∧
      app1.m_vbo = b.handle t (Call.vkCreateBuffer app.device (vertexBufferInfo 24)) := by
  unfold InitResources at h
  obtain ⟨⟨vbo, vboMem⟩, ta, h1, h⟩ := run_bind_ok h
  obtain ⟨kv, ha, hvbo, -⟩ := CreateVertexBuffer_ok h1
  obtain ⟨rp, tb, h1, h⟩ := run_bind_ok h
  obtain ⟨hb, hrp⟩ := CreateRenderPass_ok h1
  obtain ⟨⟨img, imgMem, view⟩, tc, h1, h⟩ := run_bind_ok h
  obtain ⟨ki, hc, -, -, -⟩ := CreateTextureForRenderToIt_ok h1
  obtain ⟨fbo, td, h1, h⟩ := run_bind_ok h
  obtain ⟨hd, -⟩ := CreateFBO_ok h1
  obtain ⟨⟨st, stMem⟩, te, h1, h⟩ := run_bind_ok h
  obtain ⟨ks, he, -, -⟩ := CreateStagingBuffer_ok h1
  obtain ⟨⟨layout, pipeline⟩, tf, h1, h⟩ := run_bind_ok h
  obtain ⟨vcode, fcode, vmod, fmod, pinfo, hf, hpipe, hv, hl, hr⟩ :=
    CreateGraphicsPipeline_ok h1
  simp only [run_pure, Prod.mk.injEq, Except.ok.injEq] at h
  obtain ⟨happ, ht1⟩ := h
  have hte : ∃ X : List Call, te = t ++ X ∧
      X.head? = some (Call.vkCreateBuffer app.device (vertexBufferInfo 24)) ∧
      ∀ c ∈ X, isCreateGraphicsPipelines c = false := by
    exact ⟨_, by
        rw [he, hd, hc, hb, ha]
        simp only [List.append_assoc]
        exact rfl, by simp [bufferCreationCalls]; rfl, by
        intro c hc
        simp only [List.mem_append, List.mem_cons, List.mem_singleton, List.not_mem_nil,
          or_false, bufferCreationCalls, imageCreationCalls, bufferAllocation,
          imageAllocation] at hc
        casesm* _ ∨ _
        all_goals (subst c; rfl)⟩
  obtain ⟨X, hX, hhead, hnone⟩ := hte
  refine ⟨X ++ [Call.ReadFile "shaders/vert.spv", Call.ReadFile "shaders/frag.spv",
      Call.CreateShaderModule app.device vcode, Call.CreateShaderModule app.device fcode,
      Call.vkCreatePipelineLayout app.device ⟨0, 0⟩],
    [Call.vkDestroyShaderModule app.device fmod,
      Call.vkDestroyShaderModule app.device vmod], pinfo, ?_, ?_, ?_, hv, ?_, ?_, ?_⟩
  · rw [← ht1, hf, hX]
    simp only [List.append_assoc]
  · rw [← happ, hpipe, hX]
    simp only [List.append_assoc]
  · intro c hc
    simp only [List.mem_append, List.mem_cons, List.mem_singleton, List.not_mem_nil,
      or_false] at hc
    rcases hc with (hc | hc) | hc
    · exact hnone c hc
    · casesm* _ ∨ _
      all_goals (subst c; rfl)
    · casesm* _ ∨ _
      all_goals (subst c; rfl)
  · rw [← happ, hr]
  · cases X with
    | nil => simp at hhead
    | cons x rest => simpa using hhead
  · rw [← happ, hvbo]
    rfl

/-- C16. On every backend, when `InitResources` and then
`RenderImageAndSaveItToFile` return normally: `InitResources` has made exactly
one pipeline creation, whose handle is the application's pipeline and whose
vertex input state has one binding (binding 0, stride 8, per vertex) and one
attribute (location 0, binding 0, `R32G32_SFLOAT`, offset 0), the stride being
the byte size of that attribute; the vertex buffer is the buffer of the first
call of `InitResources`, created with 24 bytes; the rendering binds that
pipeline, binds that buffer to binding 0 at offset 0 and draws 3 vertices, 1
instance, from vertex 0 and instance 0, and makes no other such command; the
three vertices are read from the bytes 0 to 8, 8 to 16 and 16 to 24 of the
buffer, that is from exactly the 24 bytes it was created with. -/
theorem vertex_reads_inside_buffer (b : Backend) (t t1 t2 : List Call) (app app1 : App)
    (h1 : (InitResources app).run b t = (Except.ok app1, t1))
    (h2 : (RenderImageAndSaveItToFile app1).run b t1 = (Except.ok (), t2)) :
    ∃ (pre post : List Call) (pinfo : VkGraphicsPipelineCreateInfo) (cmd : Handle),
      t1 = t ++ (pre ++ [Call.vkCreateGraphicsPipelines app.device VK_NULL_HANDLE 1 [pinfo]] ++
        post) ∧
      app1.graphicsPipeline = b.handle (t ++ pre)
        (Call.vkCreateGraphicsPipelines app.device VK_NULL_HANDLE 1 [pinfo]) ∧
      (∀ c ∈ pre ++ post, isCreateGraphicsPipelines c = false) ∧
      pinfo.pVertexInputState.vertexBindingDescriptionCount = 1 ∧
      pinfo.pVertexInputState.pVertexBindingDescriptions =
        [⟨0, 8, VK_VERTEX_INPUT_RATE_VERTEX⟩] ∧
      pinfo.pVertexInputState.vertexAttributeDescriptionCount = 1 ∧
      pinfo.pVertexInputState.pVertexAttributeDescriptions =
        [⟨0, 0, VK_FORMAT_R32G32_SFLOAT, 0⟩] ∧
      (∀ bd ∈ pinfo.pVertexInputState.pVertexBindingDescriptions,
        ∀ attr ∈ pinfo.pVertexInputState.pVertexAttributeDescriptions,
          attr.binding = bd.binding ∧ bd.stride = formatSize attr.format ∧ attr.offset = 0 ∧
          vertexReads bd attr 0 0 3 = [(0, 8), (8, 16), (16, 24)]) ∧
      pre.head? = some (Call.vkCreateBuffer app.device (vertexBufferInfo 24)) ∧
      app1.m_vbo = b.handle t (Call.vkCreateBuffer app.device (vertexBufferInfo 24)) ∧
      (vertexBufferInfo 24).size = 24 ∧
      (t2.drop t1.length).filter isVertexFetchCommand =
        [Call.vkCmdBindPipeline cmd VK_PIPELINE_BIND_POINT_GRAPHICS app1.graphicsPipeline,
         Call.vkCmdBindVertexBuffers cmd 0 1 [app1.m_vbo] [0],
         Call.vkCmdDraw cmd 3 1 0 0] := by
  obtain ⟨pre, post, pinfo, ht1, hpipe, hother, hv, -, hhead, hvbo⟩ :=
    InitResources_pipeline_ok h1
  obtain ⟨cmd1, fence1, cmd2, fence2, cmd3, fence3, mapped, ht2⟩ :=
    RenderImageAndSaveItToFile_ok h2
  refine ⟨pre, post, pinfo, cmd2, ht1, hpipe, hother, ?_, ?_, ?_, ?_, ?_, hhead, hvbo, rfl, ?_⟩
  · rw [hv]
  · rw [hv]
    rfl
  · rw [hv]
  · rw [hv]
  · rw [hv]
    intro bd hbd attr hattr
    simp only [List.mem_singleton] at hbd hattr
    subst hbd
    subst hattr
    exact ⟨rfl, rfl, rfl, rfl⟩
  · rw [ht2]
    simp [uploadCalls, drawCalls, copyCalls, readbackCalls, isVertexFetchCommand]

theorem vertex_reads_inside_buffer_witness :
    (InitResources okApp0).run okBackend okTrace0 = (Except.ok okApp1, okTrace1) ∧
    (RenderImageAndSaveItToFile okApp1).run okBackend okTrace1 = (Except.ok (), okTrace2) ∧
    ∃ (pre post : List Call) (pinfo : VkGraphicsPipelineCreateInfo) (cmd : Handle),
      okTrace1 = okTrace0 ++ (pre ++ [Call.vkCreateGraphicsPipelines okApp0.device VK_NULL_HANDLE 1 [pinfo]] ++
        post) ∧
      okApp1.graphicsPipeline = okBackend.handle (okTrace0 ++ pre)
        (Call.vkCreateGraphicsPipelines okApp0.device VK_NULL_HANDLE 1 [pinfo]) ∧
      (∀ c ∈ pre ++ post, isCreateGraphicsPipelines c = false) ∧
      pinfo.pVertexInputState.vertexBindingDescriptionCount = 1 ∧
      pinfo.pVertexInputState.pVertexBindingDescriptions =
        [⟨0, 8, VK_VERTEX_INPUT_RATE_VERTEX⟩] ∧
      pinfo.pVertexInputState.vertexAttributeDescriptionCount = 1 ∧
      pinfo.pVertexInputState.pVertexAttributeDescriptions =
        [⟨0, 0, VK_FORMAT_R32G32_SFLOAT, 0⟩] ∧
      (∀ bd ∈ pinfo.pVertexInputState.pVertexBindingDescriptions,
        ∀ attr ∈ pinfo.pVertexInputState.pVertexAttributeDescriptions,
          attr.binding = bd.binding ∧ bd.stride = formatSize attr.format ∧ attr.offset = 0 ∧
          vertexReads bd attr 0 0 3 = [(0, 8), (8, 16), (16, 24)]) ∧
      pre.head? = some (Call.vkCreateBuffer okApp0.device (vertexBufferInfo 24)) ∧
      okApp1.m_vbo = okBackend.handle okTrace0 (Call.vkCreateBuffer okApp0.device (vertexBufferInfo 24)) ∧
      (vertexBufferInfo 24).size = 24 ∧
      (okTrace2.drop okTrace1.length).filter isVertexFetchCommand =
        [Call.vkCmdBindPipeline cmd VK_PIPELINE_BIND_POINT_GRAPHICS okApp1.graphicsPipeline,
         Call.vkCmdBindVertexBuffers cmd 0 1 [okApp1.m_vbo] [0],
         Call.vkCmdDraw cmd 3 1 0 0] :=
  ⟨rfl, rfl,
   vertex_reads_inside_buffer okBackend okTrace0 okTrace1 okTrace2 okApp0 okApp1 rfl rfl⟩

end HelloTriangleApplication
